import Mathlib

/-!
# cluster-api-provider-cloudstack: the provider client (`pkg/cloud`)

A shallow embedding of the network part (`network.go`) and the affinity group part
(`affinity_groups.go`) of the CloudStack provider client.

* A Go `error` is `Option GoError`; a non-nil error is identified by the text of its
  `Error()` method, except that a `*multierror.Error` keeps the list of the texts it
  aggregates, because `multierror.Append` extends that list.
* The cloud provider is an oracle (`cloudstack.CloudStackClient`): one response function per
  API operation. Every operation below calls each API at most once, so a response function of
  the request alone describes every single run.
* A method that takes a `*CloudStackCluster` returns the cluster as it is after the call,
  together with the sequence of provider requests it issued, in order (`Ret`).
* A function that can index past the end of a slice, or dereference a nil `InstanceID`,
  returns a `Run`, which records the panic.
* The order in which `range` visits a Go map is unspecified: the functions that range over a
  map take the order as an argument (`MapRange`), and the theorems hold for every order.
* Go maps `map[string]string` are lists of entries; lookup takes the first entry of a key.
-/

set_option autoImplicit false

/-! ## Go library functions -/

/-- A non-nil Go error value. -/
inductive GoError where
  /-- An error known by its text: `errors.New`, `errors.Errorf`, `errors.Wrapf`, provider errors. -/
  | plain (msg : String)
  /-- A `*multierror.Error` holding the texts of the errors appended so far. -/
  | multi (errs : List String)
deriving DecidableEq, Repr

namespace multierror

/-- Source `multierror.ListFormatFunc`, the default format of a `*multierror.Error`. -/
def ListFormatFunc (es : List String) : String :=
  match es with
  | [e] => "1 error occurred:\n\t* " ++ e ++ "\n\n"
  | _ => toString es.length ++ " errors occurred:\n\t" ++
      "\n\t".intercalate (es.map fun e => "* " ++ e) ++ "\n\n"

end multierror

namespace GoError

/-- The `Error()` method: the text of an error. -/
def Error : GoError → String
  | plain m => m
  | multi es => multierror.ListFormatFunc es

end GoError

namespace multierror

/-- Source `multierror.Append(err, e)` for a non-nil `e`: the errors of `err` (none when `err` is nil,
`err` itself when it is not a `*multierror.Error`) followed by those of `e`, flattened. -/
def Append (err : Option GoError) (e : GoError) : GoError :=
  let old : List String :=
    match err with
    | none => []
    | some (GoError.multi es) => es
    | some (GoError.plain m) => [m]
  match e with
  | GoError.multi es => GoError.multi (old ++ es)
  | GoError.plain m => GoError.multi (old ++ [m])

end multierror

namespace errors

/-- Source `errors.New(msg)`; `errors.Errorf` is `New` of the formatted text. -/
def New (msg : String) : GoError := GoError.plain msg

/-- Source `errors.Wrapf(err, msg)` for a non-nil `err`, with `msg` the formatted text:
the result reads `msg: err`. -/
def Wrapf (err : GoError) (msg : String) : GoError :=
  GoError.plain (msg ++ ": " ++ err.Error)

end errors

namespace strings

/-- Source `strings.HasPrefix(s, pre)`. -/
def HasPrefix (s pre : String) : Bool := pre.data.isPrefixOf s.data

/-- Substring test on the characters of two strings. -/
def containsChars (sub : List Char) : List Char → Bool
  | [] => sub.isPrefixOf []
  | c :: cs => sub.isPrefixOf (c :: cs) || containsChars sub cs

/-- Source `strings.Contains(s, substr)`. -/
def Contains (s substr : String) : Bool := containsChars substr.data s.data

/-- The ASCII fragment of `strings.ToLower`: it agrees with Go on every ASCII string. -/
def asciiToLower (s : String) : String := ⟨s.data.map Char.toLower⟩

end strings

/-- The verb `%d` of `fmt`, for an `int`. -/
def fmt_d (n : Int) : String := toString n

namespace strconv

/-- Source `strconv.Itoa`: the decimal text of an `int`. -/
def Itoa (n : Int) : String := toString n

end strconv

/-! ## Go maps of strings -/

/-- A `map[string]string`, as the list of its entries. -/
abbrev Tags := List (String × String)

namespace Tags

/-- The keys of the map, as `range` visits them. -/
def keys (m : Tags) : List String := m.map Prod.fst

/-- Indexing `m[k]`: the value stored under `k`, the empty string when `k` is absent. -/
def get (m : Tags) (k : String) : String := (m.lookup k).getD ""

/-- Assignment `m[k] = v`: replaces the entry of `k` where there is one, adds it otherwise. -/
def set : Tags → String → String → Tags
  | [], k, v => [(k, v)]
  | (k', v') :: m, k, v => if k' = k then (k, v) :: m else (k', v') :: set m k v

end Tags

namespace GoMap

/-- Assignment `m[k] = v` on a Go map with string keys, kept as the list of its entries:
replaces the entry of `k` where there is one, adds it otherwise. -/
def set {β : Type} : List (String × β) → String → β → List (String × β)
  | [], k, v => [(k, v)]
  | (k', v') :: m, k, v => if k' = k then (k, v) :: m else (k', v') :: set m k v

/-- The builtin `delete(m, k)`: drops the entry of `k`. -/
def delete {β : Type} (m : List (String × β)) (k : String) : List (String × β) :=
  m.filter fun p => p.1 ≠ k

/-- The values of the entries of a map. -/
def values {β : Type} (m : List (String × β)) : List β := m.map Prod.snd

end GoMap

/-! ## API types -/

namespace capiv1

/-- Source `APIEndpoint` of cluster-api: the control plane endpoint. `Port` is an `int32`. -/
structure APIEndpoint where
  Host : String
  Port : Int
deriving DecidableEq, Repr

end capiv1

namespace infrav1

/-- Modelled from the spec: the declaration of `Network` (api/v1beta1) is not among the sources;
the fields are those the sources use. -/
structure Network where
  ID : String
  Name : String
  Type_ : String
deriving DecidableEq, Repr

/-- Modelled from the spec: the declaration of `Zone` (api/v1beta1) is not among the sources;
the fields are those the sources use. -/
structure Zone where
  ID : String
  Name : String
  Network : Network
deriving DecidableEq, Repr

/-- Modelled from the spec: the declaration of `CloudStackIdentityReference` is not among the
sources; the fields are those the sources use. -/
structure CloudStackIdentityReference where
  Kind : String
  Name : String
deriving DecidableEq, Repr

/-- Modelled from the spec: the declaration of `CloudStackClusterSpec` is not among the sources;
the fields are those the sources read. -/
structure CloudStackClusterSpec where
  Zones : List Zone
  Network : String
  ControlPlaneEndpoint : capiv1.APIEndpoint
  Account : String
  Domain : String
  IdentityRef : Option CloudStackIdentityReference
deriving DecidableEq, Repr

/-- Modelled from the spec: the declaration of `CloudStackClusterStatus` is not among the
sources; the fields are those the sources read and write. `FailureDomains` maps a zone ID to
the `ControlPlane` flag of its `FailureDomainSpec`. -/
structure CloudStackClusterStatus where
  Zones : List (String × Zone)
  FailureDomains : List (String × Bool)
  ZoneID : String
  NetworkID : String
  NetworkType : String
  DomainID : String
  PublicIPID : String
  LBRuleID : String
  Ready : Bool
deriving DecidableEq, Repr

/-- Modelled from the spec: the declaration of `CloudStackCluster` is not among the sources;
of its `ObjectMeta` the `UID` and the `Finalizers` are kept. -/
structure CloudStackCluster where
  UID : String
  Finalizers : List String
  Spec : CloudStackClusterSpec
  Status : CloudStackClusterStatus
deriving DecidableEq, Repr

/-- Modelled from the spec: the declaration of `CloudStackMachineSpec` is not among the sources;
of its fields the `InstanceID`, a `*string` that is nil until the instance is provisioned, is
the one the affinity group code reads. -/
structure CloudStackMachineSpec where
  InstanceID : Option String
deriving DecidableEq, Repr

/-- Modelled from the spec: the declaration of `CloudStackMachine` is not among the sources;
the affinity group code reads its `Spec` alone. -/
structure CloudStackMachine where
  Spec : CloudStackMachineSpec
deriving DecidableEq, Repr

end infrav1

/-! ## The provider API (`cloudstack-go`) -/

namespace cloudstack

/-- The fields of `cloudstack.Network` the client reads. -/
structure Network where
  Id : String
  Type_ : String
deriving DecidableEq, Repr

/-- The fields of `cloudstack.PublicIpAddress` the client reads. `Allocated` is a timestamp,
empty for an address that is not allocated. -/
structure PublicIpAddress where
  Id : String
  Ipaddress : String
  Allocated : String
  Associatednetworkid : String
deriving DecidableEq, Repr

/-- Source `ListPublicIpAddressesResponse`. -/
structure ListPublicIpAddressesResponse where
  Count : Int
  PublicIpAddresses : List PublicIpAddress
deriving DecidableEq, Repr

/-- Source `CreateNetworkParams`: the four arguments of `NewCreateNetworkParams` and the optional
account and domain. A parameter that was never set is `none`. -/
structure CreateNetworkParams where
  name : String
  displaytext : String
  networkofferingid : String
  zoneid : String
  account : Option String
  domainid : Option String
deriving DecidableEq, Repr

/-- Source `ListPublicIpAddressesParams`, as far as the client sets it. -/
structure ListPublicIpAddressesParams where
  allocatedonly : Option Bool
  account : Option String
  domainid : Option String
  ipaddress : Option String
deriving DecidableEq, Repr

/-- Source `AssociateIpAddressParams`, as far as the client sets it. -/
structure AssociateIpAddressParams where
  networkid : Option String
  ipaddress : Option String
  account : Option String
  domainid : Option String
deriving DecidableEq, Repr

/-- The result `(*Network, int, error)` of `GetNetworkByID`: the count, and either the error
or the network (the library returns a non-nil network whenever it returns a nil error). -/
structure GetNetworkByIDResult where
  count : Int
  result : Except GoError Network

/-- Source `NetworkService`: responses of the provider to the network requests. `GetNetworkID`
returns the triple `(id, count, err)`. -/
structure NetworkService where
  GetNetworkID : String → String × Int × Option GoError
  GetNetworkByID : String → GetNetworkByIDResult
  CreateNetwork : CreateNetworkParams → Except GoError Network
  DeleteNetwork : String → Option GoError

/-- Source `NetworkOfferingService`. `GetNetworkOfferingID` returns `(id, count, err)`. -/
structure NetworkOfferingService where
  GetNetworkOfferingID : String → String × Int × Option GoError

/-- Source `AddressService`. -/
structure AddressService where
  ListPublicIpAddresses : ListPublicIpAddressesParams → Except GoError ListPublicIpAddressesResponse
  AssociateIpAddress : AssociateIpAddressParams → Option GoError

/-- The fields of `cloudstack.AffinityGroup` the client reads. -/
structure AffinityGroup where
  Id : String
  Name : String
  Type_ : String
deriving DecidableEq, Repr

/-- The result `(*AffinityGroup, int, error)` of `GetAffinityGroupByID` and of
`GetAffinityGroupByName`: the count, and either the error or the group (the library returns a
non-nil group whenever it returns a nil error). -/
structure GetAffinityGroupResult where
  count : Int
  result : Except GoError AffinityGroup

/-- Source `CreateAffinityGroupParams`: the two arguments of `NewCreateAffinityGroupParams` and
the optional account and domain. -/
structure CreateAffinityGroupParams where
  name : String
  type_ : String
  account : Option String
  domainid : Option String
deriving DecidableEq, Repr

/-- The field of `CreateAffinityGroupResponse` the client reads. -/
structure CreateAffinityGroupResponse where
  Id : String
deriving DecidableEq, Repr

/-- Source `UpdateVMAffinityGroupParams`: the instance ID given to
`NewUpdateVMAffinityGroupParams` and the list set with `SetAffinitygroupids`. -/
structure UpdateVMAffinityGroupParams where
  id : String
  affinitygroupids : List String
deriving DecidableEq, Repr

/-- Source `AffinityGroupService`. -/
structure AffinityGroupService where
  GetAffinityGroupByID : String → GetAffinityGroupResult
  GetAffinityGroupByName : String → GetAffinityGroupResult
  CreateAffinityGroup : CreateAffinityGroupParams → Except GoError CreateAffinityGroupResponse
  UpdateVMAffinityGroup : UpdateVMAffinityGroupParams → Option GoError

/-- An entry of the `Affinitygroup` list of a `cloudstack.VirtualMachine`. -/
structure VirtualMachineAffinitygroup where
  Id : String
  Name : String
  Type_ : String
deriving DecidableEq, Repr

/-- The field of `cloudstack.VirtualMachine` the client reads. -/
structure VirtualMachine where
  Affinitygroup : List VirtualMachineAffinitygroup
deriving DecidableEq, Repr

/-- The result `(*VirtualMachine, int, error)` of `GetVirtualMachineByID`: the count, and
either the error or the instance. -/
structure GetVirtualMachineResult where
  count : Int
  result : Except GoError VirtualMachine

/-- Source `VirtualMachineService`. The stop and start requests are given by the instance ID
their parameters are made from. -/
structure VirtualMachineService where
  GetVirtualMachineByID : String → GetVirtualMachineResult
  StopVirtualMachine : String → Option GoError
  StartVirtualMachine : String → Option GoError

/-- The fields of `cloudstack.LoadBalancerRule` the client reads. `Publicport` is a string. -/
structure LoadBalancerRule where
  Id : String
  Publicport : String
deriving DecidableEq, Repr

/-- Source `ListLoadBalancerRulesParams`, as far as the client sets it. -/
structure ListLoadBalancerRulesParams where
  publicipid : Option String
  account : Option String
  domainid : Option String
deriving DecidableEq, Repr

/-- The field of `ListLoadBalancerRulesResponse` the client reads. -/
structure ListLoadBalancerRulesResponse where
  LoadBalancerRules : List LoadBalancerRule
deriving DecidableEq, Repr

/-- Source `CreateLoadBalancerRuleParams`: the four arguments of
`NewCreateLoadBalancerRuleParams` (algorithm, name, private port, public port) and the
parameters the client sets afterwards. -/
structure CreateLoadBalancerRuleParams where
  algorithm : String
  name : String
  privateport : Int
  publicport : Int
  networkid : Option String
  publicipid : Option String
  protocol : Option String
  account : Option String
  domainid : Option String
deriving DecidableEq, Repr

/-- The field of `CreateLoadBalancerRuleResponse` the client reads. -/
structure CreateLoadBalancerRuleResponse where
  Id : String
deriving DecidableEq, Repr

/-- Source `LoadBalancerService`. -/
structure LoadBalancerService where
  ListLoadBalancerRules : ListLoadBalancerRulesParams →
    Except GoError ListLoadBalancerRulesResponse
  CreateLoadBalancerRule : CreateLoadBalancerRuleParams →
    Except GoError CreateLoadBalancerRuleResponse

/-- Source `CreateEgressFirewallRuleParams`: the two arguments of
`NewCreateEgressFirewallRuleParams`. -/
structure CreateEgressFirewallRuleParams where
  networkid : String
  protocol : String
deriving DecidableEq, Repr

/-- Source `FirewallService`. Of the response of `CreateEgressFirewallRule` the client keeps the
error alone. -/
structure FirewallService where
  CreateEgressFirewallRule : CreateEgressFirewallRuleParams → Option GoError

/-- Source `CloudStackClient`: the provider, as the responses it gives. -/
structure CloudStackClient where
  Network : NetworkService
  NetworkOffering : NetworkOfferingService
  Address : AddressService
  AffinityGroup : AffinityGroupService
  VirtualMachine : VirtualMachineService
  LoadBalancer : LoadBalancerService
  Firewall : FirewallService

end cloudstack

/-! ## The client (`pkg/cloud`) -/

namespace cloud

open infrav1

/-- The client. Its methods `GetNetworkTags`, `AddNetworkTags` and `DeleteNetworkTags` (the
tag accessor, tags.go) are not among the sources; they are taken as parameters: requests to
the provider, answered by these response functions. -/
structure client where
  cs : cloudstack.CloudStackClient
  GetNetworkTags : String → Except GoError Tags
  AddNetworkTags : String → Tags → Option GoError
  DeleteNetworkTags : String → Tags → Option GoError

/-- A request issued to the provider. -/
inductive Call where
  | GetNetworkID (name : String)
  | GetNetworkByID (id : String)
  | GetNetworkOfferingID (name : String)
  | CreateNetwork (p : cloudstack.CreateNetworkParams)
  | DeleteNetwork (id : String)
  | GetNetworkTags (networkID : String)
  | AddNetworkTags (networkID : String) (tags : Tags)
  | DeleteNetworkTags (networkID : String) (tags : Tags)
  | ListPublicIpAddresses (p : cloudstack.ListPublicIpAddressesParams)
  | AssociateIpAddress (p : cloudstack.AssociateIpAddressParams)
  | GetAffinityGroupByID (id : String)
  | GetAffinityGroupByName (name : String)
  | CreateAffinityGroup (p : cloudstack.CreateAffinityGroupParams)
  | GetVirtualMachineByID (id : String)
  | StopVirtualMachine (id : String)
  | UpdateVMAffinityGroup (p : cloudstack.UpdateVMAffinityGroupParams)
  | StartVirtualMachine (id : String)
  | ListLoadBalancerRules (p : cloudstack.ListLoadBalancerRulesParams)
  | CreateLoadBalancerRule (p : cloudstack.CreateLoadBalancerRuleParams)
  | CreateEgressFirewallRule (p : cloudstack.CreateEgressFirewallRuleParams)
deriving DecidableEq, Repr

namespace Call

/-- The request creates a network. -/
def isCreateNetwork : Call → Bool
  | CreateNetwork _ => true
  | _ => false

/-- The request destroys a network. -/
def isDeleteNetwork : Call → Bool
  | DeleteNetwork _ => true
  | _ => false

/-- The request adds tags to a network. -/
def isAddNetworkTags : Call → Bool
  | AddNetworkTags _ _ => true
  | _ => false

/-- The request associates a public address to a network. -/
def isAssociateIpAddress : Call → Bool
  | AssociateIpAddress _ => true
  | _ => false

/-- The request changes the provider state (anything but a lookup). -/
def isWrite : Call → Bool
  | CreateNetwork _ => true
  | DeleteNetwork _ => true
  | AddNetworkTags _ _ => true
  | DeleteNetworkTags _ _ => true
  | AssociateIpAddress _ => true
  | CreateAffinityGroup _ => true
  | StopVirtualMachine _ => true
  | UpdateVMAffinityGroup _ => true
  | StartVirtualMachine _ => true
  | CreateLoadBalancerRule _ => true
  | CreateEgressFirewallRule _ => true
  | _ => false

/-- The request creates an affinity group. -/
def isCreateAffinityGroup : Call → Bool
  | CreateAffinityGroup _ => true
  | _ => false

/-- The request looks an affinity group up by name. -/
def isGetAffinityGroupByName : Call → Bool
  | GetAffinityGroupByName _ => true
  | _ => false

/-- The request stops an instance, changes its affinity groups, or starts it. -/
def isStopUpdateStart : Call → Bool
  | StopVirtualMachine _ => true
  | UpdateVMAffinityGroup _ => true
  | StartVirtualMachine _ => true
  | _ => false

/-- The request creates a load balancer rule. -/
def isCreateLoadBalancerRule : Call → Bool
  | CreateLoadBalancerRule _ => true
  | _ => false

end Call

/-- What a method on `*CloudStackCluster` leaves behind: the returned error, the cluster
object after the call, and the requests issued, in order. -/
structure Ret where
  err : Option GoError
  cluster : CloudStackCluster
  calls : List Call
deriving DecidableEq, Repr

/-- Modelled from the spec: the constant `clusterTagNamePrefix` (tags.go) is not among the
sources; the value is the one test/dummies/vars.go builds the cluster tag key from. -/
def clusterTagNamePrefix : String := "CAPC_cluster_"

/-- Modelled from the spec: the constant `createdByCapcTagName` (tags.go) is not among the
sources; the value is the created-by key of test/dummies/vars.go. -/
def createdByCapcTagName : String := "create_by_CAPC"

/-- Modelled from the spec: the helper `setIfNotEmpty` (helpers.go) is not among the sources;
it calls the setter only for a non-empty string, so the parameter stays unset otherwise. -/
def setIfNotEmpty (str : String) : Option String :=
  if str ≠ "" then some str else none

def netOffering : String := "DefaultIsolatedNetworkOfferingWithSourceNatService"

def k8sDefaultAPIPort : Int := 6443

def networkProtocolTCP : String := "tcp"

/-- Source `generateNetworkTagName`: the name of the ownership tag of a cluster. -/
def generateNetworkTagName (csCluster : CloudStackCluster) : String :=
  clusterTagNamePrefix ++ csCluster.UID

/-- Source `DestroyNetwork`: one `DeleteNetwork` request for `Status.NetworkID`. -/
def DestroyNetwork (c : client) (csCluster : CloudStackCluster) : Ret :=
  { err := c.cs.Network.DeleteNetwork csCluster.Status.NetworkID
    cluster := csCluster
    calls := [Call.DeleteNetwork csCluster.Status.NetworkID] }

/-- The loop of `DeleteNetworkIfNotInUse`: the number of tag names with the cluster prefix. -/
def clusterTagCount : List String → Nat
  | [] => 0
  | tagName :: rest =>
    if strings.HasPrefix tagName clusterTagNamePrefix then clusterTagCount rest + 1
    else clusterTagCount rest

/-- Source `DeleteNetworkIfNotInUse`. -/
def DeleteNetworkIfNotInUse (c : client) (csCluster : CloudStackCluster) : Ret :=
  match c.GetNetworkTags csCluster.Status.NetworkID with
  | Except.error err =>
    { err := some err, cluster := csCluster
      calls := [Call.GetNetworkTags csCluster.Status.NetworkID] }
  | Except.ok tags =>
    if clusterTagCount tags.keys = 0 ∧ tags.get createdByCapcTagName ≠ "" then
      let r := DestroyNetwork c csCluster
      { r with calls := Call.GetNetworkTags csCluster.Status.NetworkID :: r.calls }
    else
      { err := none, cluster := csCluster
        calls := [Call.GetNetworkTags csCluster.Status.NetworkID] }

/-- Source `ResolveNetwork`: looks the declared network up by name, then by ID (the ID the name
lookup returned, or the declared name itself when that lookup failed), and fills in
`Status.NetworkID` and `Status.NetworkType` when the lookup by ID finds one network. -/
def ResolveNetwork (c : client) (csCluster : CloudStackCluster) : Ret :=
  let (networkID, count, err) := c.cs.Network.GetNetworkID csCluster.Spec.Network
  let retErr : Option GoError :=
    match err with
    | some e => some (multierror.Append none (errors.Wrapf e
        ("Could not get Network ID from " ++ csCluster.Spec.Network ++ ".")))
    | none =>
      if count ≠ 1 then some (multierror.Append none (errors.New
        ("Expected 1 Network with name " ++ csCluster.Spec.Network ++ ", but got " ++
          fmt_d count ++ ".")))
      else none
  let networkID : String :=
    match err with
    | some _ => csCluster.Spec.Network
    | none => networkID
  let calls := [Call.GetNetworkID csCluster.Spec.Network, Call.GetNetworkByID networkID]
  let byID := c.cs.Network.GetNetworkByID networkID
  match byID.result with
  | Except.error err =>
    { err := some (multierror.Append retErr (errors.Wrapf err
        ("Could not get Network by ID " ++ networkID ++ ".")))
      cluster := csCluster, calls := calls }
  | Except.ok networkDetails =>
    if byID.count ≠ 1 then
      { err := some (multierror.Append retErr (errors.New
          ("Expected 1 Network with UUID " ++ networkID ++ ", but got " ++
            fmt_d byID.count ++ ".")))
        cluster := csCluster, calls := calls }
    else
      { err := none
        cluster := { csCluster with Status := { csCluster.Status with
          NetworkID := networkID, NetworkType := networkDetails.Type_ } }
        calls := calls }

/-- Source `addClusterTags`: adds the ownership tag of the cluster, and with `addCreatedByTag`
the created-by tag, each only when it has no value yet. -/
def addClusterTags (c : client) (csCluster : CloudStackCluster) (addCreatedByTag : Bool) : Ret :=
  let clusterTagName := generateNetworkTagName csCluster
  let newTags : Tags := []
  match c.GetNetworkTags csCluster.Status.NetworkID with
  | Except.error err =>
    { err := some err, cluster := csCluster
      calls := [Call.GetNetworkTags csCluster.Status.NetworkID] }
  | Except.ok existingTags =>
    let newTags : Tags :=
      if existingTags.get clusterTagName = "" then newTags.set clusterTagName "1" else newTags
    let newTags : Tags :=
      if addCreatedByTag = true ∧ existingTags.get createdByCapcTagName = "" then
        newTags.set createdByCapcTagName "1"
      else newTags
    if newTags.length > 0 then
      { err := c.AddNetworkTags csCluster.Status.NetworkID newTags, cluster := csCluster
        calls := [Call.GetNetworkTags csCluster.Status.NetworkID,
          Call.AddNetworkTags csCluster.Status.NetworkID newTags] }
    else
      { err := none, cluster := csCluster
        calls := [Call.GetNetworkTags csCluster.Status.NetworkID] }

/-- Source `GetOrCreateNetwork`. `ToLower` stands for `strings.ToLower` of the Go library. -/
def GetOrCreateNetwork (ToLower : String → String) (c : client) (csCluster : CloudStackCluster) :
    Ret :=
  let r := ResolveNetwork c csCluster
  match r.err with
  | none => -- Found network.
    let t := addClusterTags c r.cluster false
    { t with calls := r.calls ++ t.calls }
  | some retErr =>
    if ¬ strings.Contains (ToLower retErr.Error) "no match found" = true then r -- Some other error.
    else
      -- Create network since it wasn't found.
      let csCluster := r.cluster
      let (offeringID, count, retErr) := c.cs.NetworkOffering.GetNetworkOfferingID netOffering
      let calls := r.calls ++ [Call.GetNetworkOfferingID netOffering]
      match retErr with
      | some e => { err := some e, cluster := csCluster, calls := calls }
      | none =>
        if count ≠ 1 then
          { err := some (errors.New "found more than one network offering")
            cluster := csCluster, calls := calls }
        else
          let p : cloudstack.CreateNetworkParams :=
            { name := csCluster.Spec.Network
              displaytext := csCluster.Spec.Network
              networkofferingid := offeringID
              zoneid := csCluster.Status.ZoneID
              account := setIfNotEmpty csCluster.Spec.Account
              domainid := setIfNotEmpty csCluster.Status.DomainID }
          let calls := calls ++ [Call.CreateNetwork p]
          match c.cs.Network.CreateNetwork p with
          | Except.error err => { err := some err, cluster := csCluster, calls := calls }
          | Except.ok resp =>
            let csCluster := { csCluster with Status := { csCluster.Status with
              NetworkID := resp.Id, NetworkType := resp.Type_ } }
            let t := addClusterTags c csCluster true
            { t with calls := calls ++ t.calls }

/-- How a Go function ends: it returns a value, or it panics (an index out of range). -/
inductive Run (α : Type) where
  | panic
  | ret (a : α)
deriving DecidableEq, Repr

/-- The parameters `ResolvePublicIPDetails` lists the public addresses with. -/
def listPublicIpAddressesParams (csCluster : CloudStackCluster) :
    cloudstack.ListPublicIpAddressesParams :=
  let ip := csCluster.Spec.ControlPlaneEndpoint.Host
  { allocatedonly := some false
    account := setIfNotEmpty csCluster.Spec.Account
    domainid := setIfNotEmpty csCluster.Status.DomainID
    ipaddress := if ip ≠ "" then some ip else none }

/-- The loop of `ResolvePublicIPDetails`: the first address with an empty `Allocated`. -/
def firstAvailable : List cloudstack.PublicIpAddress → Option cloudstack.PublicIpAddress
  | [] => none
  | v :: rest => if v.Allocated = "" then some v else firstAvailable rest

/-- Source `ResolvePublicIPDetails`: the pair `(address, nil)` is `Except.ok`, the pair
`(nil, err)` is `Except.error`. Its one request is `ListPublicIpAddresses` with
`listPublicIpAddressesParams`. -/
def ResolvePublicIPDetails (c : client) (csCluster : CloudStackCluster) :
    Run (Except GoError cloudstack.PublicIpAddress) :=
  let ip := csCluster.Spec.ControlPlaneEndpoint.Host
  match c.cs.Address.ListPublicIpAddresses (listPublicIpAddressesParams csCluster) with
  | Except.error err => Run.ret (Except.error err)
  | Except.ok publicAddresses =>
    if ip ≠ "" ∧ publicAddresses.Count = 1 then -- Endpoint specified and IP found.
      match publicAddresses.PublicIpAddresses with
      | [] => Run.panic
      | a :: _ => Run.ret (Except.ok a)
    else if publicAddresses.Count > 0 then -- Endpoint not specified.
      match firstAvailable publicAddresses.PublicIpAddresses with
      | some v => Run.ret (Except.ok v)
      | none => Run.ret (Except.error
          (errors.New "all Public IP Adresse(s) found were already allocated"))
    else
      Run.ret (Except.error (errors.New
        ("no public addresses found in network: \"" ++ csCluster.Spec.Network ++ "\"")))

/-- Source `AssociatePublicIPAddress`: gets a public IP and associates it. -/
def AssociatePublicIPAddress (c : client) (csCluster : CloudStackCluster) : Run Ret :=
  let listCall := Call.ListPublicIpAddresses (listPublicIpAddressesParams csCluster)
  match ResolvePublicIPDetails c csCluster with
  | Run.panic => Run.panic
  | Run.ret (Except.error err) =>
    Run.ret { err := some err, cluster := csCluster, calls := [listCall] }
  | Run.ret (Except.ok publicAddress) =>
    let csCluster : CloudStackCluster :=
      { csCluster with
        Spec := { csCluster.Spec with ControlPlaneEndpoint :=
          { csCluster.Spec.ControlPlaneEndpoint with Host := publicAddress.Ipaddress } }
        Status := { csCluster.Status with PublicIPID := publicAddress.Id } }
    if publicAddress.Allocated ≠ "" ∧
        publicAddress.Associatednetworkid = csCluster.Status.NetworkID then
      -- Address already allocated to network.
      Run.ret { err := none, cluster := csCluster, calls := [listCall] }
    else
      let p : cloudstack.AssociateIpAddressParams :=
        { networkid := some csCluster.Status.NetworkID
          ipaddress := some csCluster.Spec.ControlPlaneEndpoint.Host
          account := setIfNotEmpty csCluster.Spec.Account
          domainid := setIfNotEmpty csCluster.Status.DomainID }
      Run.ret { err := c.cs.Address.AssociateIpAddress p, cluster := csCluster
                calls := [listCall, Call.AssociateIpAddress p] }

/-! ### Affinity groups (`pkg/cloud/affinity_groups.go`) -/

def AntiAffinityGroupType : String := "host anti-affinity"

def AffinityGroupType : String := "host affinity"

/-- Source `AffinityGroup`. -/
structure AffinityGroup where
  Type_ : String
  Name : String
  Id : String
deriving DecidableEq, Repr

/-- What a method on `*AffinityGroup` leaves behind: the returned error, the group record
after the call, and the requests issued, in order. -/
structure GroupRet where
  err : Option GoError
  group : AffinityGroup
  calls : List Call
deriving DecidableEq, Repr

/-- Source `FetchAffinityGroup`: by ID when the group has one, else by name. -/
def FetchAffinityGroup (c : client) (group : AffinityGroup) : GroupRet :=
  if group.Id ≠ "" then
    let r := c.cs.AffinityGroup.GetAffinityGroupByID group.Id
    match r.result with
    | Except.error err =>
      { err := some err, group := group, calls := [Call.GetAffinityGroupByID group.Id] }
    | Except.ok affinityGroup =>
      if r.count > 1 then
        { err := some (errors.New "Count bad"), group := group
          calls := [Call.GetAffinityGroupByID group.Id] }
      else
        { err := none
          group := { group with Name := affinityGroup.Name, Type_ := affinityGroup.Type_ }
          calls := [Call.GetAffinityGroupByID group.Id] }
  else if group.Name ≠ "" then
    let r := c.cs.AffinityGroup.GetAffinityGroupByName group.Name
    match r.result with
    | Except.error err =>
      { err := some err, group := group, calls := [Call.GetAffinityGroupByName group.Name] }
    | Except.ok affinityGroup =>
      if r.count > 1 then
        { err := some (errors.New "Count bad"), group := group
          calls := [Call.GetAffinityGroupByName group.Name] }
      else
        { err := none
          group := { group with Id := affinityGroup.Id, Type_ := affinityGroup.Type_ }
          calls := [Call.GetAffinityGroupByName group.Name] }
  else
    { err := some (errors.New ("could not fetch AffinityGroup by name \"" ++ group.Name ++
        "\" or id \"" ++ group.Id ++ "\""))
      group := group, calls := [] }

/-- Source `GetOrCreateAffinityGroup`: creates the group when fetching it fails. -/
def GetOrCreateAffinityGroup (c : client) (csCluster : CloudStackCluster)
    (group : AffinityGroup) : GroupRet :=
  let f := FetchAffinityGroup c group
  match f.err with
  | some _ => -- Group not found?
    let group := f.group
    let p : cloudstack.CreateAffinityGroupParams :=
      { name := group.Name, type_ := group.Type_
        account := setIfNotEmpty csCluster.Spec.Account
        domainid := setIfNotEmpty csCluster.Status.DomainID }
    match c.cs.AffinityGroup.CreateAffinityGroup p with
    | Except.error err =>
      { err := some err, group := group, calls := f.calls ++ [Call.CreateAffinityGroup p] }
    | Except.ok resp =>
      { err := none, group := { group with Id := resp.Id }
        calls := f.calls ++ [Call.CreateAffinityGroup p] }
  | none => { err := none, group := f.group, calls := f.calls }

/-- Source `AffinityGroups`, a slice of groups. -/
abbrev AffinityGroups := List AffinityGroup

/-- What a method on a machine leaves behind: the returned error and the requests issued, in
order. The machine object is not written. -/
structure CallRet where
  err : Option GoError
  calls : List Call
deriving DecidableEq, Repr

/-- The request `GetCurrentAffinityGroups` issues: the lookup of the instance by ID. -/
def getCurrentCalls (csMachine : CloudStackMachine) : List Call :=
  match csMachine.Spec.InstanceID with
  | none => []
  | some id => [Call.GetVirtualMachineByID id]

/-- Source `GetCurrentAffinityGroups`: the pair `(groups, nil)` is `Except.ok`, the pair
`(nil, err)` is `Except.error`; dereferencing a nil `InstanceID` panics. Its one request is
`getCurrentCalls`. -/
def GetCurrentAffinityGroups (c : client) (csMachine : CloudStackMachine) :
    Run (Except GoError AffinityGroups) :=
  match csMachine.Spec.InstanceID with
  | none => Run.panic
  | some id =>
    let r := c.cs.VirtualMachine.GetVirtualMachineByID id
    match r.result with
    | Except.error err => Run.ret (Except.error err)
    | Except.ok virtM =>
      if r.count > 1 then
        Run.ret (Except.error (errors.New ("found more than one VM for ID: " ++ id)))
      else
        Run.ret (Except.ok (virtM.Affinitygroup.map fun v =>
          { Name := v.Name, Type_ := v.Type_, Id := v.Id }))

/-- Source `ToArrayOfIDs`. -/
def ToArrayOfIDs (ags : AffinityGroups) : List String :=
  ags.map fun group => group.Id

/-- The order in which `range` visits the entries of a Go map is unspecified and may differ
from one loop to the next: an iteration order is any function that rearranges the entries. -/
structure MapRange where
  order : List AffinityGroup → List AffinityGroup
  perm : ∀ l, (order l).Perm l

/-- The loop `for _, group := range *ags` that stores every group under its ID in
`groupSet`. -/
def fillGroupSet (groupSet : List (String × AffinityGroup)) (ags : AffinityGroups) :
    List (String × AffinityGroup) :=
  ags.foldl (fun m group => GoMap.set m group.Id group) groupSet

/-- Source `AddGroup`: a set keyed by ID that starts with `addGroup`, takes the groups of the
list, and is turned into a list again by a `range` over the map, in the order `o`. -/
def AddGroup (o : MapRange) (ags : AffinityGroups) (addGroup : AffinityGroup) :
    AffinityGroups :=
  let groupSet := fillGroupSet [(addGroup.Id, addGroup)] ags
  o.order (GoMap.values groupSet)

/-- Source `RemoveGroup`: a set keyed by ID that takes the groups of the list, loses the ID of
`removeGroup`, and is turned into a list again by a `range` over the map, in the order `o`. -/
def RemoveGroup (o : MapRange) (ags : AffinityGroups) (removeGroup : AffinityGroup) :
    AffinityGroups :=
  let groupSet := fillGroupSet [] ags
  let groupSet := GoMap.delete groupSet removeGroup.Id
  o.order (GoMap.values groupSet)

/-- Source `StopAndModifyAffinityGroups`; dereferencing a nil `InstanceID` panics before any
request. -/
def StopAndModifyAffinityGroups (c : client) (csMachine : CloudStackMachine)
    (groups : AffinityGroups) : Run CallRet :=
  match csMachine.Spec.InstanceID with
  | none => Run.panic
  | some id =>
    let agp : cloudstack.UpdateVMAffinityGroupParams :=
      { id := id, affinitygroupids := ToArrayOfIDs groups }
    match c.cs.VirtualMachine.StopVirtualMachine id with
    | some err => Run.ret { err := some err, calls := [Call.StopVirtualMachine id] }
    | none =>
      match c.cs.AffinityGroup.UpdateVMAffinityGroup agp with
      | some err =>
        Run.ret { err := some err
                  calls := [Call.StopVirtualMachine id, Call.UpdateVMAffinityGroup agp] }
      | none =>
        Run.ret { err := c.cs.VirtualMachine.StartVirtualMachine id
                  calls := [Call.StopVirtualMachine id, Call.UpdateVMAffinityGroup agp,
                    Call.StartVirtualMachine id] }

/-- The part of `AssociateAffinityGroup` and `DissassociateAffinityGroup` after the groups
have been read and changed: `StopAndModifyAffinityGroups`, with the earlier lookup put in
front of its requests. -/
def modifyAfterLookup (c : client) (csMachine : CloudStackMachine) (groups : AffinityGroups) :
    Run CallRet :=
  match StopAndModifyAffinityGroups c csMachine groups with
  | Run.panic => Run.panic
  | Run.ret r => Run.ret { r with calls := getCurrentCalls csMachine ++ r.calls }

/-- Source `AssociateAffinityGroup`. The order `o` is that of the `range` in `AddGroup`. -/
def AssociateAffinityGroup (o : MapRange) (c : client) (csMachine : CloudStackMachine)
    (group : AffinityGroup) : Run CallRet :=
  match GetCurrentAffinityGroups c csMachine with
  | Run.panic => Run.panic
  | Run.ret (Except.error err) =>
    Run.ret { err := some err, calls := getCurrentCalls csMachine }
  | Run.ret (Except.ok groups) =>
    modifyAfterLookup c csMachine (AddGroup o groups group)

/-- Source `DissassociateAffinityGroup`. The order `o` is that of the `range` in
`RemoveGroup`. -/
def DissassociateAffinityGroup (o : MapRange) (c : client) (csMachine : CloudStackMachine)
    (group : AffinityGroup) : Run CallRet :=
  match GetCurrentAffinityGroups c csMachine with
  | Run.panic => Run.panic
  | Run.ret (Except.error err) =>
    Run.ret { err := some err, calls := getCurrentCalls csMachine }
  | Run.ret (Except.ok groups) =>
    modifyAfterLookup c csMachine (RemoveGroup o groups group)

/-- One call of `AddGroup` or `RemoveGroup`, with the order of its `range` over the map. -/
inductive GroupOp where
  | add (o : MapRange) (g : AffinityGroup)
  | remove (o : MapRange) (g : AffinityGroup)

/-- The list after one call. -/
def GroupOp.apply (ags : AffinityGroups) : GroupOp → AffinityGroups
  | GroupOp.add o g => AddGroup o ags g
  | GroupOp.remove o g => RemoveGroup o ags g

/-- The list after a sequence of calls, first call first. -/
def applyOps (ags : AffinityGroups) (ops : List GroupOp) : AffinityGroups :=
  ops.foldl GroupOp.apply ags

/-! ### Firewall and load balancer rules (`pkg/cloud/network.go`) -/

/-- Source `OpenFirewallRules`. `ToLower` stands for `strings.ToLower` of the Go library. -/
def OpenFirewallRules (ToLower : String → String) (c : client) (csCluster : CloudStackCluster) :
    Ret :=
  let p : cloudstack.CreateEgressFirewallRuleParams :=
    { networkid := csCluster.Status.NetworkID, protocol := networkProtocolTCP }
  let retErr := c.cs.Firewall.CreateEgressFirewallRule p
  let retErr : Option GoError :=
    match retErr with
    | some e =>
      -- Already a firewall rule here.
      if strings.Contains (ToLower e.Error) "there is already" = true then none else some e
    | none => none
  { err := retErr, cluster := csCluster, calls := [Call.CreateEgressFirewallRule p] }

/-- The parameters `ResolveLoadBalancerRuleDetails` lists the load balancer rules with. -/
def listLoadBalancerRulesParams (csCluster : CloudStackCluster) :
    cloudstack.ListLoadBalancerRulesParams :=
  { publicipid := some csCluster.Status.PublicIPID
    account := setIfNotEmpty csCluster.Spec.Account
    domainid := setIfNotEmpty csCluster.Status.DomainID }

/-- The loop of `ResolveLoadBalancerRuleDetails`: the first rule with the public port `port`. -/
def firstRuleWithPort (port : String) :
    List cloudstack.LoadBalancerRule → Option cloudstack.LoadBalancerRule
  | [] => none
  | rule :: rest => if rule.Publicport = port then some rule else firstRuleWithPort port rest

/-- Source `ResolveLoadBalancerRuleDetails`. -/
def ResolveLoadBalancerRuleDetails (c : client) (csCluster : CloudStackCluster) : Ret :=
  let p := listLoadBalancerRulesParams csCluster
  match c.cs.LoadBalancer.ListLoadBalancerRules p with
  | Except.error err =>
    { err := some err, cluster := csCluster, calls := [Call.ListLoadBalancerRules p] }
  | Except.ok loadBalancerRules =>
    match firstRuleWithPort (strconv.Itoa csCluster.Spec.ControlPlaneEndpoint.Port)
        loadBalancerRules.LoadBalancerRules with
    | some rule =>
      { err := none
        cluster := { csCluster with Status := { csCluster.Status with LBRuleID := rule.Id } }
        calls := [Call.ListLoadBalancerRules p] }
    | none =>
      { err := some (errors.New "no load balancer rule found")
        cluster := csCluster, calls := [Call.ListLoadBalancerRules p] }

/-- Source `GetOrCreateLoadBalancerRule`: creates a load balancer rule that can be assigned to
instances. `ToLower` stands for `strings.ToLower` of the Go library. -/
def GetOrCreateLoadBalancerRule (ToLower : String → String) (c : client)
    (csCluster : CloudStackCluster) : Ret :=
  -- Check if rule exists.
  let r := ResolveLoadBalancerRuleDetails c csCluster
  match r.err with
  | none => r
  | some err =>
    if ¬ strings.Contains (ToLower err.Error) "no load balancer rule found" = true then r
    else
      let csCluster := r.cluster
      let p : cloudstack.CreateLoadBalancerRuleParams :=
        { algorithm := "roundrobin", name := "Kubernetes_API_Server"
          privateport := k8sDefaultAPIPort
          -- Override default public port if endpoint port specified.
          publicport :=
            if csCluster.Spec.ControlPlaneEndpoint.Port ≠ 0 then
              csCluster.Spec.ControlPlaneEndpoint.Port
            else k8sDefaultAPIPort
          networkid := some csCluster.Status.NetworkID
          publicipid := some csCluster.Status.PublicIPID
          protocol := some networkProtocolTCP
          account := setIfNotEmpty csCluster.Spec.Account
          domainid := setIfNotEmpty csCluster.Status.DomainID }
      match c.cs.LoadBalancer.CreateLoadBalancerRule p with
      | Except.error err =>
        { err := some err, cluster := csCluster
          calls := r.calls ++ [Call.CreateLoadBalancerRule p] }
      | Except.ok resp =>
        { err := none
          cluster := { csCluster with Status := { csCluster.Status with LBRuleID := resp.Id } }
          calls := r.calls ++ [Call.CreateLoadBalancerRule p] }

end cloud

/-! ## The cluster controller (`controllers/cloudstackcluster_controller.go`) -/

namespace ctrl

/-- Source `ctrl.Result` of controller-runtime. `RequeueAfter` is a duration; the empty result
`ctrl.Result{}` asks for no requeue. -/
structure Result where
  Requeue : Bool
  RequeueAfter : Nat
deriving DecidableEq, Repr

/-- The empty result `ctrl.Result{}`. -/
def Result.empty : Result := { Requeue := false, RequeueAfter := 0 }

/-- A result asks for a requeue when `Requeue` is set or `RequeueAfter` is positive. -/
def Result.isRequeue (r : Result) : Bool := r.Requeue || decide (0 < r.RequeueAfter)

end ctrl

namespace controllerutil

/-- Source `controllerutil.RemoveFinalizer` of controller-runtime: drops every occurrence of the
finalizer. -/
def RemoveFinalizer (finalizers : List String) (finalizer : String) : List String :=
  finalizers.filter fun f => f ≠ finalizer

end controllerutil

namespace infrav1

/-- Modelled from the spec: the declaration of `CloudStackZone` is not among the sources; its
`Spec` has the fields of a `Zone` (test/dummies/vars.go converts one into the other). -/
structure CloudStackZone where
  Spec : Zone
deriving DecidableEq, Repr

/-- Modelled from the spec: the declaration of `CloudStackZoneList` is not among the sources;
the controller reads its `Items`. -/
structure CloudStackZoneList where
  Items : List CloudStackZone
deriving DecidableEq, Repr

end infrav1

namespace cloud

/-- The interface `cloud.Client`, as far as the cluster controller calls it. The method
`DisposeClusterResources` is not among the sources; it is taken as a parameter: it returns an
error or nil, and, being given a pointer, the cluster object as it leaves it. -/
structure Client where
  DisposeClusterResources : infrav1.CloudStackCluster → Option GoError × infrav1.CloudStackCluster

end cloud

namespace controllers

open infrav1

/-- Source `CloudStackClusterReconciliationRunner`: the zones found, the cluster under
reconciliation (`ReconciliationSubject` and `CSCluster` are the same object) and the client of
the provider (`CS`). -/
structure CloudStackClusterReconciliationRunner where
  Zones : CloudStackZoneList
  ReconciliationSubject : CloudStackCluster
  CS : cloud.Client

/-- What a reconciliation stage leaves behind: the result and error it returns, and the
runner after the stage. -/
structure StageRet where
  res : ctrl.Result
  err : Option GoError
  runner : CloudStackClusterReconciliationRunner

/-- Modelled from the spec: the method `RequeueWithMessage` of the base runner
(controllers/utils) is not among the sources; by the spec a count mismatch gives a requeue,
not a terminal failure: the result asks for a requeue after `RequeueTimeout`, a constant that
is not among the sources either, and the error is nil. -/
def RequeueWithMessage (RequeueTimeout : Nat) (_msg : String) : ctrl.Result × Option GoError :=
  ({ Requeue := false, RequeueAfter := RequeueTimeout }, none)

/-- Source `VerifyZoneCRDs`: verifies the zones found against those requested. -/
def VerifyZoneCRDs (RequeueTimeout : Nat) (r : CloudStackClusterReconciliationRunner) :
    StageRet :=
  let expected := r.ReconciliationSubject.Spec.Zones.length
  let actual := r.Zones.Items.length
  if expected ≠ actual then
    let out := RequeueWithMessage RequeueTimeout
      ("Expected " ++ fmt_d expected ++ " Zones, but found " ++ fmt_d actual)
    { res := out.1, err := out.2, runner := r }
  else
    { res := ctrl.Result.empty, err := none, runner := r }

/-- The loop of `SetFailureDomains`: every zone becomes a failure domain with
`ControlPlane: true`. -/
def fillFailureDomains (failureDomains : List (String × Bool)) (items : List CloudStackZone) :
    List (String × Bool) :=
  items.foldl (fun m zone => GoMap.set m zone.Spec.ID true) failureDomains

/-- Source `SetFailureDomains`: sets the failure domains used for the placement of machines. -/
def SetFailureDomains (r : CloudStackClusterReconciliationRunner) : StageRet :=
  let failureDomains := fillFailureDomains [] r.Zones.Items
  { res := ctrl.Result.empty, err := none
    runner := { r with ReconciliationSubject := { r.ReconciliationSubject with
      Status := { r.ReconciliationSubject.Status with FailureDomains := failureDomains } } } }

/-- Source `ReconcileDelete`: cleans up the resources of the cluster and then removes the
finalizer. `ClusterFinalizer` stands for the constant `infrav1.ClusterFinalizer`, which is not
among the sources. -/
def ReconcileDelete (ClusterFinalizer : String) (r : CloudStackClusterReconciliationRunner) :
    StageRet :=
  let out := r.CS.DisposeClusterResources r.ReconciliationSubject
  let subject := out.2
  match out.1 with
  | some err =>
    { res := ctrl.Result.empty, err := some err
      runner := { r with ReconciliationSubject := subject } }
  | none =>
    { res := ctrl.Result.empty, err := none
      runner := { r with ReconciliationSubject := { subject with
        Finalizers := controllerutil.RemoveFinalizer subject.Finalizers ClusterFinalizer } } }

end controllers

/-! ## The admission webhook (`api/v1beta1/cloudstackcluster_webhook.go`) -/

namespace field

/-- A `field.Error` of apimachinery: its type, the path of the field and the detail. -/
structure Error where
  Type_ : String
  Field : String
  Detail : String
deriving DecidableEq, Repr

/-- Source `field.ErrorList`. -/
abbrev ErrorList := List Error

/-- Source `field.Forbidden(path, detail)`, with the path already joined by dots. -/
def Forbidden (path detail : String) : Error :=
  { Type_ := "FieldValueForbidden", Field := path, Detail := detail }

/-- Source `field.Required(path, detail)`, with the path already joined by dots. -/
def Required (path detail : String) : Error :=
  { Type_ := "FieldValueRequired", Field := path, Detail := detail }

end field

namespace webhookutil

/-- Modelled from the spec: the helper `EnsureStringFieldsAreEqual` (pkg/webhookutil) is not
among the sources; it is an immutability check: when the new and the old text differ it adds a
`Forbidden` error for the field `spec.name`. -/
def EnsureStringFieldsAreEqual (new old name : String) (allErrs : field.ErrorList) :
    field.ErrorList :=
  if new ≠ old then allErrs ++ [field.Forbidden ("spec." ++ name) name] else allErrs

/-- Modelled from the spec: the helper `AggregateObjErrors` (pkg/webhookutil) is not among the
sources; it returns nil for an empty list and otherwise one error that carries the list
(`some errs`). -/
def AggregateObjErrors (allErrs : field.ErrorList) : Option field.ErrorList :=
  if allErrs.length = 0 then none else some allErrs

end webhookutil

/-- The conversion `string(x)` of Go for an integer `x`: the UTF-8 text of the code point `x`,
and of U+FFFD when `x` is not a valid code point (negative, a surrogate, or above
U+10FFFF). -/
def runeToString (x : Int) : String :=
  if 0 ≤ x ∧ x ≤ 0x10FFFF ∧ ¬ (0xD800 ≤ x ∧ x ≤ 0xDFFF) then
    String.singleton (Char.ofNat x.toNat)
  else String.singleton (Char.ofNat 0xFFFD)

namespace infrav1

/-- Modelled from the spec: the constant `defaultIdentityRefKind` is not among the sources; by
the spec the kind of an identity reference is always "Secret". -/
def defaultIdentityRefKind : String := "Secret"

/-- The loop of `ValidateCreate` over the zones: each zone requires a network. -/
def requireZoneNetworks (errorList : field.ErrorList) (zones : List Zone) : field.ErrorList :=
  zones.foldl (fun errorList zone =>
    if zone.Network.Name = "" ∧ zone.Network.ID = "" then
      errorList ++ [field.Required "spec.Zones.Network"
        "each Zone requires a Network specification"]
    else errorList) errorList

/-- Source `ValidateCreate` of the cluster `r`; nil is `none`. -/
def ValidateCreate (r : CloudStackCluster) : Option field.ErrorList :=
  let errorList : field.ErrorList := []
  -- IdentityRefs must be Secrets.
  let errorList :=
    match r.Spec.IdentityRef with
    | some ref =>
      if ref.Kind ≠ defaultIdentityRefKind then
        errorList ++ [field.Forbidden "spec.identityRef.kind" "must be a Secret"]
      else errorList
    | none => errorList
  let errorList :=
    if r.Spec.Account ≠ "" ∧ r.Spec.Domain = "" then
      errorList ++ [field.Required "spec.account"
        "specifying account requires additionally specifying domain"]
    else errorList
  -- Require Zones and their respective Networks.
  let errorList :=
    if r.Spec.Zones.length ≤ 0 then errorList ++ [field.Required "spec.Zones" "Zones"]
    else requireZoneNetworks errorList r.Spec.Zones
  webhookutil.AggregateObjErrors errorList

/-- Source `ValidateUpdate` of the cluster `r` against the old object `old`; nil is `none`. A
nil and an empty `Zones` slice, which `reflect.DeepEqual` tells apart, are both the empty list
here. -/
def ValidateUpdate (r old : CloudStackCluster) : Option field.ErrorList :=
  let spec := r.Spec
  let oldSpec := old.Spec
  -- No spec fields may be updated.
  let errorList : field.ErrorList := []
  let errorList :=
    if ¬ oldSpec.Zones = spec.Zones then
      errorList ++ [field.Forbidden "spec.Zones"
        "Zones and sub-attributes may not be modified after creation"]
    else errorList
  let errorList :=
    if oldSpec.ControlPlaneEndpoint.Host ≠ "" then
      -- Need to allow one time endpoint setting via CAPC cluster controller.
      let errorList := webhookutil.EnsureStringFieldsAreEqual
        spec.ControlPlaneEndpoint.Host oldSpec.ControlPlaneEndpoint.Host
        "controlplaneendpoint.host" errorList
      webhookutil.EnsureStringFieldsAreEqual
        (runeToString spec.ControlPlaneEndpoint.Port)
        (runeToString oldSpec.ControlPlaneEndpoint.Port)
        "controlplaneendpoint.port" errorList
    else errorList
  let errorList :=
    match spec.IdentityRef, oldSpec.IdentityRef with
    | some ref, some oldRef =>
      let errorList := webhookutil.EnsureStringFieldsAreEqual ref.Kind oldRef.Kind
        "identityref.kind" errorList
      webhookutil.EnsureStringFieldsAreEqual ref.Name oldRef.Name "identityref.name" errorList
    | _, _ => errorList
  -- IdentityRefs must be Secrets.
  let errorList :=
    match spec.IdentityRef with
    | some ref =>
      if ref.Kind ≠ defaultIdentityRefKind then
        errorList ++ [field.Forbidden "spec.identityRef.kind" "must be a Secret"]
      else errorList
    | none => errorList
  webhookutil.AggregateObjErrors errorList

end infrav1

/-! ## Owner lookup (`controllers/utils/utils.go`) -/

namespace meta

/-- The fields of `meta.OwnerReference` the owner lookup reads. -/
structure OwnerReference where
  APIVersion : String
  Kind : String
  Name : String
deriving DecidableEq, Repr

end meta

namespace schema

/-- Source `schema.GroupVersion` of apimachinery. -/
structure GroupVersion where
  Group : String
  Version : String
deriving DecidableEq, Repr

/-- Source `schema.ParseGroupVersion` of apimachinery: the empty text and "/" give the empty
group version, a text without a slash is a version, a text with one slash is group and
version, and more slashes are an error. -/
def ParseGroupVersion (gv : String) : Except GoError GroupVersion :=
  if gv.length = 0 ∨ gv = "/" then Except.ok { Group := "", Version := "" }
  else
    match gv.data.count '/' with
    | 0 => Except.ok { Group := "", Version := gv }
    | 1 => Except.ok
        { Group := ⟨gv.data.takeWhile fun ch => ch ≠ '/'⟩
          Version := ⟨(gv.data.dropWhile fun ch => ch ≠ '/').drop 1⟩ }
    | _ => Except.error (GoError.plain ("unexpected GroupVersion string: " ++ gv))

end schema

namespace capiv1

/-- The fields of a cluster-api `Machine` the owner lookup reads, all of its `ObjectMeta`. -/
structure Machine where
  Namespace : String
  Labels : List (String × String)
  OwnerReferences : List meta.OwnerReference
deriving DecidableEq, Repr

/-- A cluster-api `MachineSet`, of which the owner lookup reads nothing. -/
structure MachineSet where
  Name : String
deriving DecidableEq, Repr

/-- The group of `capiv1.GroupVersion`. -/
def Group : String := "cluster.x-k8s.io"

/-- The label `MachineControlPlaneLabelName` that marks a control plane machine. -/
def MachineControlPlaneLabelName : String := "cluster.x-k8s.io/control-plane"

end capiv1

namespace controlplanev1

/-- The field of a `KubeadmControlPlane` the owner lookup reads: the deletion timestamp of its
`ObjectMeta`, nil for an object that is not being deleted. -/
structure KubeadmControlPlane where
  DeletionTimestamp : Option String
deriving DecidableEq, Repr

/-- The group of `controlplanev1.GroupVersion`. -/
def Group : String := "controlplane.cluster.x-k8s.io"

end controlplanev1

namespace util

/-- Source `util.IsControlPlaneMachine` of cluster-api: the machine carries the control plane
label. -/
def IsControlPlaneMachine (machine : capiv1.Machine) : Bool :=
  (machine.Labels.lookup capiv1.MachineControlPlaneLabelName).isSome

end util

namespace clientPkg

/-- Source `clientPkg.ObjectKey`. -/
structure ObjectKey where
  Namespace : String
  Name : String
deriving DecidableEq, Repr

/-- The `Get` of a controller-runtime client: the API server, as the answers it gives for a
machine set and for a control plane. -/
structure Client where
  GetMachineSet : ObjectKey → Except GoError capiv1.MachineSet
  GetKubeadmControlPlane : ObjectKey → Except GoError controlplanev1.KubeadmControlPlane

end clientPkg

namespace utils

open cloud

/-- Source `fetchOwnerRef`: searches a list of owner references for a given kind; nil is
`none`. -/
def fetchOwnerRef : List meta.OwnerReference → String → Option meta.OwnerReference
  | [], _ => none
  | ref :: rest, kind => if ref.Kind = kind then some ref else fetchOwnerRef rest kind

/-- Source `GetManagementOwnerRef`: the reference to the manager of the machine; nil is
`none`. -/
def GetManagementOwnerRef (capiMachine : capiv1.Machine) : Option meta.OwnerReference :=
  if util.IsControlPlaneMachine capiMachine = true then
    fetchOwnerRef capiMachine.OwnerReferences "KubeadmControlPlane"
  else
    fetchOwnerRef capiMachine.OwnerReferences "MachineSet"

/-- Source `GetMachineSetFromCAPIMachine`: the pair `(machineSet, err)` it returns; reading
`ref.APIVersion` of a nil reference panics. The error of `ParseGroupVersion` goes through
`errors.WithStack`, which keeps its text. -/
def GetMachineSetFromCAPIMachine (client : clientPkg.Client) (capiMachine : capiv1.Machine) :
    Run (Option capiv1.MachineSet × Option GoError) :=
  match GetManagementOwnerRef capiMachine with
  | none => Run.panic
  | some ref =>
    match schema.ParseGroupVersion ref.APIVersion with
    | Except.error err => Run.ret (none, some err)
    | Except.ok gv =>
      if gv.Group = capiv1.Group then
        let key : clientPkg.ObjectKey := { Namespace := capiMachine.Namespace, Name := ref.Name }
        match client.GetMachineSet key with
        | Except.error err => Run.ret (none, some err)
        | Except.ok machineSet => Run.ret (some machineSet, none)
      else Run.ret (none, none)

/-- Source `GetKubeadmControlPlaneFromCAPIMachine`: the pair `(controlPlane, err)` it returns;
reading `ref.APIVersion` of a nil reference panics. -/
def GetKubeadmControlPlaneFromCAPIMachine (client : clientPkg.Client)
    (capiMachine : capiv1.Machine) :
    Run (Option controlplanev1.KubeadmControlPlane × Option GoError) :=
  match GetManagementOwnerRef capiMachine with
  | none => Run.panic
  | some ref =>
    match schema.ParseGroupVersion ref.APIVersion with
    | Except.error err => Run.ret (none, some err)
    | Except.ok gv =>
      if gv.Group = controlplanev1.Group then
        let key : clientPkg.ObjectKey := { Namespace := capiMachine.Namespace, Name := ref.Name }
        match client.GetKubeadmControlPlane key with
        | Except.error err => Run.ret (none, some err)
        | Except.ok controlPlane => Run.ret (some controlPlane, none)
      else Run.ret (none, none)

/-- The tail of both branches of `IsOwnerDeleted`: an error other than "not found" is
returned, anything else means the owner is deleted. -/
def ownerDeletedUnless (err : Option GoError) : Bool × Option GoError :=
  match err with
  | some e => if ¬ strings.Contains e.Error "not found" = true then (false, some e) else (true, none)
  | none => (true, none)

/-- Source `IsOwnerDeleted`: whether the owner of the machine has been deleted. -/
def IsOwnerDeleted (client : clientPkg.Client) (capiMachine : capiv1.Machine) :
    Run (Bool × Option GoError) :=
  if util.IsControlPlaneMachine capiMachine = true then
    -- The controlplane sticks around after deletion pending the deletion of its machines.
    match GetKubeadmControlPlaneFromCAPIMachine client capiMachine with
    | Run.panic => Run.panic
    | Run.ret (cp, err) =>
      match cp with
      | some cp =>
        if cp.DeletionTimestamp = none then Run.ret (false, none)
        else Run.ret (ownerDeletedUnless err)
      | none => Run.ret (ownerDeletedUnless err)
  else
    -- The machineset is deleted immediately, regardless of machine ownership.
    match GetMachineSetFromCAPIMachine client capiMachine with
    | Run.panic => Run.panic
    | Run.ret (ms, err) =>
      match ms with
      | some _ => Run.ret (false, none)
      | none => Run.ret (ownerDeletedUnless err)

end utils

/-! ## Test fixtures: concrete providers and clusters -/

namespace fixtures

open cloud infrav1

/-- A provider that knows no network, no offering and no address, and accepts every write. -/
def emptyProvider : cloudstack.CloudStackClient :=
  { Network :=
      { GetNetworkID := fun name => ("", 0, some (GoError.plain ("No match found for " ++ name)))
        GetNetworkByID := fun id =>
          { count := 0, result := Except.error (GoError.plain ("No match found for " ++ id)) }
        CreateNetwork := fun p => Except.ok { Id := "created-" ++ p.name, Type_ := "Isolated" }
        DeleteNetwork := fun _ => none }
    NetworkOffering := { GetNetworkOfferingID := fun _ => ("", 0, some (GoError.plain "none")) }
    Address :=
      { ListPublicIpAddresses := fun _ => Except.ok { Count := 0, PublicIpAddresses := [] }
        AssociateIpAddress := fun _ => none }
    AffinityGroup :=
      { GetAffinityGroupByID := fun id =>
          { count := 0, result := Except.error (GoError.plain ("No match found for " ++ id)) }
        GetAffinityGroupByName := fun name =>
          { count := 0, result := Except.error (GoError.plain ("No match found for " ++ name)) }
        CreateAffinityGroup := fun p => Except.ok { Id := "created-" ++ p.name }
        UpdateVMAffinityGroup := fun _ => none }
    VirtualMachine :=
      { GetVirtualMachineByID := fun id =>
          { count := 0, result := Except.error (GoError.plain ("No match found for " ++ id)) }
        StopVirtualMachine := fun _ => none
        StartVirtualMachine := fun _ => none }
    LoadBalancer :=
      { ListLoadBalancerRules := fun _ => Except.ok { LoadBalancerRules := [] }
        CreateLoadBalancerRule := fun _ => Except.ok { Id := "lb-1" } }
    Firewall := { CreateEgressFirewallRule := fun _ => none } }

/-- A client over `emptyProvider` whose every network carries the tags `tags`. -/
def clientWithTags (tags : Tags) : client :=
  { cs := emptyProvider
    GetNetworkTags := fun _ => Except.ok tags
    AddNetworkTags := fun _ _ => none
    DeleteNetworkTags := fun _ _ => none }

/-- A cluster with UID `0` that declares the network `net` and has resolved `net-1`. -/
def cluster0 : CloudStackCluster :=
  { UID := "0"
    Finalizers := []
    Spec :=
      { Zones := [], Network := "net"
        ControlPlaneEndpoint := { Host := "", Port := 0 }
        Account := "", Domain := "", IdentityRef := none }
    Status :=
      { Zones := [], FailureDomains := [], ZoneID := "zone-1", NetworkID := "net-1"
        NetworkType := "Isolated", DomainID := "", PublicIPID := "", LBRuleID := ""
        Ready := false } }

/-- A client whose provider finds two networks for the declared name, one of them named exactly
so (`GetNetworkID` returns its ID `net-2` with count 2 and no error), and finds every network
by ID. -/
def ambiguousByName : client :=
  { cs :=
      { emptyProvider with
        Network :=
          { emptyProvider.Network with
            GetNetworkID := fun _ => ("net-2", 2, none)
            GetNetworkByID := fun id =>
              { count := 1, result := Except.ok { Id := id, Type_ := "Shared" } } } }
    GetNetworkTags := fun _ => Except.ok []
    AddNetworkTags := fun _ _ => none
    DeleteNetworkTags := fun _ _ => none }

/-- A client whose provider finds two networks for the declared name, none named exactly so
(`GetNetworkID` returns count 2 and an error), finds no network by ID, and has one default
offering. -/
def ambiguousThenNotFound : client :=
  { cs :=
      { emptyProvider with
        Network :=
          { emptyProvider.Network with
            GetNetworkID := fun name =>
              ("", 2, some (GoError.plain ("Could not find an exact match for " ++ name))) }
        NetworkOffering := { GetNetworkOfferingID := fun _ => ("offering-1", 1, none) } }
    GetNetworkTags := fun _ => Except.ok []
    AddNetworkTags := fun _ _ => none
    DeleteNetworkTags := fun _ _ => none }

/-- A client whose provider finds two networks for the declared name (count 2, no error) and
more than one network under the returned ID. -/
def ambiguousTwice : client :=
  { cs :=
      { emptyProvider with
        Network :=
          { emptyProvider.Network with
            GetNetworkID := fun _ => ("net-2", 2, none)
            GetNetworkByID := fun id =>
              { count := 2
                result := Except.error
                  (GoError.plain ("There is more then one result for Network UUID: " ++ id)) } } }
    GetNetworkTags := fun _ => Except.ok []
    AddNetworkTags := fun _ _ => none
    DeleteNetworkTags := fun _ _ => none }

/-- A client whose provider knows no network but has one default offering; networks carry the
tags `tags`. -/
def notFoundOneOffering (tags : Tags) : client :=
  { cs :=
      { emptyProvider with
        NetworkOffering := { GetNetworkOfferingID := fun _ => ("offering-1", 1, none) } }
    GetNetworkTags := fun _ => Except.ok tags
    AddNetworkTags := fun _ _ => none
    DeleteNetworkTags := fun _ _ => none }

/-- A client whose provider resolves the declared name to the one network `net-1` of type
`Isolated`; networks carry the tags `tags`. -/
def oneNetwork (tags : Tags) : client :=
  { cs :=
      { emptyProvider with
        Network :=
          { emptyProvider.Network with
            GetNetworkID := fun _ => ("net-1", 1, none)
            GetNetworkByID := fun id =>
              { count := 1, result := Except.ok { Id := id, Type_ := "Isolated" } } } }
    GetNetworkTags := fun _ => Except.ok tags
    AddNetworkTags := fun _ _ => none
    DeleteNetworkTags := fun _ _ => none }

/-- A cluster like `cluster0` whose status is still empty. -/
def freshCluster : CloudStackCluster :=
  { cluster0 with Status := { cluster0.Status with NetworkID := "", NetworkType := "" } }

/-- A client whose provider lists the public addresses `resp`; networks carry no tags. -/
def withAddresses (resp : cloudstack.ListPublicIpAddressesResponse) : client :=
  { cs :=
      { emptyProvider with
        Address :=
          { ListPublicIpAddresses := fun _ => Except.ok resp
            AssociateIpAddress := fun _ => none } }
    GetNetworkTags := fun _ => Except.ok []
    AddNetworkTags := fun _ _ => none
    DeleteNetworkTags := fun _ _ => none }

/-- A cluster like `cluster0` that declares the endpoint host `10.0.0.5`. -/
def clusterWithHost : CloudStackCluster :=
  { cluster0 with Spec := { cluster0.Spec with
      ControlPlaneEndpoint := { Host := "10.0.0.5", Port := 6443 } } }

/-- The address `10.0.0.5`, allocated to the network `net-1`. -/
def addr5 : cloudstack.PublicIpAddress :=
  { Id := "ip-5", Ipaddress := "10.0.0.5", Allocated := "2022-01-01T00:00:00+0000"
    Associatednetworkid := "net-1" }

/-- The address `10.0.0.6`, not allocated. -/
def addr6 : cloudstack.PublicIpAddress :=
  { Id := "ip-6", Ipaddress := "10.0.0.6", Allocated := "", Associatednetworkid := "" }

/-- The address `10.0.0.7`, allocated to another network. -/
def addr7 : cloudstack.PublicIpAddress :=
  { Id := "ip-7", Ipaddress := "10.0.0.7", Allocated := "2022-02-02T00:00:00+0000"
    Associatednetworkid := "net-9" }

/-- The address `10.0.0.5` once more, as listed for another network `net-9`. -/
def addr5b : cloudstack.PublicIpAddress :=
  { Id := "ip-5b", Ipaddress := "10.0.0.5", Allocated := "2022-02-02T00:00:00+0000"
    Associatednetworkid := "net-9" }

/-- The iteration order that visits the entries of a map as they were inserted. -/
def insertionOrder : MapRange :=
  { order := fun l => l, perm := fun l => List.Perm.refl l }

/-- The iteration order that visits the entries of a map last inserted first. -/
def reverseOrder : MapRange :=
  { order := fun l => l.reverse, perm := fun l => List.reverse_perm l }

/-- A client whose provider knows the instance `vm-1` with the affinity groups `groups`, and
answers the stop, update and start requests with `stop`, `update` and `start`. -/
def withInstance (groups : List cloudstack.VirtualMachineAffinitygroup)
    (stop update start : Option GoError) : client :=
  { cs :=
      { emptyProvider with
        AffinityGroup :=
          { emptyProvider.AffinityGroup with UpdateVMAffinityGroup := fun _ => update }
        VirtualMachine :=
          { GetVirtualMachineByID := fun _ =>
              { count := 1, result := Except.ok { Affinitygroup := groups } }
            StopVirtualMachine := fun _ => stop
            StartVirtualMachine := fun _ => start } }
    GetNetworkTags := fun _ => Except.ok []
    AddNetworkTags := fun _ _ => none
    DeleteNetworkTags := fun _ _ => none }

/-- A client whose provider answers every lookup of an affinity group, by ID or by name, with
`r`, and creates groups with the ID `ag-new`. -/
def withGroupLookup (r : cloudstack.GetAffinityGroupResult) : client :=
  { cs :=
      { emptyProvider with
        AffinityGroup :=
          { emptyProvider.AffinityGroup with
            GetAffinityGroupByID := fun _ => r
            GetAffinityGroupByName := fun _ => r
            CreateAffinityGroup := fun _ => Except.ok { Id := "ag-new" } } }
    GetNetworkTags := fun _ => Except.ok []
    AddNetworkTags := fun _ _ => none
    DeleteNetworkTags := fun _ _ => none }

/-- The machine of the instance `vm-1`. -/
def machine1 : CloudStackMachine := { Spec := { InstanceID := some "vm-1" } }

/-- The affinity group `ag-1`. -/
def group1 : AffinityGroup := { Type_ := "host affinity", Name := "one", Id := "ag-1" }

/-- A group with the ID of `group1` and another name and type. -/
def group1b : AffinityGroup := { Type_ := "host anti-affinity", Name := "uno", Id := "ag-1" }

/-- The affinity group `ag-2`. -/
def group2 : AffinityGroup := { Type_ := "host anti-affinity", Name := "two", Id := "ag-2" }

/-- A client whose provider lists the load balancer rules `rules` and creates rules with the
ID `newId`. -/
def withRules (rules : List cloudstack.LoadBalancerRule) (newId : String) : client :=
  { cs :=
      { emptyProvider with
        LoadBalancer :=
          { ListLoadBalancerRules := fun _ => Except.ok { LoadBalancerRules := rules }
            CreateLoadBalancerRule := fun _ => Except.ok { Id := newId } } }
    GetNetworkTags := fun _ => Except.ok []
    AddNetworkTags := fun _ _ => none
    DeleteNetworkTags := fun _ _ => none }

/-- A client whose provider fails to list the load balancer rules, with the error `e`. -/
def rulesListingFails (e : GoError) : client :=
  { cs :=
      { emptyProvider with
        LoadBalancer :=
          { emptyProvider.LoadBalancer with ListLoadBalancerRules := fun _ => Except.error e } }
    GetNetworkTags := fun _ => Except.ok []
    AddNetworkTags := fun _ _ => none
    DeleteNetworkTags := fun _ _ => none }

/-- A client whose provider answers the creation of an egress firewall rule with `resp`. -/
def withFirewall (resp : Option GoError) : client :=
  { cs := { emptyProvider with Firewall := { CreateEgressFirewallRule := fun _ => resp } }
    GetNetworkTags := fun _ => Except.ok []
    AddNetworkTags := fun _ _ => none
    DeleteNetworkTags := fun _ _ => none }

/-- A cluster like `cluster0` with the public address `ip-5` and the endpoint port `port`. -/
def clusterWithPort (port : Int) : CloudStackCluster :=
  { cluster0 with
    Spec := { cluster0.Spec with ControlPlaneEndpoint := { Host := "10.0.0.5", Port := port } }
    Status := { cluster0.Status with PublicIPID := "ip-5" } }

/-- A provider client for the controller whose disposal of the cluster resources answers
`err` and leaves the cluster object as it is. -/
def disposal (err : Option GoError) : cloud.Client :=
  { DisposeClusterResources := fun csCluster => (err, csCluster) }

/-- The zone `zone-1`. -/
def zone1 : CloudStackZone :=
  { Spec := { ID := "zone-1", Name := "Zone1"
              Network := { ID := "net-1", Name := "net", Type_ := "Shared" } } }

/-- The zone `zone-2`. -/
def zone2 : CloudStackZone :=
  { Spec := { ID := "zone-2", Name := "Zone2"
              Network := { ID := "net-2", Name := "net2", Type_ := "Shared" } } }

/-- A cluster like `cluster0` that declares three zones, has the cluster finalizer and another
one, and a failure domain left from an earlier run. -/
def clusterThreeZones : CloudStackCluster :=
  { cluster0 with
    Finalizers := ["cloudstackcluster.infrastructure.cluster.x-k8s.io", "other"]
    Spec := { cluster0.Spec with Zones := [zone1.Spec, zone2.Spec, zone2.Spec] }
    Status := { cluster0.Status with FailureDomains := [("zone-9", true)] } }

/-- A runner for `clusterThreeZones` that has found two zones and whose disposal answers
`err`. -/
def runnerTwoOfThree (err : Option GoError) : controllers.CloudStackClusterReconciliationRunner :=
  { Zones := { Items := [zone1, zone2] }
    ReconciliationSubject := clusterThreeZones
    CS := disposal err }

/-- A cluster like `cluster0` with an identity reference of the kind `kind`. -/
def clusterWithIdentity (kind : String) : CloudStackCluster :=
  { cluster0 with Spec := { cluster0.Spec with
      IdentityRef := some { Kind := kind, Name := "IdentitySecret" } } }

/-- The cluster `c` with the control plane endpoint `host` and `port`. -/
def withEndpoint (c : CloudStackCluster) (host : String) (port : Int) : CloudStackCluster :=
  { c with Spec := { c.Spec with ControlPlaneEndpoint := { Host := host, Port := port } } }

/-- The answer of a provider that knows the addresses `known` to the list request `p`: with an
`ipaddress` filter the addresses with that `Ipaddress`, without one all of them; `Count` is
the number of addresses listed. -/
def filterAddresses (p : cloudstack.ListPublicIpAddressesParams)
    (known : List cloudstack.PublicIpAddress) : cloudstack.ListPublicIpAddressesResponse :=
  match p.ipaddress with
  | some ip =>
    { Count := (known.filter (fun a => a.Ipaddress = ip)).length
      PublicIpAddresses := known.filter (fun a => a.Ipaddress = ip) }
  | none => { Count := known.length, PublicIpAddresses := known }

/-- A client whose provider knows the public addresses `known` and honours the `ipaddress`
filter of a list request; networks carry no tags. -/
def filteringAddresses (known : List cloudstack.PublicIpAddress) : client :=
  { cs :=
      { emptyProvider with
        Address :=
          { ListPublicIpAddresses := fun p => Except.ok (filterAddresses p known)
            AssociateIpAddress := fun _ => none } }
    GetNetworkTags := fun _ => Except.ok []
    AddNetworkTags := fun _ _ => none
    DeleteNetworkTags := fun _ _ => none }

/-- A cluster as `ValidateCreate` admits it: one zone with a network, an identity reference
of the kind `Secret`, and no endpoint host yet. -/
def admittedCluster : CloudStackCluster :=
  { cluster0 with Spec := { cluster0.Spec with
      Zones := [{ ID := "", Name := "zone-1", Network := { ID := "", Name := "net", Type_ := "" } }]
      IdentityRef := some { Kind := "Secret", Name := "IdentitySecret" } } }

/-- An API server that knows neither machine sets nor control planes. -/
def emptyAPIServer : clientPkg.Client :=
  { GetMachineSet := fun key => Except.error (GoError.plain (key.Name ++ " not found"))
    GetKubeadmControlPlane := fun key =>
      Except.error (GoError.plain (key.Name ++ " not found")) }

/-- A worker machine without owner references. -/
def orphanMachine : capiv1.Machine :=
  { Namespace := "default", Labels := [], OwnerReferences := [] }

/-- A control plane machine whose one owner reference is of the kind `MachineSet`. -/
def orphanControlPlaneMachine : capiv1.Machine :=
  { Namespace := "default", Labels := [("cluster.x-k8s.io/control-plane", "")]
    OwnerReferences :=
      [{ APIVersion := "cluster.x-k8s.io/v1beta1", Kind := "MachineSet", Name := "ms-1" }] }

/-- A worker machine owned by the machine set `ms-1`. -/
def ownedMachine : capiv1.Machine :=
  { Namespace := "default", Labels := []
    OwnerReferences :=
      [{ APIVersion := "cluster.x-k8s.io/v1beta1", Kind := "MachineSet", Name := "ms-1" }] }

end fixtures

/-! ## Lemmas on the library functions -/

namespace strings

theorem HasPrefix_append (pre s : String) : HasPrefix (pre ++ s) pre = true := by
  unfold HasPrefix
  rw [String.data_append, List.isPrefixOf_iff_prefix]
  exact List.prefix_append _ _

end strings

namespace cloud

open infrav1

theorem clusterTagCount_eq_zero (ks : List String) :
    clusterTagCount ks = 0 ↔ ∀ k ∈ ks, strings.HasPrefix k clusterTagNamePrefix = false := by
  induction ks with
  | nil => simp [clusterTagCount]
  | cons k ks ih =>
    by_cases hk : strings.HasPrefix k clusterTagNamePrefix = true
    · simp [clusterTagCount, hk]
    · simp only [Bool.not_eq_true] at hk
      simp [clusterTagCount, hk, ih]

theorem generateNetworkTagName_hasPrefix (csCluster : CloudStackCluster) :
    strings.HasPrefix (generateNetworkTagName csCluster) clusterTagNamePrefix = true :=
  strings.HasPrefix_append _ _

/-- When the tags of the network cannot be read, `DeleteNetworkIfNotInUse` returns that error
and issues no request beyond the read. -/
theorem DeleteNetworkIfNotInUse_tags_error (c : client) (csCluster : CloudStackCluster)
    (e : GoError) (h : c.GetNetworkTags csCluster.Status.NetworkID = Except.error e) :
    DeleteNetworkIfNotInUse c csCluster =
      { err := some e, cluster := csCluster
        calls := [Call.GetNetworkTags csCluster.Status.NetworkID] } := by
  simp [DeleteNetworkIfNotInUse, h]

/-- The requests of `DeleteNetworkIfNotInUse` once the tags have been read. -/
theorem DeleteNetworkIfNotInUse_calls (c : client) (csCluster : CloudStackCluster)
    (tags : Tags) (h : c.GetNetworkTags csCluster.Status.NetworkID = Except.ok tags) :
    (DeleteNetworkIfNotInUse c csCluster).calls =
      Call.GetNetworkTags csCluster.Status.NetworkID ::
        (if (∀ k ∈ tags.keys, strings.HasPrefix k clusterTagNamePrefix = false) ∧
            tags.get createdByCapcTagName ≠ "" then
          [Call.DeleteNetwork csCluster.Status.NetworkID]
        else []) := by
  unfold DeleteNetworkIfNotInUse
  rw [h]
  dsimp only
  have hcount := clusterTagCount_eq_zero tags.keys
  by_cases hc : (∀ k ∈ tags.keys, strings.HasPrefix k clusterTagNamePrefix = false) ∧
      tags.get createdByCapcTagName ≠ ""
  · rw [if_pos hc, if_pos ⟨hcount.mpr hc.1, hc.2⟩]
    rfl
  · rw [if_neg hc, if_neg fun hh => hc ⟨hcount.mp hh.1, hh.2⟩]

/-- C1. Given the tag map `tags` of the network of the cluster, `DeleteNetworkIfNotInUse`
issues a request to destroy a network if and only if no key of `tags` begins with the
cluster-tag prefix and the created-by tag has a non-empty value; the request, when issued, is
the only write and names `Status.NetworkID`. Consequently, as long as the ownership tag name
of any cluster (prefix followed by its UID) is a key of `tags`, no destroy request is issued. -/
theorem DeleteNetworkIfNotInUse_destroys_iff (c : client) (csCluster : CloudStackCluster)
    (tags : Tags) (h : c.GetNetworkTags csCluster.Status.NetworkID = Except.ok tags) :
    ((DeleteNetworkIfNotInUse c csCluster).calls.any Call.isDeleteNetwork = true ↔
      ((∀ k ∈ tags.keys, strings.HasPrefix k clusterTagNamePrefix = false) ∧
        tags.get createdByCapcTagName ≠ "")) ∧
    ((DeleteNetworkIfNotInUse c csCluster).calls.filter Call.isWrite =
      if (∀ k ∈ tags.keys, strings.HasPrefix k clusterTagNamePrefix = false) ∧
          tags.get createdByCapcTagName ≠ "" then
        [Call.DeleteNetwork csCluster.Status.NetworkID]
      else []) ∧
    (∀ owner : CloudStackCluster, generateNetworkTagName owner ∈ tags.keys →
      (DeleteNetworkIfNotInUse c csCluster).calls.any Call.isDeleteNetwork = false) := by
  rw [DeleteNetworkIfNotInUse_calls c csCluster tags h]
  by_cases hc : (∀ k ∈ tags.keys, strings.HasPrefix k clusterTagNamePrefix = false) ∧
      tags.get createdByCapcTagName ≠ ""
  · rw [if_pos hc]
    refine ⟨?_, ?_, ?_⟩
    · simp only [List.any_cons, List.any_nil, Call.isDeleteNetwork, Bool.false_or,
        Bool.or_false, true_iff]
      exact hc
    · simp [Call.isWrite]
    · intro owner hmem
      have := hc.1 _ hmem
      rw [generateNetworkTagName_hasPrefix] at this
      exact absurd this (by decide)
  · rw [if_neg hc]
    refine ⟨?_, ?_, ?_⟩
    · simp only [List.any_cons, List.any_nil, Call.isDeleteNetwork, Bool.false_or,
        Bool.false_eq_true, false_iff]
      exact hc
    · simp [Call.isWrite]
    · intro _ _
      simp [Call.isDeleteNetwork]

/-- Witness of C1: a network that still carries the ownership tag of cluster `0`. -/
theorem DeleteNetworkIfNotInUse_destroys_iff_witness :
    (fixtures.clientWithTags [("CAPC_cluster_0", "1"), ("create_by_CAPC", "1")]).GetNetworkTags
        fixtures.cluster0.Status.NetworkID =
      Except.ok [("CAPC_cluster_0", "1"), ("create_by_CAPC", "1")] ∧
    (DeleteNetworkIfNotInUse
        (fixtures.clientWithTags [("CAPC_cluster_0", "1"), ("create_by_CAPC", "1")])
        fixtures.cluster0).calls.any Call.isDeleteNetwork = false :=
  ⟨rfl, (DeleteNetworkIfNotInUse_destroys_iff
      (fixtures.clientWithTags [("CAPC_cluster_0", "1"), ("create_by_CAPC", "1")])
      fixtures.cluster0 [("CAPC_cluster_0", "1"), ("create_by_CAPC", "1")] rfl).2.2
    fixtures.cluster0 (by decide)⟩

/-! ### ResolveNetwork -/

/-- The requests of `ResolveNetwork` are lookups. -/
theorem ResolveNetwork_calls (c : client) (csCluster : CloudStackCluster) :
    ∃ id, (ResolveNetwork c csCluster).calls =
      [Call.GetNetworkID csCluster.Spec.Network, Call.GetNetworkByID id] := by
  unfold ResolveNetwork
  rcases hname : c.cs.Network.GetNetworkID csCluster.Spec.Network with ⟨id, count, err⟩
  dsimp only
  split
  · exact ⟨_, rfl⟩
  · split <;> exact ⟨_, rfl⟩

/-- A failed `ResolveNetwork` leaves the cluster as it was. -/
theorem ResolveNetwork_err_cluster (c : client) (csCluster : CloudStackCluster)
    (h : (ResolveNetwork c csCluster).err ≠ none) :
    (ResolveNetwork c csCluster).cluster = csCluster := by
  revert h
  unfold ResolveNetwork
  rcases hname : c.cs.Network.GetNetworkID csCluster.Spec.Network with ⟨id, count, err⟩
  dsimp only
  split
  · intro _; rfl
  · split
    · intro _; rfl
    · intro h; exact absurd rfl h

/-- Counterexample to C2 as stated: the name lookup reports two matches (and returns the ID
of the one named exactly so), the lookup of that ID finds one network, and `ResolveNetwork`
returns nil and overwrites `Status.NetworkID` and `Status.NetworkType`. -/
theorem ResolveNetwork_ambiguous_name_counterexample :
    (fixtures.ambiguousByName.cs.Network.GetNetworkID fixtures.cluster0.Spec.Network).2.1 > 1 ∧
    (ResolveNetwork fixtures.ambiguousByName fixtures.cluster0).err = none ∧
    fixtures.cluster0.Status.NetworkID = "net-1" ∧
    fixtures.cluster0.Status.NetworkType = "Isolated" ∧
    (ResolveNetwork fixtures.ambiguousByName fixtures.cluster0).cluster.Status.NetworkID =
      "net-2" ∧
    (ResolveNetwork fixtures.ambiguousByName fixtures.cluster0).cluster.Status.NetworkType =
      "Shared" := by
  decide

/-- C2, amended. Let the lookup of the declared network name report more than one match, and
let `id` be the ID looked up next: the one the name lookup returned when it gave no error, the
declared name itself otherwise. If the lookup of `id` fails or reports a count other than one,
`ResolveNetwork` returns a non-nil error and leaves the cluster unchanged, and when the name
lookup gave no error the returned multierror starts with the ambiguity message of the name
lookup. If the lookup of `id` finds exactly one network, `ResolveNetwork` returns nil and sets
`Status.NetworkID` and `Status.NetworkType` from it. -/
theorem ResolveNetwork_ambiguous_name (c : client) (csCluster : CloudStackCluster)
    (id : String) (count : Int) (err : Option GoError)
    (hname : c.cs.Network.GetNetworkID csCluster.Spec.Network = (id, count, err))
    (hcount : 1 < count) :
    (((c.cs.Network.GetNetworkByID
          (if err.isSome then csCluster.Spec.Network else id)).count ≠ 1 ∨
        ∃ e, (c.cs.Network.GetNetworkByID
          (if err.isSome then csCluster.Spec.Network else id)).result = Except.error e) →
      (ResolveNetwork c csCluster).err ≠ none ∧
      (ResolveNetwork c csCluster).cluster = csCluster ∧
      (err = none → ∃ rest, (ResolveNetwork c csCluster).err = some (GoError.multi
        (("Expected 1 Network with name " ++ csCluster.Spec.Network ++ ", but got " ++
          fmt_d count ++ ".") :: rest)))) ∧
    (∀ n, (c.cs.Network.GetNetworkByID
          (if err.isSome then csCluster.Spec.Network else id)).count = 1 →
        (c.cs.Network.GetNetworkByID
          (if err.isSome then csCluster.Spec.Network else id)).result = Except.ok n →
      (ResolveNetwork c csCluster).err = none ∧
      (ResolveNetwork c csCluster).cluster = { csCluster with Status := { csCluster.Status with
        NetworkID := (if err.isSome then csCluster.Spec.Network else id)
        NetworkType := n.Type_ } }) := by
  have hne : count ≠ 1 := by omega
  unfold ResolveNetwork
  rw [hname]
  cases err with
  | some e0 =>
    simp only [Option.isSome_some, if_true]
    constructor
    · rintro (hc | ⟨e, he⟩)
      · cases hres : (c.cs.Network.GetNetworkByID csCluster.Spec.Network).result with
        | error e1 => simp
        | ok n => simp [hc]
      · simp [he]
    · intro n hc hn
      simp [hn, hc]
  | none =>
    simp only [Option.isSome_none, Bool.false_eq_true, if_false, hne, ne_eq, not_false_eq_true,
      if_true]
    constructor
    · rintro (hc | ⟨e, he⟩)
      · cases hres : (c.cs.Network.GetNetworkByID id).result with
        | error e1 => simp [multierror.Append, errors.New, errors.Wrapf]
        | ok n => simp [hc, multierror.Append, errors.New]
      · simp [he, multierror.Append, errors.New, errors.Wrapf]
    · intro n hc hn
      simp [hn, hc]

/-- Witness of the amended C2: the name lookup reports two matches and the lookup of the
returned ID reports two as well; `ResolveNetwork` fails and changes nothing. -/
theorem ResolveNetwork_ambiguous_name_witness :
    fixtures.ambiguousTwice.cs.Network.GetNetworkID fixtures.cluster0.Spec.Network =
      ("net-2", 2, none) ∧
    (ResolveNetwork fixtures.ambiguousTwice fixtures.cluster0).err ≠ none ∧
    (ResolveNetwork fixtures.ambiguousTwice fixtures.cluster0).cluster = fixtures.cluster0 :=
  ⟨rfl,
    ((ResolveNetwork_ambiguous_name fixtures.ambiguousTwice fixtures.cluster0 "net-2" 2 none
      rfl (by decide)).1 (Or.inl (by decide))).1,
    ((ResolveNetwork_ambiguous_name fixtures.ambiguousTwice fixtures.cluster0 "net-2" 2 none
      rfl (by decide)).1 (Or.inl (by decide))).2.1⟩

/-! ### Tagging and GetOrCreateNetwork -/

theorem tagName_ne_createdBy (csCluster : CloudStackCluster) :
    generateNetworkTagName csCluster ≠ createdByCapcTagName := by
  intro h
  have h2 := congrArg String.data h
  simp [generateNetworkTagName, clusterTagNamePrefix, createdByCapcTagName] at h2

/-- The tags `addClusterTags` has to add, given the existing ones. -/
theorem addClusterTags_eq (c : client) (csCluster : CloudStackCluster) (b : Bool)
    (existing : Tags) (h : c.GetNetworkTags csCluster.Status.NetworkID = Except.ok existing) :
    (addClusterTags c csCluster b).cluster = csCluster ∧
    (addClusterTags c csCluster b).calls =
      Call.GetNetworkTags csCluster.Status.NetworkID ::
        (if (if existing.get (generateNetworkTagName csCluster) = "" then
              [(generateNetworkTagName csCluster, "1")] else []) ++
            (if b = true ∧ existing.get createdByCapcTagName = "" then
              [(createdByCapcTagName, "1")] else []) = [] then []
        else [Call.AddNetworkTags csCluster.Status.NetworkID
          ((if existing.get (generateNetworkTagName csCluster) = "" then
              [(generateNetworkTagName csCluster, "1")] else []) ++
            (if b = true ∧ existing.get createdByCapcTagName = "" then
              [(createdByCapcTagName, "1")] else []))]) := by
  have hne := tagName_ne_createdBy csCluster
  unfold addClusterTags
  rw [h]
  dsimp only
  by_cases h1 : existing.get (generateNetworkTagName csCluster) = "" <;>
    by_cases h2 : (b = true ∧ existing.get createdByCapcTagName = "") <;>
    simp [h1, h2, Tags.set, hne]


theorem GetOrCreateNetwork_found (ToLower : String → String) (c : client)
    (csCluster : CloudStackCluster) (h : (ResolveNetwork c csCluster).err = none) :
    GetOrCreateNetwork ToLower c csCluster =
      { addClusterTags c (ResolveNetwork c csCluster).cluster false with
        calls := (ResolveNetwork c csCluster).calls ++
          (addClusterTags c (ResolveNetwork c csCluster).cluster false).calls } := by
  unfold GetOrCreateNetwork
  simp only [h]

theorem GetOrCreateNetwork_other_error (ToLower : String → String) (c : client)
    (csCluster : CloudStackCluster) (e : GoError) (h : (ResolveNetwork c csCluster).err = some e)
    (hnf : strings.Contains (ToLower e.Error) "no match found" = false) :
    GetOrCreateNetwork ToLower c csCluster = ResolveNetwork c csCluster := by
  unfold GetOrCreateNetwork
  simp only [h, hnf, Bool.false_eq_true, not_false_eq_true, if_true]

theorem GetOrCreateNetwork_offering_failed (ToLower : String → String) (c : client)
    (csCluster : CloudStackCluster) (e : GoError) (h : (ResolveNetwork c csCluster).err = some e)
    (hnf : strings.Contains (ToLower e.Error) "no match found" = true)
    (offeringID : String) (count : Int) (oerr : Option GoError)
    (hoff : c.cs.NetworkOffering.GetNetworkOfferingID netOffering = (offeringID, count, oerr))
    (hbad : oerr ≠ none ∨ count ≠ 1) :
    GetOrCreateNetwork ToLower c csCluster =
      { err := some (oerr.getD (errors.New "found more than one network offering"))
        cluster := csCluster
        calls := (ResolveNetwork c csCluster).calls ++ [Call.GetNetworkOfferingID netOffering] } := by
  have hcl := ResolveNetwork_err_cluster c csCluster (by rw [h]; simp)
  unfold GetOrCreateNetwork
  simp only [h, hnf, not_true_eq_false, if_false, hoff, hcl]
  cases oerr with
  | some e2 => simp
  | none =>
    have hc : count ≠ 1 := by simpa using hbad
    simp [hc]

theorem GetOrCreateNetwork_create (ToLower : String → String) (c : client)
    (csCluster : CloudStackCluster) (e : GoError) (h : (ResolveNetwork c csCluster).err = some e)
    (hnf : strings.Contains (ToLower e.Error) "no match found" = true)
    (offeringID : String)
    (hoff : c.cs.NetworkOffering.GetNetworkOfferingID netOffering = (offeringID, 1, none)) :
    GetOrCreateNetwork ToLower c csCluster =
      match c.cs.Network.CreateNetwork
        { name := csCluster.Spec.Network, displaytext := csCluster.Spec.Network
          networkofferingid := offeringID, zoneid := csCluster.Status.ZoneID
          account := setIfNotEmpty csCluster.Spec.Account
          domainid := setIfNotEmpty csCluster.Status.DomainID } with
      | Except.error err =>
        { err := some err, cluster := csCluster
          calls := (ResolveNetwork c csCluster).calls ++ [Call.GetNetworkOfferingID netOffering] ++
            [Call.CreateNetwork
              { name := csCluster.Spec.Network, displaytext := csCluster.Spec.Network
                networkofferingid := offeringID, zoneid := csCluster.Status.ZoneID
                account := setIfNotEmpty csCluster.Spec.Account
                domainid := setIfNotEmpty csCluster.Status.DomainID }] }
      | Except.ok resp =>
        { addClusterTags c { csCluster with Status := { csCluster.Status with
            NetworkID := resp.Id, NetworkType := resp.Type_ } } true with
          calls := (ResolveNetwork c csCluster).calls ++ [Call.GetNetworkOfferingID netOffering] ++
            [Call.CreateNetwork
              { name := csCluster.Spec.Network, displaytext := csCluster.Spec.Network
                networkofferingid := offeringID, zoneid := csCluster.Status.ZoneID
                account := setIfNotEmpty csCluster.Spec.Account
                domainid := setIfNotEmpty csCluster.Status.DomainID }] ++
            (addClusterTags c { csCluster with Status := { csCluster.Status with
              NetworkID := resp.Id, NetworkType := resp.Type_ } } true).calls } := by
  have hcl := ResolveNetwork_err_cluster c csCluster (by rw [h]; simp)
  unfold GetOrCreateNetwork
  simp only [h, hnf, not_true_eq_false, if_false, hoff, hcl, ne_eq, not_true_eq_false]

theorem addClusterTags_calls_no_create (c : client) (csCluster : CloudStackCluster) (b : Bool) :
    (addClusterTags c csCluster b).calls.any Call.isCreateNetwork = false := by
  unfold addClusterTags
  dsimp only
  split
  · rfl
  · split_ifs <;> rfl

theorem ResolveNetwork_calls_no_create (c : client) (csCluster : CloudStackCluster) :
    (ResolveNetwork c csCluster).calls.any Call.isCreateNetwork = false := by
  obtain ⟨id, h⟩ := ResolveNetwork_calls c csCluster
  rw [h]; rfl

/-- Counterexample to C3 as stated: the name lookup reports two matches and fails for want of
an exact match, the lookup by ID answers "No match found", and `GetOrCreateNetwork` creates a
network and returns nil. -/
theorem GetOrCreateNetwork_ambiguous_counterexample :
    (fixtures.ambiguousThenNotFound.cs.Network.GetNetworkID
      fixtures.cluster0.Spec.Network).2.1 > 1 ∧
    (GetOrCreateNetwork strings.asciiToLower fixtures.ambiguousThenNotFound
      fixtures.cluster0).err = none ∧
    (GetOrCreateNetwork strings.asciiToLower fixtures.ambiguousThenNotFound
      fixtures.cluster0).calls.filter Call.isCreateNetwork =
      [Call.CreateNetwork
        { name := "net", displaytext := "net", networkofferingid := "offering-1"
          zoneid := "zone-1", account := none, domainid := none }] := by
  decide

/-- C3, amended. Let the lookup of the declared network name report more than one match.
Unless `ResolveNetwork` fails with an error whose lower-cased text contains "no match found",
`GetOrCreateNetwork` issues no request to create a network; and when `ResolveNetwork` fails
with such an error, `GetOrCreateNetwork` returns that very error, issues no request beyond the
two lookups and leaves the cluster unchanged. -/
theorem GetOrCreateNetwork_ambiguous (ToLower : String → String) (c : client)
    (csCluster : CloudStackCluster)
    (_hcount : 1 < (c.cs.Network.GetNetworkID csCluster.Spec.Network).2.1)
    (hclass : ∀ e, (ResolveNetwork c csCluster).err = some e →
      strings.Contains (ToLower e.Error) "no match found" = false) :
    (GetOrCreateNetwork ToLower c csCluster).calls.any Call.isCreateNetwork = false ∧
    ((ResolveNetwork c csCluster).err ≠ none →
      (GetOrCreateNetwork ToLower c csCluster).err = (ResolveNetwork c csCluster).err ∧
      (GetOrCreateNetwork ToLower c csCluster).cluster = csCluster ∧
      (GetOrCreateNetwork ToLower c csCluster).calls = (ResolveNetwork c csCluster).calls) := by
  cases hres : (ResolveNetwork c csCluster).err with
  | none =>
    refine ⟨?_, fun h => absurd rfl h⟩
    rw [GetOrCreateNetwork_found ToLower c csCluster hres]
    simp [List.any_append, ResolveNetwork_calls_no_create, addClusterTags_calls_no_create]
  | some e =>
    have hG := GetOrCreateNetwork_other_error ToLower c csCluster e hres (hclass e hres)
    have hcl := ResolveNetwork_err_cluster c csCluster (by rw [hres]; simp)
    refine ⟨?_, fun _ => ⟨?_, ?_, ?_⟩⟩
    · rw [hG]; exact ResolveNetwork_calls_no_create c csCluster
    · rw [hG, hres]
    · rw [hG, hcl]
    · rw [hG]

/-- Witness of the amended C3: two matches by name, two by ID; the error of `ResolveNetwork`
does not read "no match found". -/
theorem GetOrCreateNetwork_ambiguous_witness :
    1 < (fixtures.ambiguousTwice.cs.Network.GetNetworkID fixtures.cluster0.Spec.Network).2.1 ∧
    (GetOrCreateNetwork strings.asciiToLower fixtures.ambiguousTwice
      fixtures.cluster0).calls.any Call.isCreateNetwork = false :=
  ⟨by decide,
    (GetOrCreateNetwork_ambiguous strings.asciiToLower fixtures.ambiguousTwice fixtures.cluster0
      (by decide)
      (fun e he => by
        have h2 : (ResolveNetwork fixtures.ambiguousTwice fixtures.cluster0).err =
            some (GoError.multi ["Expected 1 Network with name net, but got 2.",
              "Could not get Network by ID net-2.: " ++
                "There is more then one result for Network UUID: net-2"]) := by decide
        rw [h2] at he
        cases he
        decide)).1⟩

theorem addClusterTags_filter_create (c : client) (csCluster : CloudStackCluster) (b : Bool) :
    (addClusterTags c csCluster b).calls.filter Call.isCreateNetwork = [] := by
  rw [List.filter_eq_nil_iff]
  intro a ha hc
  have h := List.any_eq_false.mp (addClusterTags_calls_no_create c csCluster b) a ha
  exact h hc

/-- C4. Let `ResolveNetwork` fail with an error whose lower-cased text contains
"no match found". If the lookup of the default network offering returns exactly one offering,
`GetOrCreateNetwork` issues exactly one request to create a network, with name and display
text the declared network name, that offering ID and `Status.ZoneID`; when that request
succeeds the resulting cluster has `Status.NetworkID` and `Status.NetworkType` set to the `Id`
and `Type` of the created network and is otherwise unchanged. If the offering lookup fails or
reports a count other than one, `GetOrCreateNetwork` returns an error, issues no request to
create a network and leaves the cluster unchanged. -/
theorem GetOrCreateNetwork_not_found (ToLower : String → String) (c : client)
    (csCluster : CloudStackCluster) (e : GoError)
    (hres : (ResolveNetwork c csCluster).err = some e)
    (hnf : strings.Contains (ToLower e.Error) "no match found" = true) :
    (∀ offeringID : String,
      c.cs.NetworkOffering.GetNetworkOfferingID netOffering = (offeringID, 1, none) →
      (GetOrCreateNetwork ToLower c csCluster).calls.filter Call.isCreateNetwork =
        [Call.CreateNetwork
          { name := csCluster.Spec.Network, displaytext := csCluster.Spec.Network
            networkofferingid := offeringID, zoneid := csCluster.Status.ZoneID
            account := setIfNotEmpty csCluster.Spec.Account
            domainid := setIfNotEmpty csCluster.Status.DomainID }] ∧
      ∀ resp : cloudstack.Network,
        c.cs.Network.CreateNetwork
          { name := csCluster.Spec.Network, displaytext := csCluster.Spec.Network
            networkofferingid := offeringID, zoneid := csCluster.Status.ZoneID
            account := setIfNotEmpty csCluster.Spec.Account
            domainid := setIfNotEmpty csCluster.Status.DomainID } = Except.ok resp →
        (GetOrCreateNetwork ToLower c csCluster).cluster =
          { csCluster with Status := { csCluster.Status with
            NetworkID := resp.Id, NetworkType := resp.Type_ } }) ∧
    (∀ (offeringID : String) (count : Int) (oerr : Option GoError),
      c.cs.NetworkOffering.GetNetworkOfferingID netOffering = (offeringID, count, oerr) →
      oerr ≠ none ∨ count ≠ 1 →
      (GetOrCreateNetwork ToLower c csCluster).err ≠ none ∧
      (GetOrCreateNetwork ToLower c csCluster).calls.any Call.isCreateNetwork = false ∧
      (GetOrCreateNetwork ToLower c csCluster).cluster = csCluster) := by
  constructor
  · intro offeringID hoff
    rw [GetOrCreateNetwork_create ToLower c csCluster e hres hnf offeringID hoff]
    obtain ⟨id, hcalls⟩ := ResolveNetwork_calls c csCluster
    constructor
    · split
      · simp [hcalls, Call.isCreateNetwork]
      · simp only [List.filter_append, hcalls, addClusterTags_filter_create]
        simp [Call.isCreateNetwork]
    · intro resp hresp
      rw [hresp]
      dsimp only
      unfold addClusterTags
      dsimp only
      split
      · rfl
      · split_ifs <;> rfl
  · intro offeringID count oerr hoff hbad
    rw [GetOrCreateNetwork_offering_failed ToLower c csCluster e hres hnf offeringID count oerr
      hoff hbad]
    obtain ⟨id, hcalls⟩ := ResolveNetwork_calls c csCluster
    simp [hcalls, Call.isCreateNetwork]

/-- Witness of C4: no network is found and there is one default offering. -/
theorem GetOrCreateNetwork_not_found_witness :
    (ResolveNetwork (fixtures.notFoundOneOffering []) fixtures.cluster0).err =
      some (GoError.multi ["Could not get Network ID from net.: No match found for net",
        "Could not get Network by ID net.: No match found for net"]) ∧
    (GetOrCreateNetwork strings.asciiToLower (fixtures.notFoundOneOffering [])
      fixtures.cluster0).calls.filter Call.isCreateNetwork =
      [Call.CreateNetwork
        { name := "net", displaytext := "net", networkofferingid := "offering-1"
          zoneid := "zone-1", account := none, domainid := none }] :=
  ⟨by decide,
    ((GetOrCreateNetwork_not_found strings.asciiToLower (fixtures.notFoundOneOffering [])
      fixtures.cluster0
      (GoError.multi ["Could not get Network ID from net.: No match found for net",
        "Could not get Network by ID net.: No match found for net"])
      (by decide) (by decide)).1 "offering-1" rfl).1⟩

/-- C5. When the lookup of the declared network name returns the ID `n` with count one and no
error, and the lookup of `n` by ID returns one network `net`, `ResolveNetwork` returns nil and
the resulting cluster is the given one with `Status.NetworkID = n` and
`Status.NetworkType = net.Type`, every other field unchanged. -/
theorem ResolveNetwork_one_match (c : client) (csCluster : CloudStackCluster) (n : String)
    (net : cloudstack.Network)
    (hname : c.cs.Network.GetNetworkID csCluster.Spec.Network = (n, 1, none))
    (hcount : (c.cs.Network.GetNetworkByID n).count = 1)
    (hbyID : (c.cs.Network.GetNetworkByID n).result = Except.ok net) :
    (ResolveNetwork c csCluster).err = none ∧
    (ResolveNetwork c csCluster).cluster =
      { csCluster with Status := { csCluster.Status with
        NetworkID := n, NetworkType := net.Type_ } } := by
  unfold ResolveNetwork
  rw [hname]
  simp [hcount, hbyID]

/-- Witness of C5: the declared name resolves to the one network `net-1`. -/
theorem ResolveNetwork_one_match_witness :
    (ResolveNetwork (fixtures.oneNetwork []) fixtures.freshCluster).err = none ∧
    (ResolveNetwork (fixtures.oneNetwork []) fixtures.freshCluster).cluster =
      { fixtures.freshCluster with Status := { fixtures.freshCluster.Status with
        NetworkID := "net-1", NetworkType := "Isolated" } } :=
  ResolveNetwork_one_match (fixtures.oneNetwork []) fixtures.freshCluster "net-1"
    { Id := "net-1", Type_ := "Isolated" } rfl rfl rfl

theorem addClusterTags_cluster (c : client) (csCluster : CloudStackCluster) (b : Bool) :
    (addClusterTags c csCluster b).cluster = csCluster := by
  unfold addClusterTags
  dsimp only
  split
  · rfl
  · split_ifs <;> rfl

theorem ResolveNetwork_UID (c : client) (csCluster : CloudStackCluster) :
    generateNetworkTagName (ResolveNetwork c csCluster).cluster =
      generateNetworkTagName csCluster := by
  unfold ResolveNetwork
  rcases hname : c.cs.Network.GetNetworkID csCluster.Spec.Network with ⟨id, count, err⟩
  dsimp only
  split
  · rfl
  · split <;> rfl

/-- C6. Let `existing` be the tag map the provider returns for the resolved network. If
`ResolveNetwork` found the network, `GetOrCreateNetwork` issues no request to create a
network, and the requests to add tags it issues are: exactly one, for the found network,
carrying exactly the ownership tag of the cluster with value "1", when `existing` has no value
for that tag; none otherwise, so a discovered network never receives the created-by tag. If
`ResolveNetwork` found nothing and this call created the network, the requests to add tags
are: none, when the set of new tags is empty; otherwise exactly one, for the created network,
carrying exactly the new tags, which are the ownership tag with value "1" if `existing` has no
value for it, together with the created-by tag with value "1" if `existing` has no value for
it. -/
theorem GetOrCreateNetwork_added_tags (ToLower : String → String) (c : client)
    (csCluster : CloudStackCluster) :
    (∀ existing : Tags,
      (ResolveNetwork c csCluster).err = none →
      c.GetNetworkTags (ResolveNetwork c csCluster).cluster.Status.NetworkID =
        Except.ok existing →
      (GetOrCreateNetwork ToLower c csCluster).calls.any Call.isCreateNetwork = false ∧
      (GetOrCreateNetwork ToLower c csCluster).calls.filter Call.isAddNetworkTags =
        if existing.get (generateNetworkTagName csCluster) = "" then
          [Call.AddNetworkTags (ResolveNetwork c csCluster).cluster.Status.NetworkID
            [(generateNetworkTagName csCluster, "1")]]
        else []) ∧
    (∀ (e : GoError) (offeringID : String) (resp : cloudstack.Network) (existing : Tags),
      (ResolveNetwork c csCluster).err = some e →
      strings.Contains (ToLower e.Error) "no match found" = true →
      c.cs.NetworkOffering.GetNetworkOfferingID netOffering = (offeringID, 1, none) →
      c.cs.Network.CreateNetwork
        { name := csCluster.Spec.Network, displaytext := csCluster.Spec.Network
          networkofferingid := offeringID, zoneid := csCluster.Status.ZoneID
          account := setIfNotEmpty csCluster.Spec.Account
          domainid := setIfNotEmpty csCluster.Status.DomainID } = Except.ok resp →
      c.GetNetworkTags resp.Id = Except.ok existing →
      (GetOrCreateNetwork ToLower c csCluster).calls.any Call.isCreateNetwork = true ∧
      (GetOrCreateNetwork ToLower c csCluster).calls.filter Call.isAddNetworkTags =
        if (if existing.get (generateNetworkTagName csCluster) = "" then
              [(generateNetworkTagName csCluster, "1")] else []) ++
            (if existing.get createdByCapcTagName = "" then
              [(createdByCapcTagName, "1")] else []) = [] then []
        else [Call.AddNetworkTags resp.Id
          ((if existing.get (generateNetworkTagName csCluster) = "" then
              [(generateNetworkTagName csCluster, "1")] else []) ++
            (if existing.get createdByCapcTagName = "" then
              [(createdByCapcTagName, "1")] else []))]) := by
  obtain ⟨id, hcalls⟩ := ResolveNetwork_calls c csCluster
  constructor
  · intro existing hres htags
    have hG := GetOrCreateNetwork_found ToLower c csCluster hres
    have hadd := (addClusterTags_eq c (ResolveNetwork c csCluster).cluster false existing htags).2
    have hcallsG : (GetOrCreateNetwork ToLower c csCluster).calls =
        (ResolveNetwork c csCluster).calls ++
          (addClusterTags c (ResolveNetwork c csCluster).cluster false).calls := by
      rw [hG]
    constructor
    · rw [hcallsG]
      simp [List.any_append, ResolveNetwork_calls_no_create, addClusterTags_calls_no_create]
    · rw [hcallsG, hadd, hcalls, ResolveNetwork_UID]
      by_cases h1 : existing.get (generateNetworkTagName csCluster) = "" <;>
        simp [h1, Call.isAddNetworkTags]
  · intro e offeringID resp existing hres hnf hoff hcreate htags
    have hG := GetOrCreateNetwork_create ToLower c csCluster e hres hnf offeringID hoff
    rw [hcreate] at hG
    dsimp only at hG
    have htags2 : c.GetNetworkTags ({ csCluster with Status := { csCluster.Status with
          NetworkID := resp.Id, NetworkType := resp.Type_ } } :
          CloudStackCluster).Status.NetworkID = Except.ok existing := htags
    have hadd := (addClusterTags_eq c { csCluster with Status := { csCluster.Status with
          NetworkID := resp.Id, NetworkType := resp.Type_ } } true existing htags2).2
    have hcallsG : (GetOrCreateNetwork ToLower c csCluster).calls =
        (ResolveNetwork c csCluster).calls ++ [Call.GetNetworkOfferingID netOffering] ++
        [Call.CreateNetwork
          { name := csCluster.Spec.Network, displaytext := csCluster.Spec.Network
            networkofferingid := offeringID, zoneid := csCluster.Status.ZoneID
            account := setIfNotEmpty csCluster.Spec.Account
            domainid := setIfNotEmpty csCluster.Status.DomainID }] ++
        (addClusterTags c { csCluster with Status := { csCluster.Status with
          NetworkID := resp.Id, NetworkType := resp.Type_ } } true).calls := by
      rw [hG]
    constructor
    · rw [hcallsG]
      simp [List.any_append, Call.isCreateNetwork]
    · rw [hcallsG, hadd, hcalls]
      have hname : generateNetworkTagName { csCluster with Status := { csCluster.Status with
            NetworkID := resp.Id, NetworkType := resp.Type_ } } =
          generateNetworkTagName csCluster := rfl
      rw [hname]
      by_cases h1 : existing.get (generateNetworkTagName csCluster) = "" <;>
        by_cases h2 : existing.get createdByCapcTagName = "" <;>
        simp [h1, h2, Call.isAddNetworkTags]

/-- Witness of C6: a discovered network without tags receives the ownership tag of the cluster
and no created-by tag; a network created by the call receives both; and a created network
that already carries both receives none. -/
theorem GetOrCreateNetwork_added_tags_witness :
    (GetOrCreateNetwork strings.asciiToLower (fixtures.oneNetwork [])
      fixtures.freshCluster).calls.filter Call.isAddNetworkTags =
      [Call.AddNetworkTags "net-1" [("CAPC_cluster_0", "1")]] ∧
    (GetOrCreateNetwork strings.asciiToLower (fixtures.notFoundOneOffering [])
      fixtures.freshCluster).calls.filter Call.isAddNetworkTags =
      [Call.AddNetworkTags "created-net" [("CAPC_cluster_0", "1"), ("create_by_CAPC", "1")]] ∧
    (GetOrCreateNetwork strings.asciiToLower
      (fixtures.notFoundOneOffering [("CAPC_cluster_0", "1"), ("create_by_CAPC", "1")])
      fixtures.freshCluster).calls.filter Call.isAddNetworkTags = [] :=
  ⟨((GetOrCreateNetwork_added_tags strings.asciiToLower (fixtures.oneNetwork [])
      fixtures.freshCluster).1 [] (by decide) rfl).2.trans (by decide),
    ((GetOrCreateNetwork_added_tags strings.asciiToLower (fixtures.notFoundOneOffering [])
      fixtures.freshCluster).2
      (GoError.multi ["Could not get Network ID from net.: No match found for net",
        "Could not get Network by ID net.: No match found for net"])
      "offering-1" { Id := "created-net", Type_ := "Isolated" } []
      (by decide) (by decide) rfl rfl rfl).2.trans (by decide),
    ((GetOrCreateNetwork_added_tags strings.asciiToLower
      (fixtures.notFoundOneOffering [("CAPC_cluster_0", "1"), ("create_by_CAPC", "1")])
      fixtures.freshCluster).2
      (GoError.multi ["Could not get Network ID from net.: No match found for net",
        "Could not get Network by ID net.: No match found for net"])
      "offering-1" { Id := "created-net", Type_ := "Isolated" }
      [("CAPC_cluster_0", "1"), ("create_by_CAPC", "1")]
      (by decide) (by decide) rfl rfl rfl).2.trans (by decide)⟩

/-! ### RemoveClusterTagFromNetwork -/

theorem firstAvailable_append (pre post : List cloudstack.PublicIpAddress)
    (v : cloudstack.PublicIpAddress) (hpre : ∀ u ∈ pre, u.Allocated ≠ "")
    (hv : v.Allocated = "") : firstAvailable (pre ++ v :: post) = some v := by
  induction pre with
  | nil => simp [firstAvailable, hv]
  | cons u pre ih =>
    have hu : u.Allocated ≠ "" := hpre u (List.mem_cons_self _ _)
    simp only [List.cons_append, firstAvailable, hu, if_false]
    exact ih fun w hw => hpre w (List.mem_cons_of_mem _ hw)

theorem firstAvailable_none (l : List cloudstack.PublicIpAddress)
    (h : ∀ u ∈ l, u.Allocated ≠ "") : firstAvailable l = none := by
  induction l with
  | nil => rfl
  | cons u l ih =>
    have hu : u.Allocated ≠ "" := h u (List.mem_cons_self _ _)
    simp only [firstAvailable, hu, if_false]
    exact ih fun w hw => h w (List.mem_cons_of_mem _ hw)

/-- Counterexample to C8 as stated: the declared host is `10.0.0.5`, the provider returns two
candidates, both with that address and both allocated, and `ResolvePublicIPDetails` returns
the all-allocated error instead of an address. -/
theorem ResolvePublicIPDetails_declared_host_counterexample :
    fixtures.clusterWithHost.Spec.ControlPlaneEndpoint.Host = "10.0.0.5" ∧
    fixtures.addr5.Ipaddress = "10.0.0.5" ∧
    fixtures.addr5b.Ipaddress = "10.0.0.5" ∧
    ResolvePublicIPDetails
      (fixtures.withAddresses
        { Count := 2, PublicIpAddresses := [fixtures.addr5, fixtures.addr5b] })
      fixtures.clusterWithHost =
      Run.ret (Except.error
        (errors.New "all Public IP Adresse(s) found were already allocated")) :=
  ⟨by decide, by decide, by decide, rfl⟩

/-- C8, amended. For every non-empty declared host `h` and every response of the provider
that reports exactly one candidate (`Count` is 1) and whose first address `a` has
`Ipaddress = h`, whatever the allocation state of `a`, `ResolvePublicIPDetails` returns `a`
without error. -/
theorem ResolvePublicIPDetails_declared_host (c : client) (csCluster : CloudStackCluster)
    (a : cloudstack.PublicIpAddress) (rest : List cloudstack.PublicIpAddress)
    (hhost : csCluster.Spec.ControlPlaneEndpoint.Host ≠ "")
    (hlist : c.cs.Address.ListPublicIpAddresses (listPublicIpAddressesParams csCluster) =
      Except.ok { Count := 1, PublicIpAddresses := a :: rest })
    (hip : a.Ipaddress = csCluster.Spec.ControlPlaneEndpoint.Host) :
    ResolvePublicIPDetails c csCluster = Run.ret (Except.ok a) ∧
    ∃ b, ResolvePublicIPDetails c csCluster = Run.ret (Except.ok b) ∧
      b.Ipaddress = csCluster.Spec.ControlPlaneEndpoint.Host := by
  have h1 : ResolvePublicIPDetails c csCluster = Run.ret (Except.ok a) := by
    unfold ResolvePublicIPDetails
    rw [hlist]
    simp [hhost]
  exact ⟨h1, a, h1, hip⟩

/-- Witness of the amended C8: the declared host `10.0.0.5` is the one candidate, already
allocated. -/
theorem ResolvePublicIPDetails_declared_host_witness :
    fixtures.clusterWithHost.Spec.ControlPlaneEndpoint.Host ≠ "" ∧
    fixtures.addr5.Allocated ≠ "" ∧
    ResolvePublicIPDetails
      (fixtures.withAddresses { Count := 1, PublicIpAddresses := [fixtures.addr5] })
      fixtures.clusterWithHost = Run.ret (Except.ok fixtures.addr5) :=
  ⟨by decide, by decide,
    (ResolvePublicIPDetails_declared_host
      (fixtures.withAddresses { Count := 1, PublicIpAddresses := [fixtures.addr5] })
      fixtures.clusterWithHost fixtures.addr5 [] (by decide) rfl rfl).1⟩

/-- C9. With no declared host and a response of the provider whose `Count` is the number of
addresses it lists: if some candidate has an empty `Allocated`, `ResolvePublicIPDetails`
returns the first such candidate in list order, without error; if there are candidates and
every one is allocated, it returns the all-allocated error and no address; if there is no
candidate, it returns the no-public-addresses-found error and no address. -/
theorem ResolvePublicIPDetails_no_host (c : client) (csCluster : CloudStackCluster)
    (resp : cloudstack.ListPublicIpAddressesResponse)
    (hhost : csCluster.Spec.ControlPlaneEndpoint.Host = "")
    (hlist : c.cs.Address.ListPublicIpAddresses (listPublicIpAddressesParams csCluster) =
      Except.ok resp)
    (hwf : resp.Count = resp.PublicIpAddresses.length) :
    (∀ (pre post : List cloudstack.PublicIpAddress) (v : cloudstack.PublicIpAddress),
      resp.PublicIpAddresses = pre ++ v :: post → (∀ u ∈ pre, u.Allocated ≠ "") →
      v.Allocated = "" →
      ResolvePublicIPDetails c csCluster = Run.ret (Except.ok v)) ∧
    (resp.PublicIpAddresses ≠ [] → (∀ u ∈ resp.PublicIpAddresses, u.Allocated ≠ "") →
      ResolvePublicIPDetails c csCluster = Run.ret (Except.error
        (errors.New "all Public IP Adresse(s) found were already allocated"))) ∧
    (resp.PublicIpAddresses = [] →
      ResolvePublicIPDetails c csCluster = Run.ret (Except.error (errors.New
        ("no public addresses found in network: \"" ++ csCluster.Spec.Network ++ "\"")))) := by
  have hpos : resp.PublicIpAddresses ≠ [] → resp.Count > 0 := by
    intro hne
    rw [hwf]
    have := List.length_pos.mpr hne
    omega
  refine ⟨?_, ?_, ?_⟩
  · intro pre post v hsplit hpre hv
    have hne : resp.PublicIpAddresses ≠ [] := by
      rw [hsplit]; simp
    unfold ResolvePublicIPDetails
    rw [hlist]
    simp only [hhost, ne_eq, not_true_eq_false, false_and, if_false, hpos hne, if_true]
    rw [hsplit, firstAvailable_append pre post v hpre hv]
  · intro hne hall
    unfold ResolvePublicIPDetails
    rw [hlist]
    simp only [hhost, ne_eq, not_true_eq_false, false_and, if_false, hpos hne, if_true]
    rw [firstAvailable_none _ hall]
  · intro hnil
    have hzero : ¬ resp.Count > 0 := by
      rw [hwf, hnil]; simp
    unfold ResolvePublicIPDetails
    rw [hlist]
    simp only [hhost, ne_eq, not_true_eq_false, false_and, if_false, hzero]

/-- Witness of C9: no host declared, candidates allocated, unallocated, allocated; the
unallocated one is returned. -/
theorem ResolvePublicIPDetails_no_host_witness :
    fixtures.cluster0.Spec.ControlPlaneEndpoint.Host = "" ∧
    ResolvePublicIPDetails
      (fixtures.withAddresses
        { Count := 3, PublicIpAddresses := [fixtures.addr5, fixtures.addr6, fixtures.addr7] })
      fixtures.cluster0 = Run.ret (Except.ok fixtures.addr6) :=
  ⟨rfl,
    (ResolvePublicIPDetails_no_host
      (fixtures.withAddresses
        { Count := 3, PublicIpAddresses := [fixtures.addr5, fixtures.addr6, fixtures.addr7] })
      fixtures.cluster0
      { Count := 3, PublicIpAddresses := [fixtures.addr5, fixtures.addr6, fixtures.addr7] }
      rfl rfl rfl).1 [fixtures.addr5] [fixtures.addr7] fixtures.addr6 rfl (by decide) rfl⟩

/-- C10. Whenever `ResolvePublicIPDetails` succeeds with an address `a`,
`AssociatePublicIPAddress` returns (it does not panic), the resulting cluster is the given one
with `Status.PublicIPID = a.Id` and endpoint host `a.Ipaddress`, and a request to associate
the address to the network is issued if and only if it is not the case that `a.Allocated` is
non-empty and `a.Associatednetworkid` equals `Status.NetworkID`. In that already-allocated
case it returns nil and issues no write; otherwise its one write is the request to associate
`a.Ipaddress` to `Status.NetworkID`, and it returns what that request returns. When
`ResolvePublicIPDetails` fails with an error, `AssociatePublicIPAddress` returns that error,
leaves the cluster unchanged and issues no request beyond the listing. -/
theorem AssociatePublicIPAddress_resolved (c : client) (csCluster : CloudStackCluster) :
    (∀ a : cloudstack.PublicIpAddress,
      ResolvePublicIPDetails c csCluster = Run.ret (Except.ok a) →
      ∃ r : Ret, AssociatePublicIPAddress c csCluster = Run.ret r ∧
        r.cluster =
          { csCluster with
            Spec := { csCluster.Spec with ControlPlaneEndpoint :=
              { csCluster.Spec.ControlPlaneEndpoint with Host := a.Ipaddress } }
            Status := { csCluster.Status with PublicIPID := a.Id } } ∧
        r.cluster.Status.PublicIPID = a.Id ∧
        r.cluster.Spec.ControlPlaneEndpoint.Host = a.Ipaddress ∧
        (r.calls.any Call.isAssociateIpAddress = true ↔
          ¬ (a.Allocated ≠ "" ∧ a.Associatednetworkid = csCluster.Status.NetworkID)) ∧
        (a.Allocated ≠ "" ∧ a.Associatednetworkid = csCluster.Status.NetworkID →
          r.err = none ∧ r.calls.filter Call.isWrite = []) ∧
        (¬ (a.Allocated ≠ "" ∧ a.Associatednetworkid = csCluster.Status.NetworkID) →
          r.calls.filter Call.isWrite =
            [Call.AssociateIpAddress
              { networkid := some csCluster.Status.NetworkID
                ipaddress := some a.Ipaddress
                account := setIfNotEmpty csCluster.Spec.Account
                domainid := setIfNotEmpty csCluster.Status.DomainID }] ∧
          r.err = c.cs.Address.AssociateIpAddress
            { networkid := some csCluster.Status.NetworkID
              ipaddress := some a.Ipaddress
              account := setIfNotEmpty csCluster.Spec.Account
              domainid := setIfNotEmpty csCluster.Status.DomainID })) ∧
    (∀ e : GoError, ResolvePublicIPDetails c csCluster = Run.ret (Except.error e) →
      AssociatePublicIPAddress c csCluster =
        Run.ret { err := some e, cluster := csCluster
                  calls := [Call.ListPublicIpAddresses (listPublicIpAddressesParams csCluster)] }) := by
  constructor
  · intro a ha
    unfold AssociatePublicIPAddress
    rw [ha]
    dsimp only
    by_cases halloc : a.Allocated ≠ "" ∧ a.Associatednetworkid = csCluster.Status.NetworkID
    · rw [if_pos halloc]
      refine ⟨_, rfl, rfl, rfl, rfl, ?_, ?_, ?_⟩
      · simp [Call.isAssociateIpAddress, halloc]
      · intro _; simp [Call.isWrite]
      · intro h; exact absurd halloc h
    · rw [if_neg halloc]
      refine ⟨_, rfl, rfl, rfl, rfl, ?_, ?_, ?_⟩
      · simp only [List.any_cons, List.any_nil, Call.isAssociateIpAddress, Bool.false_or,
          Bool.or_false, true_iff]
        exact halloc
      · intro h; exact absurd h halloc
      · intro _; simp [Call.isWrite]
  · intro e he
    unfold AssociatePublicIPAddress
    rw [he]

/-- Witness of C10: the declared host `10.0.0.5` is already allocated to the network of the
cluster, so nothing is written. -/
theorem AssociatePublicIPAddress_resolved_witness :
    ResolvePublicIPDetails
      (fixtures.withAddresses { Count := 1, PublicIpAddresses := [fixtures.addr5] })
      fixtures.clusterWithHost = Run.ret (Except.ok fixtures.addr5) ∧
    ∃ r : Ret, AssociatePublicIPAddress
        (fixtures.withAddresses { Count := 1, PublicIpAddresses := [fixtures.addr5] })
        fixtures.clusterWithHost = Run.ret r ∧
      r.cluster.Status.PublicIPID = "ip-5" ∧ r.err = none ∧
      r.calls.filter Call.isWrite = [] := by
  refine ⟨rfl, ?_⟩
  obtain ⟨r, hr, _, hid, _, _, halloc, _⟩ :=
    (AssociatePublicIPAddress_resolved
      (fixtures.withAddresses { Count := 1, PublicIpAddresses := [fixtures.addr5] })
      fixtures.clusterWithHost).1 fixtures.addr5 rfl
  exact ⟨r, hr, hid, (halloc (by decide)).1, (halloc (by decide)).2⟩

/-! ### The endpoint host under AssociatePublicIPAddress -/

theorem firstAvailable_mem (l : List cloudstack.PublicIpAddress) (v : cloudstack.PublicIpAddress)
    (h : firstAvailable l = some v) : v ∈ l := by
  induction l with
  | nil => simp [firstAvailable] at h
  | cons u l ih =>
    unfold firstAvailable at h
    split at h
    · cases h; exact List.mem_cons_self _ _
    · exact List.mem_cons_of_mem _ (ih h)

/-- An address `ResolvePublicIPDetails` returns is one the provider listed. -/
theorem ResolvePublicIPDetails_mem (c : client) (csCluster : CloudStackCluster)
    (a : cloudstack.PublicIpAddress)
    (h : ResolvePublicIPDetails c csCluster = Run.ret (Except.ok a)) :
    ∃ resp, c.cs.Address.ListPublicIpAddresses (listPublicIpAddressesParams csCluster) =
      Except.ok resp ∧ a ∈ resp.PublicIpAddresses := by
  unfold ResolvePublicIPDetails at h
  cases hlist : c.cs.Address.ListPublicIpAddresses (listPublicIpAddressesParams csCluster) with
  | error e => rw [hlist] at h; simp at h
  | ok resp =>
    refine ⟨resp, rfl, ?_⟩
    rw [hlist] at h
    dsimp only at h
    split at h
    · cases hl : resp.PublicIpAddresses with
      | nil => rw [hl] at h; simp at h
      | cons b rest =>
        rw [hl] at h
        simp only [Run.ret.injEq, Except.ok.injEq] at h
        rw [h]; exact List.mem_cons_self _ _
    · split at h
      · cases hf : firstAvailable resp.PublicIpAddresses with
        | none => rw [hf] at h; simp at h
        | some v =>
          rw [hf] at h
          simp only [Run.ret.injEq, Except.ok.injEq] at h
          rw [← h]; exact firstAvailable_mem _ _ hf
      · simp at h

/-- The hypothesis on the provider in `AssociatePublicIPAddress_host` is needed, since the
code assigns the host without testing it: a provider that answered the request for
`10.0.0.5` with that address (allocated) and with `10.0.0.6` (not allocated) would have the
host overwritten with `10.0.0.6`. -/
theorem AssociatePublicIPAddress_host_unfiltered :
    fixtures.clusterWithHost.Spec.ControlPlaneEndpoint.Host = "10.0.0.5" ∧
    ∃ r : Ret, AssociatePublicIPAddress
        (fixtures.withAddresses
          { Count := 2, PublicIpAddresses := [fixtures.addr5, fixtures.addr6] })
        fixtures.clusterWithHost = Run.ret r ∧
      r.cluster.Spec.ControlPlaneEndpoint.Host = "10.0.0.6" :=
  ⟨rfl, _, rfl, rfl⟩

/-- On every return after a resolved address the host is the `Ipaddress` of that address: the
assignment in `AssociatePublicIPAddress` is unconditional. -/
theorem AssociatePublicIPAddress_host_assigned (c : client) (csCluster : CloudStackCluster)
    (r : Ret) (a : cloudstack.PublicIpAddress)
    (hres : ResolvePublicIPDetails c csCluster = Run.ret (Except.ok a))
    (hr : AssociatePublicIPAddress c csCluster = Run.ret r) :
    r.cluster.Spec.ControlPlaneEndpoint.Host = a.Ipaddress := by
  unfold AssociatePublicIPAddress at hr
  rw [hres] at hr
  dsimp only at hr
  split at hr <;>
  · simp only [Run.ret.injEq] at hr
    rw [← hr]

/-- With a declared host the request carries it as the `ipaddress` filter. -/
theorem listPublicIpAddressesParams_ipaddress (csCluster : CloudStackCluster)
    (hhost : csCluster.Spec.ControlPlaneEndpoint.Host ≠ "") :
    (listPublicIpAddressesParams csCluster).ipaddress =
      some csCluster.Spec.ControlPlaneEndpoint.Host := by
  unfold listPublicIpAddressesParams
  simp [hhost]

/-- When `ResolvePublicIPDetails` does not panic, neither does `AssociatePublicIPAddress`. -/
theorem AssociatePublicIPAddress_returns (c : client) (csCluster : CloudStackCluster)
    (x : Except GoError cloudstack.PublicIpAddress)
    (hres : ResolvePublicIPDetails c csCluster = Run.ret x) :
    ∃ r : Ret, AssociatePublicIPAddress c csCluster = Run.ret r := by
  unfold AssociatePublicIPAddress
  rw [hres]
  cases x with
  | error e => exact ⟨_, rfl⟩
  | ok a =>
    dsimp only
    split <;> exact ⟨_, rfl⟩

/-- With a well-formed response (`Count` is the number of addresses listed)
`ResolvePublicIPDetails` returns. -/
theorem ResolvePublicIPDetails_returns (c : client) (csCluster : CloudStackCluster)
    (hwf : ∀ resp, c.cs.Address.ListPublicIpAddresses (listPublicIpAddressesParams csCluster)
      = Except.ok resp → resp.Count = resp.PublicIpAddresses.length) :
    ∃ x, ResolvePublicIPDetails c csCluster = Run.ret x := by
  cases hres : ResolvePublicIPDetails c csCluster with
  | ret x => exact ⟨x, rfl⟩
  | panic =>
    exfalso
    unfold ResolvePublicIPDetails at hres
    cases hlist : c.cs.Address.ListPublicIpAddresses (listPublicIpAddressesParams csCluster) with
    | error e => rw [hlist] at hres; simp at hres
    | ok resp =>
      have hw := hwf resp hlist
      rw [hlist] at hres
      dsimp only at hres
      split at hres
      · rename_i hcond
        cases hl : resp.PublicIpAddresses with
        | nil =>
          rw [hl] at hw
          rw [hw] at hcond
          simp at hcond
        | cons b rest => rw [hl] at hres; simp at hres
      · split at hres
        · split at hres <;> simp at hres
        · simp at hres

/-- C11. Let the provider honour the `ipaddress` filter of a list request: every address it
lists for a request with the filter `ip` has `ip` as its `Ipaddress`. Then for every cluster
whose declared endpoint host is non-empty, and every response the provider returns,
`AssociatePublicIPAddress` leaves the endpoint host, and the whole spec, unchanged whenever it
returns, with or without an error; and it does return when the `Count` of the response is the
number of addresses listed. -/
theorem AssociatePublicIPAddress_host (c : client) (csCluster : CloudStackCluster)
    (hhost : csCluster.Spec.ControlPlaneEndpoint.Host ≠ "")
    (hfilter : ∀ (p : cloudstack.ListPublicIpAddressesParams)
      (resp : cloudstack.ListPublicIpAddressesResponse) (ip : String),
      c.cs.Address.ListPublicIpAddresses p = Except.ok resp → p.ipaddress = some ip →
      ∀ a ∈ resp.PublicIpAddresses, a.Ipaddress = ip) :
    (∀ r : Ret, AssociatePublicIPAddress c csCluster = Run.ret r →
      r.cluster.Spec.ControlPlaneEndpoint.Host = csCluster.Spec.ControlPlaneEndpoint.Host ∧
      r.cluster.Spec = csCluster.Spec) ∧
    ((∀ resp, c.cs.Address.ListPublicIpAddresses (listPublicIpAddressesParams csCluster)
        = Except.ok resp → resp.Count = resp.PublicIpAddresses.length) →
      ∃ r : Ret, AssociatePublicIPAddress c csCluster = Run.ret r ∧
        r.cluster.Spec.ControlPlaneEndpoint.Host = csCluster.Spec.ControlPlaneEndpoint.Host) := by
  have hparams := listPublicIpAddressesParams_ipaddress csCluster hhost
  have hkeep : ∀ r : Ret, AssociatePublicIPAddress c csCluster = Run.ret r →
      r.cluster.Spec.ControlPlaneEndpoint.Host = csCluster.Spec.ControlPlaneEndpoint.Host ∧
      r.cluster.Spec = csCluster.Spec := by
    intro r hr
    cases hres : ResolvePublicIPDetails c csCluster with
    | panic =>
      unfold AssociatePublicIPAddress at hr
      rw [hres] at hr
      simp at hr
    | ret x =>
      cases x with
      | error e =>
        unfold AssociatePublicIPAddress at hr
        rw [hres] at hr
        simp only [Run.ret.injEq] at hr
        rw [← hr]
        exact ⟨rfl, rfl⟩
      | ok a =>
        obtain ⟨resp, hlist, hmem⟩ := ResolvePublicIPDetails_mem c csCluster a hres
        have hip := hfilter _ resp _ hlist hparams a hmem
        unfold AssociatePublicIPAddress at hr
        rw [hres] at hr
        dsimp only at hr
        split at hr <;>
        · simp only [Run.ret.injEq] at hr
          rw [← hr]
          dsimp only
          rw [hip]
          exact ⟨rfl, rfl⟩
  refine ⟨hkeep, ?_⟩
  intro hwf
  obtain ⟨x, hx⟩ := ResolvePublicIPDetails_returns c csCluster hwf
  obtain ⟨r, hr⟩ := AssociatePublicIPAddress_returns c csCluster x hx
  exact ⟨r, hr, (hkeep r hr).1⟩

/-- Witness of C11: the provider knows `10.0.0.5` (allocated) and `10.0.0.6` (not allocated)
and honours the filter; the declared host `10.0.0.5` stays. -/
theorem AssociatePublicIPAddress_host_witness :
    fixtures.clusterWithHost.Spec.ControlPlaneEndpoint.Host ≠ "" ∧
    ∃ r : Ret, AssociatePublicIPAddress
        (fixtures.filteringAddresses [fixtures.addr5, fixtures.addr6])
        fixtures.clusterWithHost = Run.ret r ∧
      r.cluster.Spec.ControlPlaneEndpoint.Host = "10.0.0.5" := by
  have h := AssociatePublicIPAddress_host
    (fixtures.filteringAddresses [fixtures.addr5, fixtures.addr6])
    fixtures.clusterWithHost (by decide)
    (fun p resp ip hresp hp a ha => by
      have h1 : resp = fixtures.filterAddresses p [fixtures.addr5, fixtures.addr6] :=
        (Except.ok.inj hresp).symm
      subst h1
      unfold fixtures.filterAddresses at ha
      rw [hp] at ha
      simp only [List.mem_filter, decide_eq_true_eq] at ha
      exact ha.2)
  exact ⟨by decide, _, rfl, (h.1 _ rfl).1⟩

/-! ### StopAndModifyAffinityGroups -/

/-- C12. For a machine with an instance ID, `StopAndModifyAffinityGroups` returns, and its
requests are, in this order, stop, update and start, cut short after the first request that
fails: a failed stop is the only request; after a successful stop the update is issued, and a
failed update is the last request; after a successful update the start is issued. The error
returned is that of the request that failed, so it is nil exactly when all three requests
succeeded. The update carries the IDs of `groups`. -/
theorem StopAndModifyAffinityGroups_order (c : client) (csMachine : CloudStackMachine)
    (groups : AffinityGroups) (id : String) (hid : csMachine.Spec.InstanceID = some id) :
    ∃ r : CallRet, StopAndModifyAffinityGroups c csMachine groups = Run.ret r ∧
      (∀ e, c.cs.VirtualMachine.StopVirtualMachine id = some e →
        r.err = some e ∧ r.calls = [Call.StopVirtualMachine id]) ∧
      (c.cs.VirtualMachine.StopVirtualMachine id = none →
        ∀ e, c.cs.AffinityGroup.UpdateVMAffinityGroup
            { id := id, affinitygroupids := ToArrayOfIDs groups } = some e →
          r.err = some e ∧
          r.calls = [Call.StopVirtualMachine id,
            Call.UpdateVMAffinityGroup { id := id, affinitygroupids := ToArrayOfIDs groups }]) ∧
      (c.cs.VirtualMachine.StopVirtualMachine id = none →
        c.cs.AffinityGroup.UpdateVMAffinityGroup
            { id := id, affinitygroupids := ToArrayOfIDs groups } = none →
          r.err = c.cs.VirtualMachine.StartVirtualMachine id ∧
          r.calls = [Call.StopVirtualMachine id,
            Call.UpdateVMAffinityGroup { id := id, affinitygroupids := ToArrayOfIDs groups },
            Call.StartVirtualMachine id]) ∧
      (r.err = none ↔
        c.cs.VirtualMachine.StopVirtualMachine id = none ∧
        c.cs.AffinityGroup.UpdateVMAffinityGroup
          { id := id, affinitygroupids := ToArrayOfIDs groups } = none ∧
        c.cs.VirtualMachine.StartVirtualMachine id = none) ∧
      r.calls <+: [Call.StopVirtualMachine id,
        Call.UpdateVMAffinityGroup { id := id, affinitygroupids := ToArrayOfIDs groups },
        Call.StartVirtualMachine id] := by
  unfold StopAndModifyAffinityGroups
  rw [hid]
  dsimp only
  cases hstop : c.cs.VirtualMachine.StopVirtualMachine id with
  | some e1 =>
    refine ⟨_, rfl, ?_, ?_, ?_, ?_, ?_⟩
    · intro e he; cases he; exact ⟨rfl, rfl⟩
    · intro h; cases h
    · intro h; cases h
    · simp
    · exact ⟨[_, _], rfl⟩
  | none =>
    dsimp only
    cases hupd : c.cs.AffinityGroup.UpdateVMAffinityGroup
        { id := id, affinitygroupids := ToArrayOfIDs groups } with
    | some e2 =>
      refine ⟨_, rfl, ?_, ?_, ?_, ?_, ?_⟩
      · intro e he; cases he
      · intro _ e he; cases he; exact ⟨rfl, rfl⟩
      · intro _ h; cases h
      · simp
      · exact ⟨[_], rfl⟩
    | none =>
      refine ⟨_, rfl, ?_, ?_, ?_, ?_, ?_⟩
      · intro e he; cases he
      · intro _ e he; cases he
      · intro _ _; exact ⟨rfl, rfl⟩
      · simp
      · exact List.prefix_refl _

/-- Witness of C12: the stop succeeds and the update fails; the error of the update is
returned and no start is issued. -/
theorem StopAndModifyAffinityGroups_order_witness :
    fixtures.machine1.Spec.InstanceID = some "vm-1" ∧
    ∃ r : CallRet, StopAndModifyAffinityGroups
        (fixtures.withInstance [] none (some (GoError.plain "update failed")) none)
        fixtures.machine1 [fixtures.group1] = Run.ret r ∧
      r.err = some (GoError.plain "update failed") ∧
      r.calls = [Call.StopVirtualMachine "vm-1",
        Call.UpdateVMAffinityGroup { id := "vm-1", affinitygroupids := ["ag-1"] }] := by
  obtain ⟨r, hr, _, hupd, _⟩ := StopAndModifyAffinityGroups_order
    (fixtures.withInstance [] none (some (GoError.plain "update failed")) none)
    fixtures.machine1 [fixtures.group1] "vm-1" rfl
  exact ⟨rfl, r, hr, (hupd rfl _ rfl).1, (hupd rfl _ rfl).2⟩

end cloud

/-! ## Lemmas on Go maps -/

namespace GoMap

theorem mem_keys_set {β : Type} (m : List (String × β)) (k : String) (v : β) (k' : String) :
    k' ∈ (set m k v).map Prod.fst ↔ k' = k ∨ k' ∈ m.map Prod.fst := by
  induction m with
  | nil => simp [set]
  | cons p m ih =>
    obtain ⟨pk, pv⟩ := p
    unfold set
    by_cases h : pk = k
    · subst h
      simp only [if_true, List.map_cons, List.mem_cons]
      tauto
    · simp only [h, if_false, List.map_cons, List.mem_cons, ih]
      tauto

theorem nodup_keys_set {β : Type} (m : List (String × β)) (k : String) (v : β)
    (h : (m.map Prod.fst).Nodup) : ((set m k v).map Prod.fst).Nodup := by
  induction m with
  | nil => simp [set]
  | cons p m ih =>
    obtain ⟨pk, pv⟩ := p
    rw [List.map_cons, List.nodup_cons] at h
    unfold set
    by_cases hk : pk = k
    · subst hk
      simp only [if_true, List.map_cons, List.nodup_cons]
      exact h
    · simp only [hk, if_false, List.map_cons, List.nodup_cons]
      refine ⟨fun hh => ?_, ih h.2⟩
      rcases (mem_keys_set m k v pk).mp hh with hh | hh
      · exact hk hh
      · exact h.1 hh

theorem mem_set {β : Type} (m : List (String × β)) (k : String) (v : β) (k' : String) (v' : β)
    (h : (m.map Prod.fst).Nodup) :
    (k', v') ∈ set m k v ↔ (k' = k ∧ v' = v) ∨ (k' ≠ k ∧ (k', v') ∈ m) := by
  induction m with
  | nil => simp [set]
  | cons p m ih =>
    obtain ⟨pk, pv⟩ := p
    rw [List.map_cons, List.nodup_cons] at h
    unfold set
    by_cases hk : pk = k
    · subst hk
      simp only [if_true, List.mem_cons, Prod.mk.injEq]
      constructor
      · rintro (⟨h1, h2⟩ | hm)
        · exact Or.inl ⟨h1, h2⟩
        · by_cases hkk : k' = pk
          · subst hkk
            exact absurd (List.mem_map_of_mem Prod.fst hm) h.1
          · exact Or.inr ⟨hkk, Or.inr hm⟩
      · rintro (⟨h1, h2⟩ | ⟨h1, h2 | h2⟩)
        · exact Or.inl ⟨h1, h2⟩
        · exact absurd h2.1 h1
        · exact Or.inr h2
    · simp only [hk, if_false, List.mem_cons, Prod.mk.injEq, ih h.2]
      constructor
      · rintro (⟨h1, h2⟩ | h3 | h3)
        · subst h1; exact Or.inr ⟨hk, Or.inl ⟨rfl, h2⟩⟩
        · exact Or.inl h3
        · exact Or.inr ⟨h3.1, Or.inr h3.2⟩
      · rintro (h3 | ⟨h1, h2 | h2⟩)
        · exact Or.inr (Or.inl h3)
        · exact Or.inl h2
        · exact Or.inr (Or.inr ⟨h1, h2⟩)

theorem mem_values {β : Type} (m : List (String × β)) (v : β) :
    v ∈ values m ↔ ∃ k, (k, v) ∈ m := by
  unfold values
  rw [List.mem_map]
  constructor
  · rintro ⟨⟨k, w⟩, hm, rfl⟩; exact ⟨k, hm⟩
  · rintro ⟨k, hm⟩; exact ⟨(k, v), hm, rfl⟩

theorem mem_delete {β : Type} (m : List (String × β)) (k : String) (p : String × β) :
    p ∈ delete m k ↔ p ∈ m ∧ p.1 ≠ k := by
  unfold delete
  simp [List.mem_filter]

theorem nodup_keys_delete {β : Type} (m : List (String × β)) (k : String)
    (h : (m.map Prod.fst).Nodup) : ((delete m k).map Prod.fst).Nodup := by
  unfold delete
  exact (List.Sublist.map Prod.fst (List.filter_sublist m)).nodup h

end GoMap

namespace cloud

open infrav1

/-! ### AddGroup and RemoveGroup -/

theorem fillGroupSet_cons (m : List (String × AffinityGroup)) (g : AffinityGroup)
    (ags : AffinityGroups) :
    fillGroupSet m (g :: ags) = fillGroupSet (GoMap.set m g.Id g) ags := rfl

theorem fillGroupSet_append (m : List (String × AffinityGroup)) (a b : AffinityGroups) :
    fillGroupSet m (a ++ b) = fillGroupSet (fillGroupSet m a) b := by
  unfold fillGroupSet
  exact List.foldl_append _ _ _ _

theorem nodup_keys_fillGroupSet (m : List (String × AffinityGroup)) (ags : AffinityGroups)
    (h : (m.map Prod.fst).Nodup) : ((fillGroupSet m ags).map Prod.fst).Nodup := by
  induction ags generalizing m with
  | nil => exact h
  | cons g ags ih =>
    rw [fillGroupSet_cons]
    exact ih _ (GoMap.nodup_keys_set m g.Id g h)

theorem mem_keys_fillGroupSet (m : List (String × AffinityGroup)) (ags : AffinityGroups)
    (k : String) :
    k ∈ (fillGroupSet m ags).map Prod.fst ↔
      k ∈ m.map Prod.fst ∨ k ∈ ags.map (fun g => g.Id) := by
  induction ags generalizing m with
  | nil => simp [fillGroupSet]
  | cons g ags ih =>
    rw [fillGroupSet_cons, ih, GoMap.mem_keys_set, List.map_cons, List.mem_cons]
    tauto

theorem mem_fillGroupSet_of_not_mem (m : List (String × AffinityGroup)) (ags : AffinityGroups)
    (k : String) (v : AffinityGroup) (h : (m.map Prod.fst).Nodup)
    (hk : k ∉ ags.map (fun g => g.Id)) : (k, v) ∈ fillGroupSet m ags ↔ (k, v) ∈ m := by
  induction ags generalizing m with
  | nil => rfl
  | cons g ags ih =>
    rw [List.map_cons, List.mem_cons, not_or] at hk
    rw [fillGroupSet_cons, ih _ (GoMap.nodup_keys_set m g.Id g h) hk.2, GoMap.mem_set _ _ _ _ _ h]
    constructor
    · rintro (⟨h1, _⟩ | ⟨_, h2⟩)
      · exact absurd h1 hk.1
      · exact h2
    · intro h2; exact Or.inr ⟨hk.1, h2⟩

theorem mem_fillGroupSet_cases (m : List (String × AffinityGroup)) (ags : AffinityGroups)
    (k : String) (v : AffinityGroup) (h : (m.map Prod.fst).Nodup)
    (hv : (k, v) ∈ fillGroupSet m ags) :
    (v ∈ ags ∧ v.Id = k) ∨ ((k, v) ∈ m ∧ k ∉ ags.map (fun g => g.Id)) := by
  induction ags generalizing m with
  | nil => exact Or.inr ⟨hv, by simp⟩
  | cons g ags ih =>
    rw [fillGroupSet_cons] at hv
    rcases ih _ (GoMap.nodup_keys_set m g.Id g h) hv with ⟨h1, h2⟩ | ⟨h1, h2⟩
    · exact Or.inl ⟨List.mem_cons_of_mem _ h1, h2⟩
    · rcases (GoMap.mem_set _ _ _ _ _ h).mp h1 with ⟨h3, h4⟩ | ⟨h3, h4⟩
      · subst h4
        exact Or.inl ⟨List.mem_cons_self _ _, h3.symm⟩
      · refine Or.inr ⟨h4, ?_⟩
        rw [List.map_cons, List.mem_cons, not_or]
        exact ⟨h3, h2⟩

theorem mem_fillGroupSet_last (m : List (String × AffinityGroup)) (pre post : AffinityGroups)
    (old : AffinityGroup) (h : (m.map Prod.fst).Nodup) (hpost : ∀ x ∈ post, x.Id ≠ old.Id) :
    (old.Id, old) ∈ fillGroupSet m (pre ++ old :: post) := by
  rw [fillGroupSet_append, fillGroupSet_cons]
  have hn := nodup_keys_fillGroupSet m pre h
  rw [mem_fillGroupSet_of_not_mem _ _ _ _ (GoMap.nodup_keys_set _ old.Id old hn)]
  · exact (GoMap.mem_set _ _ _ _ _ hn).mpr (Or.inl ⟨rfl, rfl⟩)
  · intro hmem
    rw [List.mem_map] at hmem
    obtain ⟨x, hx, hxid⟩ := hmem
    exact hpost x hx hxid

/-- Every element of a list is, or is followed by, a last element with its ID. -/
theorem exists_last_with_Id (ags : AffinityGroups) (v : AffinityGroup) (hv : v ∈ ags) :
    ∃ pre old post, ags = pre ++ old :: post ∧ old.Id = v.Id ∧ ∀ x ∈ post, x.Id ≠ old.Id := by
  induction ags generalizing v with
  | nil => simp at hv
  | cons g ags ih =>
    by_cases hex : ∃ w ∈ ags, w.Id = v.Id
    · obtain ⟨w, hw, hwid⟩ := hex
      obtain ⟨pre, old, post, heq, hid, hpost⟩ := ih w hw
      exact ⟨g :: pre, old, post, by rw [heq]; rfl, hid.trans hwid, hpost⟩
    · have hvg : v = g := by
        rcases List.mem_cons.mp hv with h | h
        · exact h
        · exact absurd ⟨v, h, rfl⟩ hex
      subst hvg
      refine ⟨[], v, ags, rfl, rfl, ?_⟩
      intro x hx hxid
      exact hex ⟨x, hx, hxid⟩

theorem wf_fillGroupSet (m : List (String × AffinityGroup)) (ags : AffinityGroups)
    (h : (m.map Prod.fst).Nodup) (hwf : ∀ p ∈ m, p.2.Id = p.1) :
    ∀ p ∈ fillGroupSet m ags, p.2.Id = p.1 := by
  rintro ⟨k, v⟩ hp
  rcases mem_fillGroupSet_cases m ags k v h hp with ⟨_, h2⟩ | ⟨h1, _⟩
  · exact h2
  · exact hwf _ h1

theorem map_Id_values (m : List (String × AffinityGroup)) (hwf : ∀ p ∈ m, p.2.Id = p.1) :
    (GoMap.values m).map (fun g => g.Id) = m.map Prod.fst := by
  unfold GoMap.values
  rw [List.map_map]
  exact List.map_congr_left fun p hp => hwf p hp

theorem mem_values_wf (m : List (String × AffinityGroup)) (hwf : ∀ p ∈ m, p.2.Id = p.1)
    (v : AffinityGroup) : v ∈ GoMap.values m ↔ (v.Id, v) ∈ m := by
  rw [GoMap.mem_values]
  constructor
  · rintro ⟨k, hk⟩
    have := hwf _ hk
    dsimp only at this
    rw [this]; exact hk
  · intro h; exact ⟨_, h⟩

theorem nodup_singleton_keys (g : AffinityGroup) :
    (([(g.Id, g)] : List (String × AffinityGroup)).map Prod.fst).Nodup := by simp

theorem wf_singleton (g : AffinityGroup) :
    ∀ p ∈ ([(g.Id, g)] : List (String × AffinityGroup)), p.2.Id = p.1 := by
  intro p hp
  rw [List.mem_singleton] at hp
  rw [hp]

theorem mem_AddGroup (o : MapRange) (ags : AffinityGroups) (g v : AffinityGroup) :
    v ∈ AddGroup o ags g ↔ (v.Id, v) ∈ fillGroupSet [(g.Id, g)] ags := by
  unfold AddGroup
  rw [(o.perm _).mem_iff]
  exact mem_values_wf _ (wf_fillGroupSet _ _ (nodup_singleton_keys g) (wf_singleton g)) v

theorem nodup_IDs_AddGroup (o : MapRange) (ags : AffinityGroups) (g : AffinityGroup) :
    ((AddGroup o ags g).map (fun x => x.Id)).Nodup := by
  unfold AddGroup
  rw [((o.perm _).map _).nodup_iff,
    map_Id_values _ (wf_fillGroupSet _ _ (nodup_singleton_keys g) (wf_singleton g))]
  exact nodup_keys_fillGroupSet _ _ (nodup_singleton_keys g)

theorem mem_IDs_AddGroup (o : MapRange) (ags : AffinityGroups) (g : AffinityGroup) (x : String) :
    x ∈ (AddGroup o ags g).map (fun v => v.Id) ↔ x ∈ ags.map (fun v => v.Id) ∨ x = g.Id := by
  unfold AddGroup
  rw [((o.perm _).map _).mem_iff,
    map_Id_values _ (wf_fillGroupSet _ _ (nodup_singleton_keys g) (wf_singleton g)),
    mem_keys_fillGroupSet]
  simp only [List.map_cons, List.map_nil, List.mem_singleton]
  tauto

theorem wf_delete_fill (ags : AffinityGroups) (k : String) :
    ∀ p ∈ GoMap.delete (fillGroupSet [] ags) k, p.2.Id = p.1 := by
  intro p hp
  exact wf_fillGroupSet [] ags (by simp) (by simp) p ((GoMap.mem_delete _ _ _).mp hp).1

theorem mem_RemoveGroup (o : MapRange) (ags : AffinityGroups) (g v : AffinityGroup) :
    v ∈ RemoveGroup o ags g ↔ (v.Id, v) ∈ fillGroupSet [] ags ∧ v.Id ≠ g.Id := by
  unfold RemoveGroup
  rw [(o.perm _).mem_iff, mem_values_wf _ (wf_delete_fill ags g.Id), GoMap.mem_delete]

theorem nodup_IDs_RemoveGroup (o : MapRange) (ags : AffinityGroups) (g : AffinityGroup) :
    ((RemoveGroup o ags g).map (fun x => x.Id)).Nodup := by
  unfold RemoveGroup
  rw [((o.perm _).map _).nodup_iff, map_Id_values _ (wf_delete_fill ags g.Id)]
  exact GoMap.nodup_keys_delete _ _ (nodup_keys_fillGroupSet _ _ (by simp))

theorem mem_fillGroupSet_of_mem_nodup (m : List (String × AffinityGroup))
    (ags : AffinityGroups) (v : AffinityGroup) (h : (m.map Prod.fst).Nodup)
    (hn : (ags.map (fun x => x.Id)).Nodup) (hv : v ∈ ags) :
    (v.Id, v) ∈ fillGroupSet m ags := by
  obtain ⟨pre, old, post, heq, hid, hpost⟩ := exists_last_with_Id ags v hv
  have hold : old ∈ ags := by rw [heq]; simp
  have hvo : old = v := List.inj_on_of_nodup_map hn hold hv hid
  subst hvo
  rw [heq]
  exact mem_fillGroupSet_last m pre post old h hpost

theorem mem_IDs_RemoveGroup (o : MapRange) (ags : AffinityGroups) (g : AffinityGroup)
    (x : String) :
    x ∈ (RemoveGroup o ags g).map (fun v => v.Id) ↔
      x ∈ ags.map (fun v => v.Id) ∧ x ≠ g.Id := by
  constructor
  · intro hx
    rw [List.mem_map] at hx
    obtain ⟨v, hv, rfl⟩ := hx
    obtain ⟨h1, h2⟩ := (mem_RemoveGroup o ags g v).mp hv
    refine ⟨?_, h2⟩
    rcases mem_fillGroupSet_cases [] ags v.Id v (by simp) h1 with ⟨h3, _⟩ | ⟨h3, _⟩
    · exact List.mem_map_of_mem _ h3
    · simp at h3
  · rintro ⟨hx, hne⟩
    rw [List.mem_map] at hx
    obtain ⟨v, hv, rfl⟩ := hx
    obtain ⟨pre, old, post, heq, hid, hpost⟩ := exists_last_with_Id ags v hv
    have hmem := mem_fillGroupSet_last [] pre post old (by simp) hpost
    rw [← heq] at hmem
    rw [List.mem_map]
    exact ⟨old, (mem_RemoveGroup o ags g old).mpr ⟨hmem, by rw [hid]; exact hne⟩, hid⟩

/-! ### AssociateAffinityGroup and DissassociateAffinityGroup -/

theorem GetCurrentAffinityGroups_instance (c : client) (csMachine : CloudStackMachine)
    (x : Except GoError AffinityGroups)
    (h : GetCurrentAffinityGroups c csMachine = Run.ret x) :
    ∃ id, csMachine.Spec.InstanceID = some id := by
  unfold GetCurrentAffinityGroups at h
  cases hid : csMachine.Spec.InstanceID with
  | none => rw [hid] at h; simp at h
  | some id => exact ⟨id, rfl⟩

/-- The update request of `modifyAfterLookup` carries the IDs of the groups it is given, and
is issued once the stop has succeeded. -/
theorem modifyAfterLookup_update (c : client) (csMachine : CloudStackMachine)
    (groups : AffinityGroups) (id : String) (hid : csMachine.Spec.InstanceID = some id) :
    ∃ r : CallRet, modifyAfterLookup c csMachine groups = Run.ret r ∧
      (∀ p, Call.UpdateVMAffinityGroup p ∈ r.calls →
        p = { id := id, affinitygroupids := ToArrayOfIDs groups }) ∧
      (c.cs.VirtualMachine.StopVirtualMachine id = none →
        Call.UpdateVMAffinityGroup { id := id, affinitygroupids := ToArrayOfIDs groups } ∈
          r.calls) := by
  unfold modifyAfterLookup StopAndModifyAffinityGroups getCurrentCalls
  rw [hid]
  dsimp only
  cases hstop : c.cs.VirtualMachine.StopVirtualMachine id with
  | some e1 =>
    refine ⟨_, rfl, ?_, ?_⟩
    · intro p hp; simp at hp
    · intro h; cases h
  | none =>
    dsimp only
    cases hupd : c.cs.AffinityGroup.UpdateVMAffinityGroup
        { id := id, affinitygroupids := ToArrayOfIDs groups } with
    | some e2 =>
      refine ⟨_, rfl, ?_, ?_⟩
      · intro p hp
        simp only [List.singleton_append, List.mem_cons, Call.UpdateVMAffinityGroup.injEq,
          List.mem_singleton, reduceCtorEq, false_or, List.mem_nil_iff, or_false] at hp
        exact hp
      · intro _; simp
    | none =>
      refine ⟨_, rfl, ?_, ?_⟩
      · intro p hp
        simp only [List.singleton_append, List.mem_cons, Call.UpdateVMAffinityGroup.injEq,
          List.mem_singleton, reduceCtorEq, false_or, List.mem_nil_iff, or_false] at hp
        exact hp
      · intro _; simp

/-- C13. When the current groups of the instance are read as `current`, both operations
return, and for every order in which the map is ranged over: every update request
`AssociateAffinityGroup` issues is for the instance and carries a list of IDs without
repetition whose members are exactly the IDs of `current` and the ID of `g`; every update
request `DissassociateAffinityGroup` issues carries a list of IDs without repetition whose
members are exactly the IDs of `current` other than the ID of `g`; and either request is
issued once the stop has succeeded. When reading the current groups fails, both operations
return that error and issue no stop, update or start. -/
theorem AssociateAffinityGroup_ids (o : MapRange) (c : client) (csMachine : CloudStackMachine)
    (g : AffinityGroup) :
    (∀ current : AffinityGroups,
      GetCurrentAffinityGroups c csMachine = Run.ret (Except.ok current) →
      ∃ id, csMachine.Spec.InstanceID = some id ∧
        (∃ (r : CallRet) (ids : List String),
          AssociateAffinityGroup o c csMachine g = Run.ret r ∧ ids.Nodup ∧
          (∀ x, x ∈ ids ↔ x ∈ ToArrayOfIDs current ∨ x = g.Id) ∧
          (∀ p, Call.UpdateVMAffinityGroup p ∈ r.calls →
            p = { id := id, affinitygroupids := ids }) ∧
          (c.cs.VirtualMachine.StopVirtualMachine id = none →
            Call.UpdateVMAffinityGroup { id := id, affinitygroupids := ids } ∈ r.calls)) ∧
        (∃ (r : CallRet) (ids : List String),
          DissassociateAffinityGroup o c csMachine g = Run.ret r ∧ ids.Nodup ∧
          (∀ x, x ∈ ids ↔ x ∈ ToArrayOfIDs current ∧ x ≠ g.Id) ∧
          (∀ p, Call.UpdateVMAffinityGroup p ∈ r.calls →
            p = { id := id, affinitygroupids := ids }) ∧
          (c.cs.VirtualMachine.StopVirtualMachine id = none →
            Call.UpdateVMAffinityGroup { id := id, affinitygroupids := ids } ∈ r.calls))) ∧
    (∀ e : GoError, GetCurrentAffinityGroups c csMachine = Run.ret (Except.error e) →
      ∃ r : CallRet, AssociateAffinityGroup o c csMachine g = Run.ret r ∧
        DissassociateAffinityGroup o c csMachine g = Run.ret r ∧
        r.err = some e ∧ r.calls.any Call.isStopUpdateStart = false) := by
  constructor
  · intro current hcur
    obtain ⟨id, hid⟩ := GetCurrentAffinityGroups_instance c csMachine _ hcur
    refine ⟨id, hid, ?_, ?_⟩
    · obtain ⟨r, hr, hall, hsent⟩ :=
        modifyAfterLookup_update c csMachine (AddGroup o current g) id hid
      refine ⟨r, ToArrayOfIDs (AddGroup o current g), ?_, ?_, ?_, hall, hsent⟩
      · unfold AssociateAffinityGroup
        rw [hcur]
        exact hr
      · exact nodup_IDs_AddGroup o current g
      · intro x
        exact mem_IDs_AddGroup o current g x
    · obtain ⟨r, hr, hall, hsent⟩ :=
        modifyAfterLookup_update c csMachine (RemoveGroup o current g) id hid
      refine ⟨r, ToArrayOfIDs (RemoveGroup o current g), ?_, ?_, ?_, hall, hsent⟩
      · unfold DissassociateAffinityGroup
        rw [hcur]
        exact hr
      · exact nodup_IDs_RemoveGroup o current g
      · intro x
        exact mem_IDs_RemoveGroup o current g x
  · intro e herr
    obtain ⟨id, hid⟩ := GetCurrentAffinityGroups_instance c csMachine _ herr
    refine ⟨{ err := some e, calls := getCurrentCalls csMachine }, ?_, ?_, rfl, ?_⟩
    · unfold AssociateAffinityGroup
      rw [herr]
    · unfold DissassociateAffinityGroup
      rw [herr]
    · unfold getCurrentCalls
      rw [hid]
      rfl

/-- Witness of C13: the instance is in the group `ag-1`; associating `ag-2` sends both IDs,
each once. -/
theorem AssociateAffinityGroup_ids_witness :
    GetCurrentAffinityGroups
      (fixtures.withInstance [{ Id := "ag-1", Name := "one", Type_ := "host affinity" }]
        none none none) fixtures.machine1 = Run.ret (Except.ok [fixtures.group1]) ∧
    ∃ (r : CallRet) (ids : List String),
      AssociateAffinityGroup fixtures.insertionOrder
        (fixtures.withInstance [{ Id := "ag-1", Name := "one", Type_ := "host affinity" }]
          none none none) fixtures.machine1 fixtures.group2 = Run.ret r ∧
      ids.Nodup ∧ (∀ x, x ∈ ids ↔ x ∈ ToArrayOfIDs [fixtures.group1] ∨ x = "ag-2") ∧
      Call.UpdateVMAffinityGroup { id := "vm-1", affinitygroupids := ids } ∈ r.calls := by
  obtain ⟨id, hid, ⟨r, ids, hr, hn, hmem, _, hsent⟩, _⟩ :=
    (AssociateAffinityGroup_ids fixtures.insertionOrder
      (fixtures.withInstance [{ Id := "ag-1", Name := "one", Type_ := "host affinity" }]
        none none none) fixtures.machine1 fixtures.group2).1 [fixtures.group1] rfl
  have hid1 : id = "vm-1" := (Option.some.inj hid).symm
  subst hid1
  exact ⟨rfl, r, ids, hr, hn, hmem, hsent rfl⟩

/-- C14. For every initial list, repeated IDs allowed, every non-empty sequence of calls of
`AddGroup` and `RemoveGroup`, and every order in which the maps are ranged over, the resulting
list has pairwise distinct group IDs. -/
theorem applyOps_nodup_IDs (ags : AffinityGroups) (ops : List GroupOp) (hops : ops ≠ []) :
    ((applyOps ags ops).map (fun g => g.Id)).Nodup := by
  obtain ⟨init, last, rfl⟩ : ∃ init last, ops = init ++ [last] := by
    rcases List.eq_nil_or_concat ops with h | ⟨init, last, h⟩
    · exact absurd h hops
    · exact ⟨init, last, by rw [h]; simp⟩
  unfold applyOps
  rw [List.foldl_append]
  cases last with
  | add o g => exact nodup_IDs_AddGroup o _ g
  | remove o g => exact nodup_IDs_RemoveGroup o _ g

/-- Witness of C14: a list with the ID `ag-1` twice; after one `RemoveGroup` of another ID
the IDs are distinct. -/
theorem applyOps_nodup_IDs_witness :
    [GroupOp.remove fixtures.insertionOrder fixtures.group2] ≠ [] ∧
    ((applyOps [fixtures.group1, fixtures.group1b]
      [GroupOp.remove fixtures.insertionOrder fixtures.group2]).map (fun g => g.Id)).Nodup :=
  ⟨by simp, applyOps_nodup_IDs [fixtures.group1, fixtures.group1b]
    [GroupOp.remove fixtures.insertionOrder fixtures.group2] (by simp)⟩

/-- C15. For every list, every group `g` and every order in which the maps are ranged over,
`AddGroup g` followed by `AddGroup g` yields the same groups as a single `AddGroup g`, each
once (the two lists are permutations of one another); and starting from the empty list,
adding `g` twice yields the list of `g` alone. -/
theorem AddGroup_twice (o1 o2 o3 : MapRange) (ags : AffinityGroups) (g : AffinityGroup) :
    (AddGroup o2 (AddGroup o1 ags g) g).Perm (AddGroup o3 ags g) ∧
    AddGroup o2 (AddGroup o1 [] g) g = [g] := by
  constructor
  · have hn1 := nodup_IDs_AddGroup o1 ags g
    rw [List.perm_ext_iff_of_nodup (nodup_IDs_AddGroup o2 _ g).of_map
      (nodup_IDs_AddGroup o3 ags g).of_map]
    intro v
    rw [mem_AddGroup o2 (AddGroup o1 ags g) g v, mem_AddGroup o3 ags g v,
      ← mem_AddGroup o1 ags g v]
    constructor
    · intro hv
      rcases mem_fillGroupSet_cases _ _ _ _ (nodup_singleton_keys g) hv with ⟨h1, _⟩ | ⟨h1, h2⟩
      · exact h1
      · exfalso
        rw [List.mem_singleton, Prod.mk.injEq] at h1
        apply h2
        rw [mem_IDs_AddGroup]
        exact Or.inr h1.1
    · intro hv
      exact mem_fillGroupSet_of_mem_nodup _ _ v (nodup_singleton_keys g) hn1 hv
  · have h1 : AddGroup o1 [] g = [g] := by
      unfold AddGroup
      exact List.perm_singleton.mp (o1.perm _)
    rw [h1]
    unfold AddGroup
    have h2 : GoMap.values (fillGroupSet [(g.Id, g)] [g]) = [g] := by
      simp [fillGroupSet, GoMap.set, GoMap.values]
    dsimp only
    rw [h2]
    exact List.perm_singleton.mp (o2.perm _)

/-- Counterexample to C16 as stated: the list holds two groups with the ID `ag-1`; after
`RemoveGroup` of a group with the ID `ag-2` the first of them, whose ID differs from `ag-2`,
is no longer present. -/
theorem RemoveGroup_counterexample :
    fixtures.group1 ∈ [fixtures.group1, fixtures.group1b] ∧
    fixtures.group1.Id ≠ fixtures.group2.Id ∧
    RemoveGroup fixtures.insertionOrder [fixtures.group1, fixtures.group1b] fixtures.group2 =
      [fixtures.group1b] ∧
    fixtures.group1 ∉
      RemoveGroup fixtures.insertionOrder [fixtures.group1, fixtures.group1b] fixtures.group2 := by
  decide

/-- C16, amended. For every list with pairwise distinct IDs and every group whose ID does not
occur in it, `RemoveGroup` leaves the contents unchanged: the result is a permutation of the
list, of the same length. For every list and group `g`, after `RemoveGroup g` no element has
the ID of `g`, while of the elements with a different ID the last one of each ID is still
present; so every element with a different ID is still present when the IDs of the list are
pairwise distinct. -/
theorem RemoveGroup_contents (o : MapRange) (ags : AffinityGroups) (g : AffinityGroup) :
    ((ags.map (fun x => x.Id)).Nodup → g.Id ∉ ags.map (fun x => x.Id) →
      (RemoveGroup o ags g).Perm ags ∧ (RemoveGroup o ags g).length = ags.length) ∧
    (∀ x ∈ RemoveGroup o ags g, x.Id ≠ g.Id) ∧
    (∀ (pre post : AffinityGroups) (old : AffinityGroup), ags = pre ++ old :: post →
      (∀ x ∈ post, x.Id ≠ old.Id) → old.Id ≠ g.Id → old ∈ RemoveGroup o ags g) ∧
    ((ags.map (fun x => x.Id)).Nodup → ∀ x ∈ ags, x.Id ≠ g.Id → x ∈ RemoveGroup o ags g) := by
  refine ⟨?_, ?_, ?_, ?_⟩
  · intro hn hg
    have hperm : (RemoveGroup o ags g).Perm ags := by
      rw [List.perm_ext_iff_of_nodup (nodup_IDs_RemoveGroup o ags g).of_map hn.of_map]
      intro v
      rw [mem_RemoveGroup]
      constructor
      · rintro ⟨h1, _⟩
        rcases mem_fillGroupSet_cases [] ags v.Id v (by simp) h1 with ⟨h3, _⟩ | ⟨h3, _⟩
        · exact h3
        · simp at h3
      · intro hv
        refine ⟨mem_fillGroupSet_of_mem_nodup [] ags v (by simp) hn hv, ?_⟩
        intro hid
        exact hg (by rw [← hid]; exact List.mem_map_of_mem _ hv)
    exact ⟨hperm, hperm.length_eq⟩
  · intro x hx
    exact ((mem_RemoveGroup o ags g x).mp hx).2
  · intro pre post old heq hpost hne
    rw [mem_RemoveGroup]
    refine ⟨?_, hne⟩
    rw [heq]
    exact mem_fillGroupSet_last [] pre post old (by simp) hpost
  · intro hn x hx hne
    rw [mem_RemoveGroup]
    exact ⟨mem_fillGroupSet_of_mem_nodup [] ags x (by simp) hn hx, hne⟩

/-- Witness of the amended C16: two groups with distinct IDs, and the removal of an ID that
does not occur. -/
theorem RemoveGroup_contents_witness :
    (RemoveGroup fixtures.reverseOrder [fixtures.group1, fixtures.group2]
      { Type_ := "host affinity", Name := "three", Id := "ag-3" }).Perm
      [fixtures.group1, fixtures.group2] :=
  ((RemoveGroup_contents fixtures.reverseOrder [fixtures.group1, fixtures.group2]
    { Type_ := "host affinity", Name := "three", Id := "ag-3" }).1
    (by decide) (by decide)).1

/-- Counterexample to C17 as stated: the list holds `group1` under the ID `ag-1`; after
`AddGroup` of `group1b`, which has the same ID and another name and type, the entry with that
ID is still `group1`, and `group1b` is not in the list. -/
theorem AddGroup_existing_Id_counterexample :
    fixtures.group1b.Id = fixtures.group1.Id ∧
    AddGroup fixtures.insertionOrder [fixtures.group1] fixtures.group1b = [fixtures.group1] ∧
    fixtures.group1b ∉ AddGroup fixtures.insertionOrder [fixtures.group1] fixtures.group1b := by
  decide

/-- C17, amended. For every list that already holds a group with the ID of `g`, let `old` be
the last such group of the list. After `AddGroup g` the unique entry with that ID is `old`:
the entry stored under the ID is kept, and the name and type of `g` are not written (so `g` is
in the result only if it equals `old`). -/
theorem AddGroup_existing_Id (o : MapRange) (pre post : AffinityGroups)
    (old g : AffinityGroup) (hid : old.Id = g.Id) (hpost : ∀ x ∈ post, x.Id ≠ old.Id) :
    old ∈ AddGroup o (pre ++ old :: post) g ∧
    (∀ x ∈ AddGroup o (pre ++ old :: post) g, x.Id = g.Id → x = old) ∧
    (g ∈ AddGroup o (pre ++ old :: post) g ↔ g = old) := by
  have hold : old ∈ AddGroup o (pre ++ old :: post) g := by
    rw [mem_AddGroup]
    exact mem_fillGroupSet_last _ pre post old (nodup_singleton_keys g) hpost
  have huniq : ∀ x ∈ AddGroup o (pre ++ old :: post) g, x.Id = g.Id → x = old := by
    intro x hx hxid
    exact List.inj_on_of_nodup_map (nodup_IDs_AddGroup o _ g) hx hold (hxid.trans hid.symm)
  refine ⟨hold, huniq, ?_⟩
  constructor
  · intro hg; exact huniq g hg rfl
  · intro hg; subst hg; exact hold

/-- Witness of the amended C17: `group1` stays under its ID when `group1b` is added. -/
theorem AddGroup_existing_Id_witness :
    fixtures.group1.Id = fixtures.group1b.Id ∧
    fixtures.group1 ∈
      AddGroup fixtures.reverseOrder ([fixtures.group2] ++ fixtures.group1 :: [])
        fixtures.group1b :=
  ⟨rfl, (AddGroup_existing_Id fixtures.reverseOrder [fixtures.group2] [] fixtures.group1
    fixtures.group1b rfl (by simp)).1⟩

/-! ### FetchAffinityGroup and GetOrCreateAffinityGroup -/

/-- A failed `FetchAffinityGroup` leaves the group record as it was. -/
theorem FetchAffinityGroup_err_group (c : client) (group : AffinityGroup)
    (h : (FetchAffinityGroup c group).err ≠ none) : (FetchAffinityGroup c group).group = group := by
  revert h
  unfold FetchAffinityGroup
  dsimp only
  split
  · split
    · intro _; rfl
    · split
      · intro _; rfl
      · intro h; exact absurd rfl h
  · split
    · split
      · intro _; rfl
      · split
        · intro _; rfl
        · intro h; exact absurd rfl h
    · intro _; rfl

/-- The requests of `FetchAffinityGroup` are lookups. -/
theorem FetchAffinityGroup_filter_create (c : client) (group : AffinityGroup) :
    (FetchAffinityGroup c group).calls.filter Call.isCreateAffinityGroup = [] := by
  unfold FetchAffinityGroup
  dsimp only
  split
  · split
    · rfl
    · split <;> rfl
  · split
    · split
      · rfl
      · split <;> rfl
    · rfl

/-- What `GetOrCreateAffinityGroup` does after a failed fetch. -/
theorem GetOrCreateAffinityGroup_of_fetch_err (c : client) (csCluster : CloudStackCluster)
    (group : AffinityGroup) (e : GoError) (hfetch : (FetchAffinityGroup c group).err = some e) :
    (GetOrCreateAffinityGroup c csCluster group).calls.filter Call.isCreateAffinityGroup =
      [Call.CreateAffinityGroup
        { name := group.Name, type_ := group.Type_
          account := setIfNotEmpty csCluster.Spec.Account
          domainid := setIfNotEmpty csCluster.Status.DomainID }] ∧
    (∀ resp, c.cs.AffinityGroup.CreateAffinityGroup
        { name := group.Name, type_ := group.Type_
          account := setIfNotEmpty csCluster.Spec.Account
          domainid := setIfNotEmpty csCluster.Status.DomainID } = Except.ok resp →
      (GetOrCreateAffinityGroup c csCluster group).err = none ∧
      (GetOrCreateAffinityGroup c csCluster group).group = { group with Id := resp.Id }) ∧
    (∀ e2, c.cs.AffinityGroup.CreateAffinityGroup
        { name := group.Name, type_ := group.Type_
          account := setIfNotEmpty csCluster.Spec.Account
          domainid := setIfNotEmpty csCluster.Status.DomainID } = Except.error e2 →
      (GetOrCreateAffinityGroup c csCluster group).err = some e2 ∧
      (GetOrCreateAffinityGroup c csCluster group).group = group) := by
  have hg := FetchAffinityGroup_err_group c group (by rw [hfetch]; simp)
  have hf := FetchAffinityGroup_filter_create c group
  unfold GetOrCreateAffinityGroup
  simp only [hfetch, hg]
  cases hcreate : c.cs.AffinityGroup.CreateAffinityGroup
      { name := group.Name, type_ := group.Type_
        account := setIfNotEmpty csCluster.Spec.Account
        domainid := setIfNotEmpty csCluster.Status.DomainID } with
  | error e2 =>
    refine ⟨?_, ?_, ?_⟩
    · simp [List.filter_append, hf, Call.isCreateAffinityGroup]
    · intro resp h; cases h
    · intro e3 h; cases h; exact ⟨rfl, rfl⟩
  | ok resp =>
    refine ⟨?_, ?_, ?_⟩
    · simp [List.filter_append, hf, Call.isCreateAffinityGroup]
    · intro resp2 h; cases h; exact ⟨rfl, rfl⟩
    · intro e3 h; cases h

theorem FetchAffinityGroup_byID_error (c : client) (group : AffinityGroup) (e : GoError)
    (hid : group.Id ≠ "")
    (hres : (c.cs.AffinityGroup.GetAffinityGroupByID group.Id).result = Except.error e) :
    FetchAffinityGroup c group =
      { err := some e, group := group, calls := [Call.GetAffinityGroupByID group.Id] } := by
  unfold FetchAffinityGroup
  simp only [hid, ne_eq, not_false_eq_true, if_true, hres]

theorem FetchAffinityGroup_byID_many (c : client) (group : AffinityGroup)
    (ag : cloudstack.AffinityGroup) (hid : group.Id ≠ "")
    (hres : (c.cs.AffinityGroup.GetAffinityGroupByID group.Id).result = Except.ok ag)
    (hc : (c.cs.AffinityGroup.GetAffinityGroupByID group.Id).count > 1) :
    FetchAffinityGroup c group =
      { err := some (errors.New "Count bad"), group := group
        calls := [Call.GetAffinityGroupByID group.Id] } := by
  unfold FetchAffinityGroup
  simp only [hid, ne_eq, not_false_eq_true, if_true, hres, hc]

theorem FetchAffinityGroup_byName_error (c : client) (group : AffinityGroup) (e : GoError)
    (hid : group.Id = "") (hname : group.Name ≠ "")
    (hres : (c.cs.AffinityGroup.GetAffinityGroupByName group.Name).result = Except.error e) :
    FetchAffinityGroup c group =
      { err := some e, group := group, calls := [Call.GetAffinityGroupByName group.Name] } := by
  unfold FetchAffinityGroup
  simp only [hid, hname, ne_eq, not_true_eq_false, not_false_eq_true, if_true, if_false, hres]

theorem FetchAffinityGroup_byName_many (c : client) (group : AffinityGroup)
    (ag : cloudstack.AffinityGroup) (hid : group.Id = "") (hname : group.Name ≠ "")
    (hres : (c.cs.AffinityGroup.GetAffinityGroupByName group.Name).result = Except.ok ag)
    (hc : (c.cs.AffinityGroup.GetAffinityGroupByName group.Name).count > 1) :
    FetchAffinityGroup c group =
      { err := some (errors.New "Count bad"), group := group
        calls := [Call.GetAffinityGroupByName group.Name] } := by
  unfold FetchAffinityGroup
  simp only [hid, hname, ne_eq, not_true_eq_false, not_false_eq_true, if_true, if_false, hres,
    hc]

/-- The guard on the count in `FetchAffinityGroup` is `count > 1`: were a lookup to report a
count of zero without an error, which the lookups of the provider library do not, the record
would be overwritten and nil returned. -/
theorem FetchAffinityGroup_count_zero_without_error :
    (FetchAffinityGroup (fixtures.withGroupLookup
      { count := 0
        result := Except.ok { Id := "ag-1", Name := "other", Type_ := "host anti-affinity" } })
      fixtures.group1).err = none ∧
    (FetchAffinityGroup (fixtures.withGroupLookup
      { count := 0
        result := Except.ok { Id := "ag-1", Name := "other", Type_ := "host anti-affinity" } })
      fixtures.group1).group =
      { Type_ := "host anti-affinity", Name := "other", Id := "ag-1" } := by
  decide

/-- C19. When `FetchAffinityGroup` fails, as it does for a group that is not found,
`GetOrCreateAffinityGroup` issues exactly one request to create a group, carrying the name and
type of the group record and the account and domain ID of the cluster when these are
non-empty; if that request succeeds it returns nil and the group record has the returned ID,
nothing else changed; if it fails it returns that error and the group record is unchanged.
When `FetchAffinityGroup` succeeds, `GetOrCreateAffinityGroup` issues no request to create a
group and returns nil with the fetched record. -/
theorem GetOrCreateAffinityGroup_create (c : client) (csCluster : CloudStackCluster)
    (group : AffinityGroup) :
    (∀ e, (FetchAffinityGroup c group).err = some e →
      (GetOrCreateAffinityGroup c csCluster group).calls.filter Call.isCreateAffinityGroup =
        [Call.CreateAffinityGroup
          { name := group.Name, type_ := group.Type_
            account := setIfNotEmpty csCluster.Spec.Account
            domainid := setIfNotEmpty csCluster.Status.DomainID }] ∧
      (∀ resp, c.cs.AffinityGroup.CreateAffinityGroup
          { name := group.Name, type_ := group.Type_
            account := setIfNotEmpty csCluster.Spec.Account
            domainid := setIfNotEmpty csCluster.Status.DomainID } = Except.ok resp →
        (GetOrCreateAffinityGroup c csCluster group).err = none ∧
        (GetOrCreateAffinityGroup c csCluster group).group = { group with Id := resp.Id }) ∧
      (∀ e2, c.cs.AffinityGroup.CreateAffinityGroup
          { name := group.Name, type_ := group.Type_
            account := setIfNotEmpty csCluster.Spec.Account
            domainid := setIfNotEmpty csCluster.Status.DomainID } = Except.error e2 →
        (GetOrCreateAffinityGroup c csCluster group).err = some e2 ∧
        (GetOrCreateAffinityGroup c csCluster group).group = group)) ∧
    ((FetchAffinityGroup c group).err = none →
      (GetOrCreateAffinityGroup c csCluster group).calls.filter Call.isCreateAffinityGroup = [] ∧
      (GetOrCreateAffinityGroup c csCluster group).err = none ∧
      (GetOrCreateAffinityGroup c csCluster group).group = (FetchAffinityGroup c group).group) := by
  constructor
  · intro e hfetch
    exact GetOrCreateAffinityGroup_of_fetch_err c csCluster group e hfetch
  · intro hfetch
    have hf := FetchAffinityGroup_filter_create c group
    have hG : GetOrCreateAffinityGroup c csCluster group =
        { err := none, group := (FetchAffinityGroup c group).group
          calls := (FetchAffinityGroup c group).calls } := by
      unfold GetOrCreateAffinityGroup
      simp only [hfetch]
    rw [hG]
    exact ⟨hf, rfl, rfl⟩

/-- Witness of C19: the group `two` has no ID and is not found by name; it is created and
receives the ID `created-two`. -/
theorem GetOrCreateAffinityGroup_create_witness :
    (FetchAffinityGroup (fixtures.clientWithTags [])
      { Type_ := "host anti-affinity", Name := "two", Id := "" }).err =
      some (GoError.plain "No match found for two") ∧
    (GetOrCreateAffinityGroup (fixtures.clientWithTags []) fixtures.cluster0
      { Type_ := "host anti-affinity", Name := "two", Id := "" }).calls.filter
      Call.isCreateAffinityGroup =
      [Call.CreateAffinityGroup
        { name := "two", type_ := "host anti-affinity", account := none, domainid := none }] ∧
    (GetOrCreateAffinityGroup (fixtures.clientWithTags []) fixtures.cluster0
      { Type_ := "host anti-affinity", Name := "two", Id := "" }).group =
      { Type_ := "host anti-affinity", Name := "two", Id := "created-two" } :=
  ⟨by decide,
    ((GetOrCreateAffinityGroup_create (fixtures.clientWithTags []) fixtures.cluster0
      { Type_ := "host anti-affinity", Name := "two", Id := "" }).1
      (GoError.plain "No match found for two") (by decide)).1,
    (((GetOrCreateAffinityGroup_create (fixtures.clientWithTags []) fixtures.cluster0
      { Type_ := "host anti-affinity", Name := "two", Id := "" }).1
      (GoError.plain "No match found for two") (by decide)).2.1
      { Id := "created-two" } rfl).2⟩

/-- Counterexample to C20 as stated: the lookup of the group by name reports two matches and
fails, and `GetOrCreateAffinityGroup` issues a request to create the group and returns nil. -/
theorem GetOrCreateAffinityGroup_ambiguous_counterexample :
    ((fixtures.withGroupLookup
      { count := 2
        result := Except.error (GoError.plain "There is more then one result for AffinityGroup")
      }).cs.AffinityGroup.GetAffinityGroupByName "two").count > 1 ∧
    (GetOrCreateAffinityGroup (fixtures.withGroupLookup
      { count := 2
        result := Except.error (GoError.plain "There is more then one result for AffinityGroup")
      }) fixtures.cluster0 { Type_ := "host anti-affinity", Name := "two", Id := "" }).err =
      none ∧
    (GetOrCreateAffinityGroup (fixtures.withGroupLookup
      { count := 2
        result := Except.error (GoError.plain "There is more then one result for AffinityGroup")
      }) fixtures.cluster0 { Type_ := "host anti-affinity", Name := "two", Id := "" }).calls =
      [Call.GetAffinityGroupByName "two",
        Call.CreateAffinityGroup
          { name := "two", type_ := "host anti-affinity", account := none, domainid := none }] := by
  decide

/-- C20, amended. Whenever the lookup `FetchAffinityGroup` uses (by ID when the group has one,
by name otherwise) reports more than one match, `FetchAffinityGroup` returns an error and
leaves the group record unchanged; `GetOrCreateAffinityGroup` then, as after any failed fetch,
issues exactly one request to create the group, and returns the error of that request, or nil
with the created ID stored in the group record. -/
theorem GetOrCreateAffinityGroup_ambiguous (c : client) (csCluster : CloudStackCluster)
    (group : AffinityGroup) (hkey : group.Id ≠ "" ∨ group.Name ≠ "")
    (hmany : (if group.Id ≠ "" then c.cs.AffinityGroup.GetAffinityGroupByID group.Id
      else c.cs.AffinityGroup.GetAffinityGroupByName group.Name).count > 1) :
    (FetchAffinityGroup c group).err ≠ none ∧
    (FetchAffinityGroup c group).group = group ∧
    (GetOrCreateAffinityGroup c csCluster group).calls.filter Call.isCreateAffinityGroup =
      [Call.CreateAffinityGroup
        { name := group.Name, type_ := group.Type_
          account := setIfNotEmpty csCluster.Spec.Account
          domainid := setIfNotEmpty csCluster.Status.DomainID }] ∧
    (∀ resp, c.cs.AffinityGroup.CreateAffinityGroup
        { name := group.Name, type_ := group.Type_
          account := setIfNotEmpty csCluster.Spec.Account
          domainid := setIfNotEmpty csCluster.Status.DomainID } = Except.ok resp →
      (GetOrCreateAffinityGroup c csCluster group).err = none ∧
      (GetOrCreateAffinityGroup c csCluster group).group = { group with Id := resp.Id }) ∧
    (∀ e2, c.cs.AffinityGroup.CreateAffinityGroup
        { name := group.Name, type_ := group.Type_
          account := setIfNotEmpty csCluster.Spec.Account
          domainid := setIfNotEmpty csCluster.Status.DomainID } = Except.error e2 →
      (GetOrCreateAffinityGroup c csCluster group).err = some e2 ∧
      (GetOrCreateAffinityGroup c csCluster group).group = group) := by
  have herr : (FetchAffinityGroup c group).err ≠ none := by
    by_cases hid : group.Id ≠ ""
    · rw [if_pos hid] at hmany
      cases hres : (c.cs.AffinityGroup.GetAffinityGroupByID group.Id).result with
      | error e0 => rw [FetchAffinityGroup_byID_error c group e0 hid hres]; simp
      | ok ag0 => rw [FetchAffinityGroup_byID_many c group ag0 hid hres hmany]; simp
    · rw [if_neg hid] at hmany
      have hid0 : group.Id = "" := not_not.mp hid
      have hname : group.Name ≠ "" := hkey.resolve_left hid
      cases hres : (c.cs.AffinityGroup.GetAffinityGroupByName group.Name).result with
      | error e0 => rw [FetchAffinityGroup_byName_error c group e0 hid0 hname hres]; simp
      | ok ag0 => rw [FetchAffinityGroup_byName_many c group ag0 hid0 hname hres hmany]; simp
  obtain ⟨e, he⟩ := Option.ne_none_iff_exists'.mp herr
  exact ⟨herr, FetchAffinityGroup_err_group c group herr,
    GetOrCreateAffinityGroup_of_fetch_err c csCluster group e he⟩

/-- Witness of the amended C20: two matches by name; one request to create the group. -/
theorem GetOrCreateAffinityGroup_ambiguous_witness :
    (fixtures.group1.Id ≠ "" ∨ fixtures.group1.Name ≠ "") ∧
    (GetOrCreateAffinityGroup (fixtures.withGroupLookup
      { count := 2
        result := Except.error (GoError.plain "There is more then one result for AffinityGroup")
      }) fixtures.cluster0 fixtures.group1).calls.filter Call.isCreateAffinityGroup =
      [Call.CreateAffinityGroup
        { name := "one", type_ := "host affinity", account := none, domainid := none }] :=
  ⟨by decide,
    (GetOrCreateAffinityGroup_ambiguous (fixtures.withGroupLookup
      { count := 2
        result := Except.error (GoError.plain "There is more then one result for AffinityGroup")
      }) fixtures.cluster0 fixtures.group1 (by decide) (by decide)).2.2.1⟩

end cloud

namespace cloud
open infrav1

/-! ### Load balancer rules -/

theorem firstRuleWithPort_append (port : String) (pre post : List cloudstack.LoadBalancerRule)
    (rule : cloudstack.LoadBalancerRule) (hpre : ∀ x ∈ pre, x.Publicport ≠ port)
    (hrule : rule.Publicport = port) :
    firstRuleWithPort port (pre ++ rule :: post) = some rule := by
  induction pre with
  | nil => simp [firstRuleWithPort, hrule]
  | cons x pre ih =>
    have hx : x.Publicport ≠ port := hpre x (List.mem_cons_self _ _)
    simp only [List.cons_append, firstRuleWithPort, hx, if_false]
    exact ih fun y hy => hpre y (List.mem_cons_of_mem _ hy)

theorem firstRuleWithPort_none (port : String) (rules : List cloudstack.LoadBalancerRule)
    (h : ∀ x ∈ rules, x.Publicport ≠ port) : firstRuleWithPort port rules = none := by
  induction rules with
  | nil => rfl
  | cons x rules ih =>
    have hx : x.Publicport ≠ port := h x (List.mem_cons_self _ _)
    simp only [firstRuleWithPort, hx, if_false]
    exact ih fun y hy => h y (List.mem_cons_of_mem _ hy)

/-- Counterexample to C21 as stated: the listing of the rules fails with an error whose text
reads "No load balancer rule found", and `GetOrCreateLoadBalancerRule` goes on to create a
rule and returns nil. -/
theorem GetOrCreateLoadBalancerRule_counterexample :
    (fixtures.rulesListingFails
      (GoError.plain "Unable to list rules: No load balancer rule found for the address")
      ).cs.LoadBalancer.ListLoadBalancerRules
        (listLoadBalancerRulesParams (fixtures.clusterWithPort 8443)) =
      Except.error
        (GoError.plain "Unable to list rules: No load balancer rule found for the address") ∧
    (GetOrCreateLoadBalancerRule strings.asciiToLower
      (fixtures.rulesListingFails
        (GoError.plain "Unable to list rules: No load balancer rule found for the address"))
      (fixtures.clusterWithPort 8443)).err = none ∧
    (GetOrCreateLoadBalancerRule strings.asciiToLower
      (fixtures.rulesListingFails
        (GoError.plain "Unable to list rules: No load balancer rule found for the address"))
      (fixtures.clusterWithPort 8443)).calls.any Call.isCreateLoadBalancerRule = true :=
  ⟨rfl, by decide, by decide⟩

/-- C21, amended. Let `ToLower` leave the text "no load balancer rule found" as it is. If the
rules listed for `Status.PublicIPID` hold one whose `Publicport` is the decimal text of the
declared port, `GetOrCreateLoadBalancerRule` sets `Status.LBRuleID` to the ID of the first
such rule, returns nil and issues no request to create a rule. If the listing succeeds with
no such rule, it issues exactly one request to create a rule, with algorithm "roundrobin",
protocol tcp, private port 6443 and as public port the declared port when that is not zero
and 6443 otherwise; when the request succeeds it sets `Status.LBRuleID` to the ID of the
created rule and returns nil, and when it fails it returns that error. If the listing itself
fails with an error whose lower-cased text does not contain "no load balancer rule found", it
returns that error and creates nothing. -/
theorem GetOrCreateLoadBalancerRule_cases (ToLower : String → String) (c : client)
    (csCluster : CloudStackCluster)
    (hlower : ToLower "no load balancer rule found" = "no load balancer rule found") :
    (∀ (pre post : List cloudstack.LoadBalancerRule) (rule : cloudstack.LoadBalancerRule),
      c.cs.LoadBalancer.ListLoadBalancerRules (listLoadBalancerRulesParams csCluster) =
        Except.ok { LoadBalancerRules := pre ++ rule :: post } →
      (∀ x ∈ pre, x.Publicport ≠ strconv.Itoa csCluster.Spec.ControlPlaneEndpoint.Port) →
      rule.Publicport = strconv.Itoa csCluster.Spec.ControlPlaneEndpoint.Port →
      GetOrCreateLoadBalancerRule ToLower c csCluster =
        { err := none
          cluster := { csCluster with Status := { csCluster.Status with LBRuleID := rule.Id } }
          calls := [Call.ListLoadBalancerRules (listLoadBalancerRulesParams csCluster)] }) ∧
    (∀ resp : cloudstack.ListLoadBalancerRulesResponse,
      c.cs.LoadBalancer.ListLoadBalancerRules (listLoadBalancerRulesParams csCluster) =
        Except.ok resp →
      (∀ x ∈ resp.LoadBalancerRules,
        x.Publicport ≠ strconv.Itoa csCluster.Spec.ControlPlaneEndpoint.Port) →
      (GetOrCreateLoadBalancerRule ToLower c csCluster).calls.filter
          Call.isCreateLoadBalancerRule =
        [Call.CreateLoadBalancerRule
          { algorithm := "roundrobin", name := "Kubernetes_API_Server", privateport := 6443
            publicport :=
              if csCluster.Spec.ControlPlaneEndpoint.Port ≠ 0 then
                csCluster.Spec.ControlPlaneEndpoint.Port
              else 6443
            networkid := some csCluster.Status.NetworkID
            publicipid := some csCluster.Status.PublicIPID
            protocol := some "tcp"
            account := setIfNotEmpty csCluster.Spec.Account
            domainid := setIfNotEmpty csCluster.Status.DomainID }] ∧
      (∀ created, c.cs.LoadBalancer.CreateLoadBalancerRule
          { algorithm := "roundrobin", name := "Kubernetes_API_Server", privateport := 6443
            publicport :=
              if csCluster.Spec.ControlPlaneEndpoint.Port ≠ 0 then
                csCluster.Spec.ControlPlaneEndpoint.Port
              else 6443
            networkid := some csCluster.Status.NetworkID
            publicipid := some csCluster.Status.PublicIPID
            protocol := some "tcp"
            account := setIfNotEmpty csCluster.Spec.Account
            domainid := setIfNotEmpty csCluster.Status.DomainID } = Except.ok created →
        (GetOrCreateLoadBalancerRule ToLower c csCluster).err = none ∧
        (GetOrCreateLoadBalancerRule ToLower c csCluster).cluster =
          { csCluster with Status := { csCluster.Status with LBRuleID := created.Id } }) ∧
      (∀ e, c.cs.LoadBalancer.CreateLoadBalancerRule
          { algorithm := "roundrobin", name := "Kubernetes_API_Server", privateport := 6443
            publicport :=
              if csCluster.Spec.ControlPlaneEndpoint.Port ≠ 0 then
                csCluster.Spec.ControlPlaneEndpoint.Port
              else 6443
            networkid := some csCluster.Status.NetworkID
            publicipid := some csCluster.Status.PublicIPID
            protocol := some "tcp"
            account := setIfNotEmpty csCluster.Spec.Account
            domainid := setIfNotEmpty csCluster.Status.DomainID } = Except.error e →
        (GetOrCreateLoadBalancerRule ToLower c csCluster).err = some e ∧
        (GetOrCreateLoadBalancerRule ToLower c csCluster).cluster = csCluster)) ∧
    (∀ e : GoError,
      c.cs.LoadBalancer.ListLoadBalancerRules (listLoadBalancerRulesParams csCluster) =
        Except.error e →
      strings.Contains (ToLower e.Error) "no load balancer rule found" = false →
      GetOrCreateLoadBalancerRule ToLower c csCluster =
        { err := some e, cluster := csCluster
          calls := [Call.ListLoadBalancerRules (listLoadBalancerRulesParams csCluster)] }) := by
  have hcontains : strings.Contains (ToLower (errors.New "no load balancer rule found").Error)
      "no load balancer rule found" = true := by
    have : (errors.New "no load balancer rule found").Error = "no load balancer rule found" :=
      rfl
    rw [this, hlower]
    decide
  refine ⟨?_, ?_, ?_⟩
  · intro pre post rule hlist hpre hrule
    have hfirst := firstRuleWithPort_append _ pre post rule hpre hrule
    unfold GetOrCreateLoadBalancerRule ResolveLoadBalancerRuleDetails
    simp only [hlist, hfirst]
  · intro resp hlist hnone
    have hfirst := firstRuleWithPort_none _ resp.LoadBalancerRules hnone
    have hres : ResolveLoadBalancerRuleDetails c csCluster =
        { err := some (errors.New "no load balancer rule found"), cluster := csCluster
          calls := [Call.ListLoadBalancerRules (listLoadBalancerRulesParams csCluster)] } := by
      unfold ResolveLoadBalancerRuleDetails
      simp only [hlist, hfirst]
    unfold GetOrCreateLoadBalancerRule
    simp only [hres, hcontains, not_true_eq_false, if_false, k8sDefaultAPIPort,
      networkProtocolTCP]
    cases hcreate : c.cs.LoadBalancer.CreateLoadBalancerRule
        { algorithm := "roundrobin", name := "Kubernetes_API_Server", privateport := 6443
          publicport :=
            if csCluster.Spec.ControlPlaneEndpoint.Port ≠ 0 then
              csCluster.Spec.ControlPlaneEndpoint.Port
            else 6443
          networkid := some csCluster.Status.NetworkID
          publicipid := some csCluster.Status.PublicIPID
          protocol := some "tcp"
          account := setIfNotEmpty csCluster.Spec.Account
          domainid := setIfNotEmpty csCluster.Status.DomainID } with
    | error e0 =>
      refine ⟨?_, ?_, ?_⟩
      · simp [Call.isCreateLoadBalancerRule]
      · intro created h; cases h
      · intro e h; cases h; exact ⟨rfl, rfl⟩
    | ok created0 =>
      refine ⟨?_, ?_, ?_⟩
      · simp [Call.isCreateLoadBalancerRule]
      · intro created h; cases h; exact ⟨rfl, rfl⟩
      · intro e h; cases h
  · intro e hlist hnf
    have hres : ResolveLoadBalancerRuleDetails c csCluster =
        { err := some e, cluster := csCluster
          calls := [Call.ListLoadBalancerRules (listLoadBalancerRulesParams csCluster)] } := by
      unfold ResolveLoadBalancerRuleDetails
      simp only [hlist]
    unfold GetOrCreateLoadBalancerRule
    simp only [hres, hnf, Bool.false_eq_true, not_false_eq_true, if_true]

/-- Witness of the amended C21: the declared port is 8443 and the second rule listed has it;
its ID is stored and nothing is created. -/
theorem GetOrCreateLoadBalancerRule_cases_witness :
    strings.asciiToLower "no load balancer rule found" = "no load balancer rule found" ∧
    GetOrCreateLoadBalancerRule strings.asciiToLower
      (fixtures.withRules
        [{ Id := "lb-7", Publicport := "6443" }, { Id := "lb-8", Publicport := "8443" }] "lb-9")
      (fixtures.clusterWithPort 8443) =
      { err := none
        cluster := { fixtures.clusterWithPort 8443 with
          Status := { (fixtures.clusterWithPort 8443).Status with LBRuleID := "lb-8" } }
        calls := [Call.ListLoadBalancerRules
          (listLoadBalancerRulesParams (fixtures.clusterWithPort 8443))] } :=
  ⟨by decide,
    (GetOrCreateLoadBalancerRule_cases strings.asciiToLower
      (fixtures.withRules
        [{ Id := "lb-7", Publicport := "6443" }, { Id := "lb-8", Publicport := "8443" }] "lb-9")
      (fixtures.clusterWithPort 8443) (by decide)).1
      [{ Id := "lb-7", Publicport := "6443" }] [] { Id := "lb-8", Publicport := "8443" }
      rfl (by decide) (by decide)⟩

end cloud

namespace cloud
open infrav1

/-- The run at which the code departs from C22: the declared port is 0, a first call creates
the rule `lb-1` with the default public port 6443, the provider then lists that rule with the
public port 6443, and a second call, which looks for the public port "0", issues another
request to create a rule and overwrites `Status.LBRuleID`. -/
theorem GetOrCreateLoadBalancerRule_rerun_port_zero :
    (GetOrCreateLoadBalancerRule strings.asciiToLower (fixtures.withRules [] "lb-1")
      (fixtures.clusterWithPort 0)).calls.filter Call.isCreateLoadBalancerRule =
      [Call.CreateLoadBalancerRule
        { algorithm := "roundrobin", name := "Kubernetes_API_Server", privateport := 6443
          publicport := 6443, networkid := some "net-1", publicipid := some "ip-5"
          protocol := some "tcp", account := none, domainid := none }] ∧
    (GetOrCreateLoadBalancerRule strings.asciiToLower (fixtures.withRules [] "lb-1")
      (fixtures.clusterWithPort 0)).cluster.Status.LBRuleID = "lb-1" ∧
    (GetOrCreateLoadBalancerRule strings.asciiToLower
      (fixtures.withRules [{ Id := "lb-1", Publicport := "6443" }] "lb-2")
      (GetOrCreateLoadBalancerRule strings.asciiToLower (fixtures.withRules [] "lb-1")
        (fixtures.clusterWithPort 0)).cluster).calls.any Call.isCreateLoadBalancerRule = true ∧
    (GetOrCreateLoadBalancerRule strings.asciiToLower
      (fixtures.withRules [{ Id := "lb-1", Publicport := "6443" }] "lb-2")
      (GetOrCreateLoadBalancerRule strings.asciiToLower (fixtures.withRules [] "lb-1")
        (fixtures.clusterWithPort 0)).cluster).cluster.Status.LBRuleID = "lb-2" := by
  decide

/-- For a declared port other than zero the second call finds the rule the first call created:
when the provider lists that rule, with the public port it was created with, before any other
rule with that public port, a second call creates nothing and stores its ID. -/
theorem GetOrCreateLoadBalancerRule_rerun_port_declared (ToLower : String → String)
    (c : client) (csCluster : CloudStackCluster) (id : String)
    (pre post : List cloudstack.LoadBalancerRule)
    (hlist : c.cs.LoadBalancer.ListLoadBalancerRules (listLoadBalancerRulesParams csCluster) =
      Except.ok { LoadBalancerRules := pre ++
        { Id := id, Publicport := strconv.Itoa csCluster.Spec.ControlPlaneEndpoint.Port } ::
          post })
    (hpre : ∀ x ∈ pre, x.Publicport ≠ strconv.Itoa csCluster.Spec.ControlPlaneEndpoint.Port) :
    GetOrCreateLoadBalancerRule ToLower c csCluster =
      { err := none
        cluster := { csCluster with Status := { csCluster.Status with LBRuleID := id } }
        calls := [Call.ListLoadBalancerRules (listLoadBalancerRulesParams csCluster)] } := by
  have hfirst := firstRuleWithPort_append _ pre post
    { Id := id, Publicport := strconv.Itoa csCluster.Spec.ControlPlaneEndpoint.Port } hpre rfl
  unfold GetOrCreateLoadBalancerRule ResolveLoadBalancerRuleDetails
  simp only [hlist, hfirst]

/-! ### OpenFirewallRules -/

/-- C23. `OpenFirewallRules` returns nil if and only if the request to create the egress rule
succeeded or failed with an error whose lower-cased text contains "there is already"; every
other error of the provider is returned unchanged. Hence, of two calls in sequence where the
provider accepts the first request and rejects the second with such an error, both return
nil. -/
theorem OpenFirewallRules_nil_iff (ToLower : String → String) (c : client)
    (csCluster : CloudStackCluster) :
    ((OpenFirewallRules ToLower c csCluster).err = none ↔
      (c.cs.Firewall.CreateEgressFirewallRule
          { networkid := csCluster.Status.NetworkID, protocol := "tcp" } = none ∨
        ∃ e, c.cs.Firewall.CreateEgressFirewallRule
            { networkid := csCluster.Status.NetworkID, protocol := "tcp" } = some e ∧
          strings.Contains (ToLower e.Error) "there is already" = true)) ∧
    (∀ e, c.cs.Firewall.CreateEgressFirewallRule
        { networkid := csCluster.Status.NetworkID, protocol := "tcp" } = some e →
      strings.Contains (ToLower e.Error) "there is already" = false →
      (OpenFirewallRules ToLower c csCluster).err = some e) ∧
    (OpenFirewallRules ToLower c csCluster).calls =
      [Call.CreateEgressFirewallRule
        { networkid := csCluster.Status.NetworkID, protocol := "tcp" }] ∧
    (∀ (c2 : client) (e : GoError),
      c.cs.Firewall.CreateEgressFirewallRule
        { networkid := csCluster.Status.NetworkID, protocol := "tcp" } = none →
      c2.cs.Firewall.CreateEgressFirewallRule
        { networkid := csCluster.Status.NetworkID, protocol := "tcp" } = some e →
      strings.Contains (ToLower e.Error) "there is already" = true →
      (OpenFirewallRules ToLower c csCluster).err = none ∧
      (OpenFirewallRules ToLower c2 (OpenFirewallRules ToLower c csCluster).cluster).err =
        none) := by
  have hcl : (OpenFirewallRules ToLower c csCluster).cluster = csCluster := rfl
  refine ⟨?_, ?_, rfl, ?_⟩
  · unfold OpenFirewallRules
    simp only [networkProtocolTCP]
    cases hresp : c.cs.Firewall.CreateEgressFirewallRule
        { networkid := csCluster.Status.NetworkID, protocol := "tcp" } with
    | none => simp
    | some e =>
      by_cases hc : strings.Contains (ToLower e.Error) "there is already" = true
      · simp [hc]
      · simp [hc]
  · intro e hresp hc
    unfold OpenFirewallRules
    simp only [networkProtocolTCP, hresp, hc, Bool.false_eq_true, if_false]
  · intro c2 e h1 h2 hc
    rw [hcl]
    constructor
    · unfold OpenFirewallRules
      simp only [networkProtocolTCP, h1]
    · unfold OpenFirewallRules
      simp only [networkProtocolTCP, h2, hc, if_true]

/-- Witness of C23: the provider rejects the request with "There is already a firewall rule",
and `OpenFirewallRules` returns nil. -/
theorem OpenFirewallRules_nil_iff_witness :
    (fixtures.withFirewall (some (GoError.plain "There is already a firewall rule"))
      ).cs.Firewall.CreateEgressFirewallRule
        { networkid := fixtures.cluster0.Status.NetworkID, protocol := "tcp" } =
      some (GoError.plain "There is already a firewall rule") ∧
    (OpenFirewallRules strings.asciiToLower (fixtures.withFirewall none) fixtures.cluster0).err =
      none ∧
    (OpenFirewallRules strings.asciiToLower
      (fixtures.withFirewall (some (GoError.plain "There is already a firewall rule")))
      (OpenFirewallRules strings.asciiToLower (fixtures.withFirewall none)
        fixtures.cluster0).cluster).err = none :=
  ⟨rfl,
    ((OpenFirewallRules_nil_iff strings.asciiToLower (fixtures.withFirewall none)
      fixtures.cluster0).2.2.2
      (fixtures.withFirewall (some (GoError.plain "There is already a firewall rule")))
      (GoError.plain "There is already a firewall rule") rfl rfl (by decide)).1,
    ((OpenFirewallRules_nil_iff strings.asciiToLower (fixtures.withFirewall none)
      fixtures.cluster0).2.2.2
      (fixtures.withFirewall (some (GoError.plain "There is already a firewall rule")))
      (GoError.plain "There is already a firewall rule") rfl rfl (by decide)).2⟩

end cloud

namespace controllers
open infrav1

/-! ### The cluster controller -/

/-- C24. `ReconcileDelete` removes the cluster finalizer if and only if the disposal of the
cluster resources returned no error. When the disposal fails, `ReconcileDelete` returns that
error and the cluster object, its finalizer list included, is exactly as the disposal left
it; so the finalizer list is exactly as it was when the disposal does not touch it. When the
disposal succeeds, it returns nil, every occurrence of the cluster finalizer is gone, and
every other finalizer is kept. -/
theorem ReconcileDelete_finalizer (ClusterFinalizer : String)
    (r : CloudStackClusterReconciliationRunner) :
    (∀ (e : GoError) (subject : CloudStackCluster),
      r.CS.DisposeClusterResources r.ReconciliationSubject = (some e, subject) →
      (ReconcileDelete ClusterFinalizer r).err = some e ∧
      (ReconcileDelete ClusterFinalizer r).res = ctrl.Result.empty ∧
      (ReconcileDelete ClusterFinalizer r).runner.ReconciliationSubject = subject ∧
      (subject.Finalizers = r.ReconciliationSubject.Finalizers →
        (ReconcileDelete ClusterFinalizer r).runner.ReconciliationSubject.Finalizers =
          r.ReconciliationSubject.Finalizers)) ∧
    (∀ subject : CloudStackCluster,
      r.CS.DisposeClusterResources r.ReconciliationSubject = (none, subject) →
      (ReconcileDelete ClusterFinalizer r).err = none ∧
      (ReconcileDelete ClusterFinalizer r).res = ctrl.Result.empty ∧
      ClusterFinalizer ∉
        (ReconcileDelete ClusterFinalizer r).runner.ReconciliationSubject.Finalizers ∧
      (∀ f, f ≠ ClusterFinalizer →
        (f ∈ (ReconcileDelete ClusterFinalizer r).runner.ReconciliationSubject.Finalizers ↔
          f ∈ subject.Finalizers)) ∧
      (ReconcileDelete ClusterFinalizer r).runner.ReconciliationSubject =
        { subject with Finalizers :=
          controllerutil.RemoveFinalizer subject.Finalizers ClusterFinalizer }) := by
  constructor
  · intro e subject h
    have hG : ReconcileDelete ClusterFinalizer r =
        { res := ctrl.Result.empty, err := some e
          runner := { r with ReconciliationSubject := subject } } := by
      unfold ReconcileDelete
      simp only [h]
    rw [hG]
    exact ⟨rfl, rfl, rfl, fun hf => hf⟩
  · intro subject h
    have hG : ReconcileDelete ClusterFinalizer r =
        { res := ctrl.Result.empty, err := none
          runner := { r with ReconciliationSubject := { subject with
            Finalizers := controllerutil.RemoveFinalizer subject.Finalizers
              ClusterFinalizer } } } := by
      unfold ReconcileDelete
      simp only [h]
    rw [hG]
    refine ⟨rfl, rfl, ?_, ?_, rfl⟩
    · simp [controllerutil.RemoveFinalizer]
    · intro f hf
      simp [controllerutil.RemoveFinalizer, hf]

/-- Witness of C24: the disposal fails, and the two finalizers of the cluster stay. -/
theorem ReconcileDelete_finalizer_witness :
    (fixtures.runnerTwoOfThree (some (GoError.plain "network in use"))).CS.DisposeClusterResources
        fixtures.clusterThreeZones =
      (some (GoError.plain "network in use"), fixtures.clusterThreeZones) ∧
    (ReconcileDelete "cloudstackcluster.infrastructure.cluster.x-k8s.io"
      (fixtures.runnerTwoOfThree (some (GoError.plain "network in use")))).err =
      some (GoError.plain "network in use") ∧
    (ReconcileDelete "cloudstackcluster.infrastructure.cluster.x-k8s.io"
      (fixtures.runnerTwoOfThree (some (GoError.plain "network in use")))
      ).runner.ReconciliationSubject.Finalizers =
      ["cloudstackcluster.infrastructure.cluster.x-k8s.io", "other"] :=
  ⟨rfl,
    ((ReconcileDelete_finalizer "cloudstackcluster.infrastructure.cluster.x-k8s.io"
      (fixtures.runnerTwoOfThree (some (GoError.plain "network in use")))).1
      (GoError.plain "network in use") fixtures.clusterThreeZones rfl).1,
    ((ReconcileDelete_finalizer "cloudstackcluster.infrastructure.cluster.x-k8s.io"
      (fixtures.runnerTwoOfThree (some (GoError.plain "network in use")))).1
      (GoError.plain "network in use") fixtures.clusterThreeZones rfl).2.2.2 rfl⟩

/-- C25. For a positive requeue timeout, `VerifyZoneCRDs` never returns an error and leaves
the runner as it is: when the number of declared zones differs from the number of zones found
the result asks for a requeue, and when the two numbers are equal the result is the empty
one. -/
theorem VerifyZoneCRDs_result (RequeueTimeout : Nat)
    (r : CloudStackClusterReconciliationRunner) (hpos : 0 < RequeueTimeout) :
    (VerifyZoneCRDs RequeueTimeout r).err = none ∧
    (VerifyZoneCRDs RequeueTimeout r).runner = r ∧
    (r.ReconciliationSubject.Spec.Zones.length ≠ r.Zones.Items.length →
      (VerifyZoneCRDs RequeueTimeout r).res.isRequeue = true) ∧
    (r.ReconciliationSubject.Spec.Zones.length = r.Zones.Items.length →
      (VerifyZoneCRDs RequeueTimeout r).res = ctrl.Result.empty) := by
  unfold VerifyZoneCRDs
  by_cases h : r.ReconciliationSubject.Spec.Zones.length = r.Zones.Items.length
  · simp [h]
  · simp [h, RequeueWithMessage, ctrl.Result.isRequeue, hpos]

/-- Witness of C25: three zones declared, two found; the result asks for a requeue and there
is no error. -/
theorem VerifyZoneCRDs_result_witness :
    (0 : Nat) < 5 ∧
    (VerifyZoneCRDs 5 (fixtures.runnerTwoOfThree none)).err = none ∧
    (VerifyZoneCRDs 5 (fixtures.runnerTwoOfThree none)).res.isRequeue = true :=
  ⟨by decide, (VerifyZoneCRDs_result 5 (fixtures.runnerTwoOfThree none) (by decide)).1,
    (VerifyZoneCRDs_result 5 (fixtures.runnerTwoOfThree none) (by decide)).2.2.1 (by decide)⟩

theorem mem_keys_fillFailureDomains (m : List (String × Bool)) (items : List CloudStackZone)
    (k : String) :
    k ∈ (fillFailureDomains m items).map Prod.fst ↔
      k ∈ m.map Prod.fst ∨ k ∈ items.map (fun zone => zone.Spec.ID) := by
  induction items generalizing m with
  | nil => simp [fillFailureDomains]
  | cons z items ih =>
    have hcons : fillFailureDomains m (z :: items) =
        fillFailureDomains (GoMap.set m z.Spec.ID true) items := rfl
    rw [hcons, ih, GoMap.mem_keys_set, List.map_cons, List.mem_cons]
    tauto

theorem nodup_keys_fillFailureDomains (m : List (String × Bool)) (items : List CloudStackZone)
    (h : (m.map Prod.fst).Nodup) : ((fillFailureDomains m items).map Prod.fst).Nodup := by
  induction items generalizing m with
  | nil => exact h
  | cons z items ih =>
    have hcons : fillFailureDomains m (z :: items) =
        fillFailureDomains (GoMap.set m z.Spec.ID true) items := rfl
    rw [hcons]
    exact ih _ (GoMap.nodup_keys_set m z.Spec.ID true h)

theorem values_fillFailureDomains (m : List (String × Bool)) (items : List CloudStackZone)
    (h : (m.map Prod.fst).Nodup) (hm : ∀ p ∈ m, p.2 = true) :
    ∀ p ∈ fillFailureDomains m items, p.2 = true := by
  induction items generalizing m with
  | nil => exact hm
  | cons z items ih =>
    have hcons : fillFailureDomains m (z :: items) =
        fillFailureDomains (GoMap.set m z.Spec.ID true) items := rfl
    rw [hcons]
    apply ih _ (GoMap.nodup_keys_set m z.Spec.ID true h)
    rintro ⟨k, v⟩ hp
    rcases (GoMap.mem_set m z.Spec.ID true k v h).mp hp with ⟨_, h2⟩ | ⟨_, h2⟩
    · exact h2
    · exact hm _ h2

/-- C26. `SetFailureDomains` replaces the failure domains: whatever `Status.FailureDomains`
held before, afterwards its keys are exactly the `Spec.ID` values of the zones found, each key
once, and every entry has `ControlPlane` true; so an earlier entry survives only if its key is
such an ID, the map depends on the zones found alone, and running the stage twice gives what
running it once gives. The stage returns the empty result and no error. -/
theorem SetFailureDomains_replaces (r : CloudStackClusterReconciliationRunner) :
    (∀ k, k ∈ (SetFailureDomains r).runner.ReconciliationSubject.Status.FailureDomains.map
        Prod.fst ↔ k ∈ r.Zones.Items.map (fun zone => zone.Spec.ID)) ∧
    ((SetFailureDomains r).runner.ReconciliationSubject.Status.FailureDomains.map
      Prod.fst).Nodup ∧
    (∀ p ∈ (SetFailureDomains r).runner.ReconciliationSubject.Status.FailureDomains,
      p.2 = true) ∧
    (∀ previous : List (String × Bool),
      (SetFailureDomains { r with ReconciliationSubject := { r.ReconciliationSubject with
        Status := { r.ReconciliationSubject.Status with FailureDomains := previous } } }
        ).runner.ReconciliationSubject.Status.FailureDomains =
      (SetFailureDomains r).runner.ReconciliationSubject.Status.FailureDomains) ∧
    (SetFailureDomains (SetFailureDomains r).runner).runner.ReconciliationSubject =
      (SetFailureDomains r).runner.ReconciliationSubject ∧
    (SetFailureDomains r).err = none ∧ (SetFailureDomains r).res = ctrl.Result.empty := by
  refine ⟨?_, ?_, ?_, ?_, rfl, rfl, rfl⟩
  · intro k
    have := mem_keys_fillFailureDomains [] r.Zones.Items k
    simpa [SetFailureDomains] using this
  · exact nodup_keys_fillFailureDomains [] r.Zones.Items (by simp)
  · exact values_fillFailureDomains [] r.Zones.Items (by simp) (by simp)
  · intro previous; rfl

end controllers

namespace webhookutil

theorem length_le_EnsureStringFieldsAreEqual (new old name : String)
    (allErrs : field.ErrorList) :
    allErrs.length ≤ (EnsureStringFieldsAreEqual new old name allErrs).length := by
  unfold EnsureStringFieldsAreEqual
  split
  · simp
  · exact Nat.le_refl _

theorem EnsureStringFieldsAreEqual_same (s name : String) (allErrs : field.ErrorList) :
    EnsureStringFieldsAreEqual s s name allErrs = allErrs := by
  unfold EnsureStringFieldsAreEqual
  simp

theorem AggregateObjErrors_ne_none (allErrs : field.ErrorList) (h : 0 < allErrs.length) :
    AggregateObjErrors allErrs ≠ none := by
  unfold AggregateObjErrors
  have : ¬ allErrs.length = 0 := by omega
  simp [this]

end webhookutil

namespace infrav1

/-! ### ValidateCreate and ValidateUpdate -/

theorem length_le_requireZoneNetworks (errorList : field.ErrorList) (zones : List Zone) :
    errorList.length ≤ (requireZoneNetworks errorList zones).length := by
  induction zones generalizing errorList with
  | nil => exact Nat.le_refl _
  | cons z zones ih =>
    unfold requireZoneNetworks
    rw [List.foldl_cons]
    split
    · refine Nat.le_trans ?_ (ih _)
      simp
    · exact ih _

/-- An object that `ValidateCreate` admits has no identity reference or one of the kind
`Secret`. -/
theorem ValidateCreate_identityRef (r : CloudStackCluster) (h : ValidateCreate r = none)
    (ref : CloudStackIdentityReference) (href : r.Spec.IdentityRef = some ref) :
    ref.Kind = defaultIdentityRefKind := by
  by_contra hk
  apply webhookutil.AggregateObjErrors_ne_none _ _ h
  simp only [href, ne_eq, hk, not_false_eq_true, if_true, List.nil_append]
  have h1 : ∀ L : field.ErrorList, 0 < L.length →
      0 < (if r.Spec.Zones.length ≤ 0 then L ++ [field.Required "spec.Zones" "Zones"]
        else requireZoneNetworks L r.Spec.Zones).length := by
    intro L hL
    split
    · simp
    · exact Nat.lt_of_lt_of_le hL (length_le_requireZoneNetworks L r.Spec.Zones)
  apply h1
  split <;> simp

/-- An object that `ValidateUpdate` admits has no identity reference or one of the kind
`Secret`. -/
theorem ValidateUpdate_identityRef (r old : CloudStackCluster) (h : ValidateUpdate r old = none)
    (ref : CloudStackIdentityReference) (href : r.Spec.IdentityRef = some ref) :
    ref.Kind = defaultIdentityRefKind := by
  by_contra hk
  apply webhookutil.AggregateObjErrors_ne_none _ _ h
  simp only [href, ne_eq, hk, not_false_eq_true, if_true]
  simp

/-- An object whose identity reference is not of the kind `Secret`, which `ValidateCreate`
does not admit, is not admitted by `ValidateUpdate` either, whatever the update changes. -/
theorem ValidateUpdate_rejects_other_kind :
    ValidateCreate (fixtures.clusterWithIdentity "ConfigMap") ≠ none ∧
    ValidateUpdate
      (fixtures.withEndpoint (fixtures.clusterWithIdentity "ConfigMap") "10.0.0.5" 6443)
      (fixtures.clusterWithIdentity "ConfigMap") =
      some [field.Forbidden "spec.identityRef.kind" "must be a Secret"] := by
  decide

/-- C27. For every pair of old and new objects: if the old endpoint host is non-empty and the
new host differs from it, `ValidateUpdate` returns an error. If the old host is empty, an
update that only sets host and port is accepted, for every old object that has no identity
reference or one of the kind `Secret`; these are the objects the webhook admits, so the update
is accepted for every old object that `ValidateCreate`, or `ValidateUpdate` against some
earlier object, admitted. -/
theorem ValidateUpdate_host (r old : CloudStackCluster) :
    (old.Spec.ControlPlaneEndpoint.Host ≠ "" →
      r.Spec.ControlPlaneEndpoint.Host ≠ old.Spec.ControlPlaneEndpoint.Host →
      ValidateUpdate r old ≠ none) ∧
    (old.Spec.ControlPlaneEndpoint.Host = "" →
      (∀ ref, old.Spec.IdentityRef = some ref → ref.Kind = defaultIdentityRefKind) →
      ∀ (host : String) (port : Int),
        ValidateUpdate
          { old with Spec := { old.Spec with
            ControlPlaneEndpoint := { Host := host, Port := port } } } old = none) ∧
    (old.Spec.ControlPlaneEndpoint.Host = "" →
      (ValidateCreate old = none ∨ ∃ older, ValidateUpdate old older = none) →
      ∀ (host : String) (port : Int),
        ValidateUpdate
          { old with Spec := { old.Spec with
            ControlPlaneEndpoint := { Host := host, Port := port } } } old = none) := by
  have hset : old.Spec.ControlPlaneEndpoint.Host = "" →
      (∀ ref, old.Spec.IdentityRef = some ref → ref.Kind = defaultIdentityRefKind) →
      ∀ (host : String) (port : Int),
        ValidateUpdate
          { old with Spec := { old.Spec with
            ControlPlaneEndpoint := { Host := host, Port := port } } } old = none := by
    intro hold hsecret host port
    unfold ValidateUpdate
    simp only [hold, ne_eq, not_true_eq_false, if_false]
    cases ho : old.Spec.IdentityRef with
    | none => simp [webhookutil.AggregateObjErrors]
    | some oldRef =>
      have hk := hsecret oldRef ho
      simp [webhookutil.EnsureStringFieldsAreEqual_same, webhookutil.AggregateObjErrors, hk]
  refine ⟨?_, hset, ?_⟩
  · intro hold hne
    unfold ValidateUpdate
    apply webhookutil.AggregateObjErrors_ne_none
    have h1 : 0 < (webhookutil.EnsureStringFieldsAreEqual r.Spec.ControlPlaneEndpoint.Host
        old.Spec.ControlPlaneEndpoint.Host "controlplaneendpoint.host"
        (if ¬ old.Spec.Zones = r.Spec.Zones then
          ([] : field.ErrorList) ++ [field.Forbidden "spec.Zones"
            "Zones and sub-attributes may not be modified after creation"]
        else [])).length := by
      unfold webhookutil.EnsureStringFieldsAreEqual
      simp [hne]
    have h2 := webhookutil.length_le_EnsureStringFieldsAreEqual
      (runeToString r.Spec.ControlPlaneEndpoint.Port)
      (runeToString old.Spec.ControlPlaneEndpoint.Port) "controlplaneendpoint.port"
      (webhookutil.EnsureStringFieldsAreEqual r.Spec.ControlPlaneEndpoint.Host
        old.Spec.ControlPlaneEndpoint.Host "controlplaneendpoint.host"
        (if ¬ old.Spec.Zones = r.Spec.Zones then
          ([] : field.ErrorList) ++ [field.Forbidden "spec.Zones"
            "Zones and sub-attributes may not be modified after creation"]
        else []))
    simp only [hold, ne_eq, not_false_eq_true, if_true]
    generalize (webhookutil.EnsureStringFieldsAreEqual
      (runeToString r.Spec.ControlPlaneEndpoint.Port)
      (runeToString old.Spec.ControlPlaneEndpoint.Port) "controlplaneendpoint.port"
      (webhookutil.EnsureStringFieldsAreEqual r.Spec.ControlPlaneEndpoint.Host
        old.Spec.ControlPlaneEndpoint.Host "controlplaneendpoint.host"
        (if ¬ old.Spec.Zones = r.Spec.Zones then
          ([] : field.ErrorList) ++ [field.Forbidden "spec.Zones"
            "Zones and sub-attributes may not be modified after creation"]
        else []))) = L at h2 ⊢
    have hL : 0 < L.length := by omega
    have h3 : ∀ (ref oldRef : CloudStackIdentityReference),
        0 < (webhookutil.EnsureStringFieldsAreEqual ref.Name oldRef.Name "identityref.name"
          (webhookutil.EnsureStringFieldsAreEqual ref.Kind oldRef.Kind "identityref.kind"
            L)).length := by
      intro ref oldRef
      have a := webhookutil.length_le_EnsureStringFieldsAreEqual ref.Kind oldRef.Kind
        "identityref.kind" L
      have b := webhookutil.length_le_EnsureStringFieldsAreEqual ref.Name oldRef.Name
        "identityref.name"
        (webhookutil.EnsureStringFieldsAreEqual ref.Kind oldRef.Kind "identityref.kind" L)
      omega
    cases hr : r.Spec.IdentityRef with
    | none => simpa using hL
    | some ref =>
      cases ho : old.Spec.IdentityRef with
      | none =>
        dsimp only
        split
        · simp
        · exact hL
      | some oldRef =>
        dsimp only
        split
        · simp
        · exact h3 ref oldRef
  · intro hold hadm
    apply hset hold
    intro ref href
    rcases hadm with hc | ⟨older, hu⟩
    · exact ValidateCreate_identityRef old hc ref href
    · exact ValidateUpdate_identityRef old older hu ref href

/-- Witness of C27: the host of a cluster that `ValidateCreate` admits is set for the first
time, and a later change of the host is rejected. -/
theorem ValidateUpdate_host_witness :
    ValidateCreate fixtures.admittedCluster = none ∧
    fixtures.admittedCluster.Spec.ControlPlaneEndpoint.Host = "" ∧
    ValidateUpdate
      { fixtures.admittedCluster with
        Spec := { fixtures.admittedCluster.Spec with
          ControlPlaneEndpoint := { Host := "10.0.0.5", Port := 6443 } } }
      fixtures.admittedCluster = none ∧
    ValidateUpdate (fixtures.withEndpoint fixtures.admittedCluster "10.0.0.6" 6443)
      (fixtures.withEndpoint fixtures.admittedCluster "10.0.0.5" 6443) ≠ none :=
  ⟨by decide, rfl,
    (ValidateUpdate_host fixtures.admittedCluster fixtures.admittedCluster).2.2 rfl
      (Or.inl (by decide)) "10.0.0.5" 6443,
    (ValidateUpdate_host (fixtures.withEndpoint fixtures.admittedCluster "10.0.0.6" 6443)
      (fixtures.withEndpoint fixtures.admittedCluster "10.0.0.5" 6443)).1
      (by decide) (by decide)⟩

/-- The run at which the code departs from C28: the old host is non-empty, the old port is
55296 and the new port 55297, nothing else changes, and `ValidateUpdate` returns nil, because
the two ports are compared as the texts `string(port)`, and both are the text of U+FFFD. -/
theorem ValidateUpdate_port_surrogates :
    (fixtures.withEndpoint fixtures.cluster0 "10.0.0.5" 55296).Spec.ControlPlaneEndpoint.Host ≠
      "" ∧
    (fixtures.withEndpoint fixtures.cluster0 "10.0.0.5" 55297).Spec.ControlPlaneEndpoint.Port ≠
      (fixtures.withEndpoint fixtures.cluster0 "10.0.0.5" 55296).Spec.ControlPlaneEndpoint.Port ∧
    runeToString 55297 = runeToString 55296 ∧
    ValidateUpdate (fixtures.withEndpoint fixtures.cluster0 "10.0.0.5" 55297)
      (fixtures.withEndpoint fixtures.cluster0 "10.0.0.5" 55296) = none := by
  decide

/-- A changed port is rejected when the two ports are code points with different texts, as
for two ports below 55296. -/
theorem ValidateUpdate_port_differs (r old : CloudStackCluster)
    (hold : old.Spec.ControlPlaneEndpoint.Host ≠ "")
    (hne : runeToString r.Spec.ControlPlaneEndpoint.Port ≠
      runeToString old.Spec.ControlPlaneEndpoint.Port) :
    ValidateUpdate r old ≠ none := by
  unfold ValidateUpdate
  apply webhookutil.AggregateObjErrors_ne_none
  simp only [hold, ne_eq, not_false_eq_true, if_true]
  have h1 : ∀ M : field.ErrorList, 0 < (webhookutil.EnsureStringFieldsAreEqual
      (runeToString r.Spec.ControlPlaneEndpoint.Port)
      (runeToString old.Spec.ControlPlaneEndpoint.Port) "controlplaneendpoint.port"
      M).length := by
    intro M
    unfold webhookutil.EnsureStringFieldsAreEqual
    simp [hne]
  have h1 := h1 (webhookutil.EnsureStringFieldsAreEqual r.Spec.ControlPlaneEndpoint.Host
    old.Spec.ControlPlaneEndpoint.Host "controlplaneendpoint.host"
    (if ¬ old.Spec.Zones = r.Spec.Zones then
      ([] : field.ErrorList) ++ [field.Forbidden "spec.Zones"
        "Zones and sub-attributes may not be modified after creation"]
    else []))
  generalize (webhookutil.EnsureStringFieldsAreEqual
    (runeToString r.Spec.ControlPlaneEndpoint.Port)
    (runeToString old.Spec.ControlPlaneEndpoint.Port) "controlplaneendpoint.port"
    (webhookutil.EnsureStringFieldsAreEqual r.Spec.ControlPlaneEndpoint.Host
      old.Spec.ControlPlaneEndpoint.Host "controlplaneendpoint.host"
      (if ¬ old.Spec.Zones = r.Spec.Zones then
        ([] : field.ErrorList) ++ [field.Forbidden "spec.Zones"
          "Zones and sub-attributes may not be modified after creation"]
      else []))) = L at h1 ⊢
  have hL : 0 < L.length := h1
  have h3 : ∀ (ref oldRef : CloudStackIdentityReference),
      0 < (webhookutil.EnsureStringFieldsAreEqual ref.Name oldRef.Name "identityref.name"
        (webhookutil.EnsureStringFieldsAreEqual ref.Kind oldRef.Kind "identityref.kind"
          L)).length := by
    intro ref oldRef
    have a := webhookutil.length_le_EnsureStringFieldsAreEqual ref.Kind oldRef.Kind
      "identityref.kind" L
    have b := webhookutil.length_le_EnsureStringFieldsAreEqual ref.Name oldRef.Name
      "identityref.name"
      (webhookutil.EnsureStringFieldsAreEqual ref.Kind oldRef.Kind "identityref.kind" L)
    omega
  cases hr : r.Spec.IdentityRef with
  | none => simpa using hL
  | some ref =>
    cases ho : old.Spec.IdentityRef with
    | none =>
      dsimp only
      split
      · simp
      · exact hL
    | some oldRef =>
      dsimp only
      split
      · simp
      · exact h3 ref oldRef

end infrav1

namespace cloud

open infrav1

/-! ### ResolvePublicIPDetails: the index-0 access -/

/-- C29. When the list response of the provider is well formed (its `Count` is the number of
addresses it returns), `ResolvePublicIPDetails` never reads past the end of the address list:
whenever the branch with the index-0 access is taken (host declared and `Count = 1`) the list
is not empty, and the function returns instead of panicking, for every declared host and every
response. -/
theorem ResolvePublicIPDetails_index_in_range (c : client) (csCluster : CloudStackCluster)
    (hwf : ∀ resp,
      c.cs.Address.ListPublicIpAddresses (listPublicIpAddressesParams csCluster) =
        Except.ok resp →
      resp.Count = (resp.PublicIpAddresses.length : Int)) :
    (∀ resp,
      c.cs.Address.ListPublicIpAddresses (listPublicIpAddressesParams csCluster) =
        Except.ok resp →
      csCluster.Spec.ControlPlaneEndpoint.Host ≠ "" ∧ resp.Count = 1 →
      ∃ a rest, resp.PublicIpAddresses = a :: rest ∧
        ResolvePublicIPDetails c csCluster = Run.ret (Except.ok a)) ∧
    ResolvePublicIPDetails c csCluster ≠ Run.panic ∧
    ∃ x, ResolvePublicIPDetails c csCluster = Run.ret x := by
  have hne : ∀ resp,
      c.cs.Address.ListPublicIpAddresses (listPublicIpAddressesParams csCluster) =
        Except.ok resp →
      csCluster.Spec.ControlPlaneEndpoint.Host ≠ "" ∧ resp.Count = 1 →
      ∃ a rest, resp.PublicIpAddresses = a :: rest ∧
        ResolvePublicIPDetails c csCluster = Run.ret (Except.ok a) := by
    intro resp hresp hbranch
    have hlen := hwf resp hresp
    cases hl : resp.PublicIpAddresses with
    | nil =>
      rw [hl] at hlen
      have h1 := hbranch.2
      rw [hlen] at h1
      simp at h1
    | cons a rest =>
      refine ⟨a, rest, rfl, ?_⟩
      unfold ResolvePublicIPDetails
      simp only [hresp, ne_eq, hbranch.1, not_false_eq_true, hbranch.2, and_self, if_true, hl]
  have hret : ∃ x, ResolvePublicIPDetails c csCluster = Run.ret x := by
    cases hresp : c.cs.Address.ListPublicIpAddresses (listPublicIpAddressesParams csCluster) with
    | error err =>
      refine ⟨Except.error err, ?_⟩
      unfold ResolvePublicIPDetails
      simp only [hresp]
    | ok resp =>
      by_cases hbranch : csCluster.Spec.ControlPlaneEndpoint.Host ≠ "" ∧ resp.Count = 1
      · obtain ⟨a, _, _, ha⟩ := hne resp hresp hbranch
        exact ⟨Except.ok a, ha⟩
      · unfold ResolvePublicIPDetails
        simp only [hresp]
        rw [if_neg hbranch]
        split
        · split
          · exact ⟨_, rfl⟩
          · exact ⟨_, rfl⟩
        · exact ⟨_, rfl⟩
  refine ⟨hne, ?_, hret⟩
  obtain ⟨x, hx⟩ := hret
  rw [hx]
  intro h
  cases h

/-- Witness of C29: the declared host is listed once, and the one address is returned. -/
theorem ResolvePublicIPDetails_index_in_range_witness :
    ResolvePublicIPDetails
      (fixtures.withAddresses { Count := 1, PublicIpAddresses := [fixtures.addr5] })
      fixtures.clusterWithHost ≠ Run.panic :=
  (ResolvePublicIPDetails_index_in_range
    (fixtures.withAddresses { Count := 1, PublicIpAddresses := [fixtures.addr5] })
    fixtures.clusterWithHost
    (fun resp hresp => by
      have h : resp = { Count := 1, PublicIpAddresses := [fixtures.addr5] } :=
        (Except.ok.inj hresp).symm
      rw [h]
      rfl)).2.1

/-- A response that is not well formed: with a declared host, a `Count` of one and no address
in the list, `ResolvePublicIPDetails` panics. -/
theorem ResolvePublicIPDetails_panics_on_malformed (c : client) (csCluster : CloudStackCluster)
    (hhost : csCluster.Spec.ControlPlaneEndpoint.Host ≠ "")
    (hresp : c.cs.Address.ListPublicIpAddresses (listPublicIpAddressesParams csCluster) =
      Except.ok { Count := 1, PublicIpAddresses := [] }) :
    ResolvePublicIPDetails c csCluster = Run.panic := by
  unfold ResolvePublicIPDetails
  simp only [hresp, ne_eq, hhost, not_false_eq_true, and_self, if_true]

end cloud

namespace utils

open cloud

/-! ### IsOwnerDeleted -/

theorem IsOwnerDeleted_panics_of_no_owner (client : clientPkg.Client)
    (capiMachine : capiv1.Machine) (h : GetManagementOwnerRef capiMachine = none) :
    IsOwnerDeleted client capiMachine = Run.panic := by
  unfold IsOwnerDeleted GetKubeadmControlPlaneFromCAPIMachine GetMachineSetFromCAPIMachine
  simp only [h]
  split <;> rfl

theorem GetMachineSetFromCAPIMachine_returns_of_owner (client : clientPkg.Client)
    (capiMachine : capiv1.Machine) (ref : meta.OwnerReference)
    (h : GetManagementOwnerRef capiMachine = some ref) :
    ∃ x, GetMachineSetFromCAPIMachine client capiMachine = Run.ret x := by
  unfold GetMachineSetFromCAPIMachine
  simp only [h]
  repeat' split
  all_goals exact ⟨_, rfl⟩

theorem GetKubeadmControlPlaneFromCAPIMachine_returns_of_owner (client : clientPkg.Client)
    (capiMachine : capiv1.Machine) (ref : meta.OwnerReference)
    (h : GetManagementOwnerRef capiMachine = some ref) :
    ∃ x, GetKubeadmControlPlaneFromCAPIMachine client capiMachine = Run.ret x := by
  unfold GetKubeadmControlPlaneFromCAPIMachine
  simp only [h]
  repeat' split
  all_goals exact ⟨_, rfl⟩

theorem IsOwnerDeleted_returns_of_owner (client : clientPkg.Client)
    (capiMachine : capiv1.Machine) (ref : meta.OwnerReference)
    (h : GetManagementOwnerRef capiMachine = some ref) :
    ∃ x, IsOwnerDeleted client capiMachine = Run.ret x := by
  obtain ⟨a, ha⟩ := GetMachineSetFromCAPIMachine_returns_of_owner client capiMachine ref h
  obtain ⟨b, hb⟩ := GetKubeadmControlPlaneFromCAPIMachine_returns_of_owner client capiMachine
    ref h
  unfold IsOwnerDeleted
  rw [ha, hb]
  obtain ⟨ms, e1⟩ := a
  obtain ⟨cp, e2⟩ := b
  cases ms <;> cases cp <;> dsimp only <;> repeat' split
  all_goals exact ⟨_, rfl⟩

/-- The run at which the code departs from C30: a worker machine without owner references has
no reference of its managing kind, `GetManagementOwnerRef` returns nil, and `IsOwnerDeleted`
panics on reading `ref.APIVersion` instead of returning `(true, nil)`; the same holds for a
control plane machine whose only owner reference is a `MachineSet`. -/
theorem IsOwnerDeleted_orphan_panics :
    GetManagementOwnerRef fixtures.orphanMachine = none ∧
    IsOwnerDeleted fixtures.emptyAPIServer fixtures.orphanMachine = Run.panic ∧
    IsOwnerDeleted fixtures.emptyAPIServer fixtures.orphanMachine ≠ Run.ret (true, none) ∧
    GetManagementOwnerRef fixtures.orphanControlPlaneMachine = none ∧
    IsOwnerDeleted fixtures.emptyAPIServer fixtures.orphanControlPlaneMachine = Run.panic := by
  refine ⟨rfl, rfl, ?_, rfl, rfl⟩
  intro h
  cases h

end utils
